import Mathlib

/-!
# Assignment3 (castle scene demo): frame-resource ring and dirty propagation

A shallow embedding of `Assignment3.cpp`.  The state of the application is
restricted to the components the frame-resource protocol reads and writes:
the ring of frame resources with their fence values and constant buffers,
the ring index, the CPU fence counter, the GPU completion clock, the render
items and the materials.  Scalars are taken from an arbitrary type `α`
(exact arithmetic where arithmetic is needed).  A null or out-of-range access
makes a function return `none`.  The scene assembly `BuildRenderItems` is
embedded block by block.  The later sections embed the mouse handlers,
`DrawRenderItems` (as the list of commands it records), `UpdateWaves` and
`BuildWavesGeometry`; the `Waves` class is defined outside the file and enters
as the interface `WavesApi`, with the wave grid of the specification as one
implementation of it.  The terrain functions `GetHillsHeight` and
`GetHillsNormal` take the library functions `sinf`, `cosf` and `sqrtf` as
parameters; `BuildMaterials` and `BuildDescriptorHeaps` are embedded statement
by statement.  The quarter-second schedule of `UpdateWaves` is embedded twice:
in exact arithmetic (`maybeDisturb`) and with the rounding of the `float`
operations of the source (`maybeDisturbF32`).
-/

namespace Assignment3

/-! ## Constants and math helpers -/

/-- The ring depth: `const int gNumFrameResources = 3;`. -/
def gNumFrameResources : Int := 3

/-- A 4x4 matrix, addressed as `m(row, col)`. -/
abbrev XMFLOAT4X4 (α : Type) := Fin 4 → Fin 4 → α

/-- A three-component vector. -/
abbrev XMFLOAT3 (α : Type) := α × α × α

/-- A four-component vector. -/
abbrev XMFLOAT4 (α : Type) := α × α × α × α

/-- The identity matrix of `MathHelper::Identity4x4()`. -/
def Identity4x4 (α : Type) [Zero α] [One α] : XMFLOAT4X4 α :=
  fun i j => if i = j then 1 else 0

/-- Matrix transpose, as computed by `XMMatrixTranspose`. -/
def XMMatrixTranspose {α : Type} (m : XMFLOAT4X4 α) : XMFLOAT4X4 α :=
  fun i j => m j i

/-! ## Constant payloads and upload buffers -/

/-- The per-object constants written by `UpdateObjectCBs`. -/
structure ObjectConstants (α : Type) where
  World : XMFLOAT4X4 α
  TexTransform : XMFLOAT4X4 α

/-- The per-material constants written by `UpdateMaterialCBs`. -/
structure MaterialConstants (α : Type) where
  DiffuseAlbedo : XMFLOAT4 α
  FresnelR0 : XMFLOAT3 α
  Roughness : α
  MatTransform : XMFLOAT4X4 α

/-- An upload buffer of a fixed number of elements.  An element that was never
written holds `none`.  `copyLog` records the element index of every `CopyData`
call made on the buffer, most recent first. -/
structure UploadBuffer (β : Type) where
  mElements : List (Option β)
  copyLog : List Nat

/-- A fresh buffer of `elementCount` unwritten elements. -/
def UploadBuffer.create (β : Type) (elementCount : Nat) : UploadBuffer β :=
  { mElements := List.replicate elementCount none, copyLog := [] }

/-- The number of elements the buffer was created with. -/
def UploadBuffer.elementCount {β : Type} (cb : UploadBuffer β) : Nat :=
  cb.mElements.length

/-- The call `CopyData(elementIndex, data)`: overwrites one element.  The copy is
not bounds checked by the callers; an index outside the buffer has no defined
behaviour and is reported as `none`. -/
def UploadBuffer.CopyData {β : Type} (cb : UploadBuffer β) (elementIndex : Nat) (data : β) :
    Option (UploadBuffer β) :=
  if elementIndex < cb.mElements.length then
    some { mElements := cb.mElements.set elementIndex (some data),
           copyLog := elementIndex :: cb.copyLog }
  else none

/-- The content of element `i`, when it is inside the buffer and was written. -/
def UploadBuffer.entry {β : Type} (cb : UploadBuffer β) (i : Nat) : Option β :=
  match cb.mElements[i]? with
  | some (some x) => some x
  | _ => none

/-! ## Scene data -/

/-- The primitive topologies used by the render items. -/
inductive PrimitiveTopology where
  | TRIANGLELIST
  | POINTLIST
  deriving DecidableEq, Repr

/-- The draw layers: `enum class RenderLayer`. -/
inductive RenderLayer where
  | Opaque
  | Transparent
  | AlphaTested
  | AlphaTestedTreeSprites
  deriving DecidableEq, Repr

/-- The indexed-draw parameters of one submesh (`DrawArgs[...]`). -/
structure SubmeshGeometry where
  IndexCount : Nat
  StartIndexLocation : Nat
  BaseVertexLocation : Int
  deriving DecidableEq, Repr

/-- The render item: `struct RenderItem`.  `Mat` and `Geo` are the non-owning
references, held as the key of the material and of the mesh (`none` is the null
pointer).  The collision bounds play no part in the frame protocol and are left
out. -/
structure RenderItem (α : Type) where
  World : XMFLOAT4X4 α
  TexTransform : XMFLOAT4X4 α
  NumFramesDirty : Int := gNumFrameResources
  ObjCBIndex : Nat := 4294967295
  Mat : Option String := none
  Geo : Option String := none
  PrimitiveType : PrimitiveTopology := PrimitiveTopology.TRIANGLELIST
  IndexCount : Nat := 0
  StartIndexLocation : Nat := 0
  BaseVertexLocation : Int := 0

/-- The material: the fields of `Material` that this file reads and writes. -/
structure Material (α : Type) where
  Name : String
  MatCBIndex : Nat
  DiffuseSrvHeapIndex : Nat
  NumFramesDirty : Int := gNumFrameResources
  DiffuseAlbedo : XMFLOAT4 α
  FresnelR0 : XMFLOAT3 α
  Roughness : α
  MatTransform : XMFLOAT4X4 α

/-- The frame resource: the fence value recorded for the slot and its object and
material constant buffers. -/
structure FrameResource (α : Type) where
  Fence : Nat
  ObjectCB : UploadBuffer (ObjectConstants α)
  MaterialCB : UploadBuffer (MaterialConstants α)

/-- The constructor call made by `BuildFrameResources` for one slot. -/
def FrameResource.create (α : Type) (objectCount materialCount : Nat) : FrameResource α :=
  { Fence := 0,
    ObjectCB := UploadBuffer.create (ObjectConstants α) objectCount,
    MaterialCB := UploadBuffer.create (MaterialConstants α) materialCount }

/-- The application state.  `gpuCompleted` is the value `mFence->GetCompletedValue()`
would return; `waitLog` records the fence value of every blocking wait, most recent
first.  The fence counter `mCurrentFence` belongs to the framework base class and is
a natural number here. -/
structure App (α : Type) where
  mFrameResources : List (FrameResource α)
  mCurrFrameResource : Option Nat
  mCurrFrameResourceIndex : Int
  mCurrentFence : Nat
  gpuCompleted : Nat
  waitLog : List Nat
  mAllRitems : List (RenderItem α)
  mMaterials : List (String × Material α)

/-- What the environment contributes to one frame: how far the GPU clock moved
since it was last read, how far it runs past an awaited fence value while the CPU is
blocked, and the delta time of the frame. -/
structure FrameInput (α : Type) where
  gpuAdvance : Nat
  waitOvershoot : Nat
  dt : α

/-! ## `Update`: cycling the ring and waiting on the fence -/

/-- Lines 299-311 of `Update`: select slot `(index + 1) % gNumFrameResources`, read
the completed fence value, and block until the GPU has reached the fence of the slot
when that fence is nonzero and not yet reached. -/
def cycleFrameResource {α : Type} (s : App α) (inp : FrameInput α) : Option (App α) :=
  let idx := Int.tmod (s.mCurrFrameResourceIndex + 1) gNumFrameResources
  if 0 ≤ idx then
    match s.mFrameResources[idx.toNat]? with
    | none => none
    | some fr =>
      let completed := s.gpuCompleted + inp.gpuAdvance
      if fr.Fence ≠ 0 ∧ completed < fr.Fence then
        some { s with mCurrFrameResourceIndex := idx,
                      mCurrFrameResource := some idx.toNat,
                      gpuCompleted := fr.Fence + inp.waitOvershoot,
                      waitLog := fr.Fence :: s.waitLog }
      else
        some { s with mCurrFrameResourceIndex := idx,
                      mCurrFrameResource := some idx.toNat,
                      gpuCompleted := completed }
  else none

/-! ## `AnimateMaterials` -/

/-- The body of `AnimateMaterials` applied to the water material: scroll the two
texture offsets and mark the material dirty. -/
def animateWater {α : Type} [LinearOrderedField α] (dt : α) (waterMat : Material α) :
    Material α :=
  let tu := waterMat.MatTransform 3 0 + (1 / 10) * dt
  let tv := waterMat.MatTransform 3 1 + (1 / 50) * dt
  let tu := if tu ≥ 1 then tu - 1 else tu
  let tv := if tv ≥ 1 then tv - 1 else tv
  { waterMat with
    MatTransform := fun i j =>
      if i = 3 ∧ j = 0 then tu else if i = 3 ∧ j = 1 then tv else waterMat.MatTransform i j,
    NumFramesDirty := gNumFrameResources }

/-- Apply `f` to the material stored under `key`; `none` when the key is absent
(the map lookup then yields a null pointer, which the caller dereferences). -/
def modifyMaterial {α : Type} (key : String) (f : Material α → Material α) :
    List (String × Material α) → Option (List (String × Material α))
  | [] => none
  | (k, m) :: rest =>
    if k = key then some ((k, f m) :: rest)
    else match modifyMaterial key f rest with
      | none => none
      | some rest1 => some ((k, m) :: rest1)

/-- The function `AnimateMaterials`. -/
def AnimateMaterials {α : Type} [LinearOrderedField α] (s : App α) (dt : α) : Option (App α) :=
  match modifyMaterial "water" (animateWater dt) s.mMaterials with
  | none => none
  | some mats => some { s with mMaterials := mats }

/-! ## `UpdateObjectCBs` and `UpdateMaterialCBs` -/

/-- The constants `UpdateObjectCBs` stores for a render item. -/
def objectPayload {α : Type} (e : RenderItem α) : ObjectConstants α :=
  { World := XMMatrixTranspose e.World, TexTransform := XMMatrixTranspose e.TexTransform }

/-- The constants `UpdateMaterialCBs` stores for a material. -/
def materialPayload {α : Type} (mat : Material α) : MaterialConstants α :=
  { DiffuseAlbedo := mat.DiffuseAlbedo, FresnelR0 := mat.FresnelR0,
    Roughness := mat.Roughness, MatTransform := XMMatrixTranspose mat.MatTransform }

/-- The loop of `UpdateObjectCBs` over `mAllRitems`, threading the current object
constant buffer. -/
def objectLoop {α : Type} :
    UploadBuffer (ObjectConstants α) → List (RenderItem α) →
      Option (UploadBuffer (ObjectConstants α) × List (RenderItem α))
  | cb, [] => some (cb, [])
  | cb, e :: rest =>
    if e.NumFramesDirty > 0 then
      match cb.CopyData e.ObjCBIndex (objectPayload e) with
      | none => none
      | some cb1 =>
        match objectLoop cb1 rest with
        | none => none
        | some (cb2, rest1) =>
          some (cb2, { e with NumFramesDirty := e.NumFramesDirty - 1 } :: rest1)
    else
      match objectLoop cb rest with
      | none => none
      | some (cb2, rest1) => some (cb2, e :: rest1)

/-- The loop of `UpdateMaterialCBs` over `mMaterials`, threading the current
material constant buffer. -/
def materialLoop {α : Type} :
    UploadBuffer (MaterialConstants α) → List (String × Material α) →
      Option (UploadBuffer (MaterialConstants α) × List (String × Material α))
  | cb, [] => some (cb, [])
  | cb, (k, mat) :: rest =>
    if mat.NumFramesDirty > 0 then
      match cb.CopyData mat.MatCBIndex (materialPayload mat) with
      | none => none
      | some cb1 =>
        match materialLoop cb1 rest with
        | none => none
        | some (cb2, rest1) =>
          some (cb2, (k, { mat with NumFramesDirty := mat.NumFramesDirty - 1 }) :: rest1)
    else
      match materialLoop cb rest with
      | none => none
      | some (cb2, rest1) => some (cb2, (k, mat) :: rest1)

/-- The function `UpdateObjectCBs`: writes through `mCurrFrameResource`. -/
def UpdateObjectCBs {α : Type} (s : App α) : Option (App α) :=
  match s.mCurrFrameResource with
  | none => none
  | some k =>
    match s.mFrameResources[k]? with
    | none => none
    | some fr =>
      match objectLoop fr.ObjectCB s.mAllRitems with
      | none => none
      | some (cb, items) =>
        some { s with mFrameResources := s.mFrameResources.set k { fr with ObjectCB := cb },
                      mAllRitems := items }

/-- The function `UpdateMaterialCBs`: writes through `mCurrFrameResource`. -/
def UpdateMaterialCBs {α : Type} (s : App α) : Option (App α) :=
  match s.mCurrFrameResource with
  | none => none
  | some k =>
    match s.mFrameResources[k]? with
    | none => none
    | some fr =>
      match materialLoop fr.MaterialCB s.mMaterials with
      | none => none
      | some (cb, mats) =>
        some { s with mFrameResources := s.mFrameResources.set k { fr with MaterialCB := cb },
                      mMaterials := mats }

/-! ## The frame: `Update` then `Draw` -/

/-- The function `Update`.  The keyboard and camera updates that come first, and
`UpdateMainPassCB` and `UpdateWaves` that come last, write only the camera, the pass
constants and the wave vertex buffer, none of which is part of `App`. -/
def Update {α : Type} [LinearOrderedField α] (s : App α) (inp : FrameInput α) :
    Option (App α) :=
  match cycleFrameResource s inp with
  | none => none
  | some s1 =>
    match AnimateMaterials s1 inp.dt with
    | none => none
    | some s2 =>
      match UpdateObjectCBs s2 with
      | none => none
      | some s3 => UpdateMaterialCBs s3

/-- The function `Draw`, as far as the ring is concerned: after the commands are
submitted, `mCurrFrameResource->Fence = ++mCurrentFence;`. -/
def Draw {α : Type} (s : App α) : Option (App α) :=
  match s.mCurrFrameResource with
  | none => none
  | some k =>
    match s.mFrameResources[k]? with
    | none => none
    | some fr =>
      some { s with mCurrentFence := s.mCurrentFence + 1,
                    mFrameResources :=
                      s.mFrameResources.set k { fr with Fence := s.mCurrentFence + 1 } }

/-- One iteration of the frame loop. -/
def frame {α : Type} [LinearOrderedField α] (s : App α) (inp : FrameInput α) :
    Option (App α) :=
  match Update s inp with
  | none => none
  | some s1 => Draw s1

/-- The frame loop over a list of frame inputs. -/
def runFrames {α : Type} [LinearOrderedField α] : App α → List (FrameInput α) → Option (App α)
  | s, [] => some s
  | s, inp :: rest =>
    match frame s inp with
    | none => none
    | some s1 => runFrames s1 rest


/-! ## Auxiliary definitions used in the statements -/

/-- The generic shape shared by the two update loops: every element whose dirty
counter is positive is copied into the buffer at its index and replaced by `dec`. -/
def uploadLoop {E β : Type} (dirty : E → Int) (index : E → Nat) (payload : E → β)
    (dec : E → E) : UploadBuffer β → List E → Option (UploadBuffer β × List E)
  | cb, [] => some (cb, [])
  | cb, e :: rest =>
    if dirty e > 0 then
      match cb.CopyData (index e) (payload e) with
      | none => none
      | some cb1 =>
        match uploadLoop dirty index payload dec cb1 rest with
        | none => none
        | some (cb2, rest1) => some (cb2, dec e :: rest1)
    else
      match uploadLoop dirty index payload dec cb rest with
      | none => none
      | some (cb2, rest1) => some (cb2, e :: rest1)

/-- The render item with its dirty counter decremented. -/
def RenderItem.decDirty {α : Type} (e : RenderItem α) : RenderItem α :=
  { e with NumFramesDirty := e.NumFramesDirty - 1 }

/-- The material with its dirty counter decremented. -/
def Material.decDirty {α : Type} (mat : Material α) : Material α :=
  { mat with NumFramesDirty := mat.NumFramesDirty - 1 }

/-- What one pass of `UpdateObjectCBs` does to a render item. -/
def tickItem {α : Type} (e : RenderItem α) : RenderItem α :=
  if e.NumFramesDirty > 0 then e.decDirty else e

/-- What one pass of `UpdateMaterialCBs` does to a map entry. -/
def tickMaterial {α : Type} (km : String × Material α) : String × Material α :=
  if km.2.NumFramesDirty > 0 then (km.1, km.2.decDirty) else km

/-- The ring has `gNumFrameResources` slots and the ring index addresses one. -/
def RingOk {α : Type} (s : App α) : Prop :=
  s.mFrameResources.length = 3 ∧
    0 ≤ s.mCurrFrameResourceIndex ∧ s.mCurrFrameResourceIndex < gNumFrameResources

/-- Every constant index lies inside the buffers of every slot. -/
def BuffersOk {α : Type} (s : App α) : Prop :=
  ∀ fr ∈ s.mFrameResources,
    (∀ e ∈ s.mAllRitems, e.ObjCBIndex < fr.ObjectCB.elementCount) ∧
    (∀ km ∈ s.mMaterials, km.2.MatCBIndex < fr.MaterialCB.elementCount)

/-- The material map has an entry named water. -/
def HasWater {α : Type} (s : App α) : Prop :=
  "water" ∈ s.mMaterials.map Prod.fst

/-- The states in which a frame runs without a null or out-of-range access. -/
def Runnable {α : Type} (s : App α) : Prop :=
  RingOk s ∧ BuffersOk s ∧ HasWater s

/-- No two render items share an object constant index, and no two materials
share a material constant index. -/
def IndicesDistinct {α : Type} (s : App α) : Prop :=
  (s.mAllRitems.map (fun e => e.ObjCBIndex)).Nodup ∧
    (s.mMaterials.map (fun km => km.2.MatCBIndex)).Nodup

/-- The fence value recorded in slot `j` (0 when there is no such slot). -/
def slotFence {α : Type} (s : App α) (j : Nat) : Nat :=
  match s.mFrameResources[j]? with
  | some fr => fr.Fence
  | none => 0

/-- The object constants stored in slot `j` at element `i`. -/
def objectEntry {α : Type} (s : App α) (j i : Nat) : Option (ObjectConstants α) :=
  match s.mFrameResources[j]? with
  | some fr => fr.ObjectCB.entry i
  | none => none

/-- The material constants stored in slot `j` at element `i`. -/
def materialEntry {α : Type} (s : App α) (j i : Nat) : Option (MaterialConstants α) :=
  match s.mFrameResources[j]? with
  | some fr => fr.MaterialCB.entry i
  | none => none


/-- How many `CopyData` calls slot `j` has received for object element `i`. -/
def objectCopyCount {α : Type} (s : App α) (j i : Nat) : Nat :=
  match s.mFrameResources[j]? with
  | some fr => fr.ObjectCB.copyLog.count i
  | none => 0

/-- How many `CopyData` calls slot `j` has received for material element `i`. -/
def materialCopyCount {α : Type} (s : App α) (j i : Nat) : Nat :=
  match s.mFrameResources[j]? with
  | some fr => fr.MaterialCB.copyLog.count i
  | none => 0

/-- Every recorded fence value is at most the fence counter, and two distinct slots
record the same fence value only when that value is 0. -/
def FenceInv {α : Type} (s : App α) : Prop :=
  (∀ j, j < s.mFrameResources.length → slotFence s j ≤ s.mCurrentFence) ∧
    (∀ i, i < s.mFrameResources.length → ∀ j, j < s.mFrameResources.length →
      i ≠ j → slotFence s i = slotFence s j → slotFence s i = 0)

instance instDecidableRingOk {α : Type} (s : App α) : Decidable (RingOk s) := by
  unfold RingOk; infer_instance

instance instDecidableBuffersOk {α : Type} (s : App α) : Decidable (BuffersOk s) := by
  unfold BuffersOk; infer_instance

instance instDecidableHasWater {α : Type} (s : App α) : Decidable (HasWater s) := by
  unfold HasWater; infer_instance

instance instDecidableRunnable {α : Type} (s : App α) : Decidable (Runnable s) := by
  unfold Runnable; infer_instance

instance instDecidableIndicesDistinct {α : Type} (s : App α) :
    Decidable (IndicesDistinct s) := by
  unfold IndicesDistinct; infer_instance

instance instDecidableFenceInv {α : Type} (s : App α) : Decidable (FenceInv s) := by
  unfold FenceInv; infer_instance

/-- The slots made by `BuildFrameResources`: `gNumFrameResources` fresh frame
resources sized for `objectCount` render items and `materialCount` materials. -/
def BuildFrameResources (α : Type) (objectCount materialCount : Nat) :
    List (FrameResource α) :=
  (List.range gNumFrameResources.toNat).map
    (fun _ => FrameResource.create α objectCount materialCount)

/-! ## A small concrete scene over the rationals -/

/-- A render item with identity transforms and the given constant index. -/
def demoItem (i : Nat) : RenderItem ℚ :=
  { World := Identity4x4 ℚ, TexTransform := Identity4x4 ℚ, ObjCBIndex := i }

/-- A material with the given name and constant index. -/
def demoMaterial (name : String) (i : Nat) : Material ℚ :=
  { Name := name, MatCBIndex := i, DiffuseSrvHeapIndex := i,
    DiffuseAlbedo := (1, 1, 1, 1), FresnelR0 := (1 / 100, 1 / 100, 1 / 100),
    Roughness := 1 / 8, MatTransform := Identity4x4 ℚ }

/-- A start state with two render items and two materials, as left by the
initialisation: fresh slots, ring index 0, no current frame resource yet. -/
def demoApp : App ℚ :=
  { mFrameResources := BuildFrameResources ℚ 2 2,
    mCurrFrameResource := none,
    mCurrFrameResourceIndex := 0,
    mCurrentFence := 1,
    gpuCompleted := 1,
    waitLog := [],
    mAllRitems := [demoItem 0, demoItem 1],
    mMaterials := [("grass", demoMaterial "grass" 0), ("water", demoMaterial "water" 1)] }

/-- The concrete start state after the ring step selected slot 1. -/
def demoSelected : App ℚ :=
  { demoApp with mCurrFrameResource := some 1, mCurrFrameResourceIndex := 1 }

/-- The state `Draw` leaves when run on `demoSelected`. -/
def demoDrawn : App ℚ :=
  { demoSelected with
    mCurrentFence := 2,
    mFrameResources :=
      [FrameResource.create ℚ 2 2, { FrameResource.create ℚ 2 2 with Fence := 2 },
        FrameResource.create ℚ 2 2] }

/-- The concrete state after the ring step, with the first render item and the
grass material already clean. -/
def demoMixed : App ℚ :=
  { demoSelected with
    mAllRitems := [{ demoItem 0 with NumFramesDirty := 0 }, demoItem 1],
    mMaterials := [("grass", { demoMaterial "grass" 0 with NumFramesDirty := 0 }),
      ("water", demoMaterial "water" 1)] }

/-- A frame in which the GPU makes no progress. -/
def stalledInput : FrameInput ℚ := { gpuAdvance := 0, waitOvershoot := 0, dt := 1 / 60 }

/-! ## Scene assembly: `BuildRenderItems` -/

/-- What `BuildRenderItems` writes into a render item, apart from the placement
data: the constant index, the keys of the material, of the mesh and of the submesh
whose draw arguments are copied, and the primitive topology. -/
structure ItemRecord where
  ObjCBIndex : Nat
  Mat : String
  Geo : String
  Submesh : String
  PrimitiveType : PrimitiveTopology
  deriving DecidableEq, Repr

/-- The render items under construction.  `heap` holds the objects made by
`make_unique`, in creation order; a pointer to a render item is its position in
`heap`.  `mAllRitems` holds the owning pointers, `mRitemLayer` the non-owning
pointers of each draw layer, both in `push_back` order. -/
structure Scene where
  heap : List ItemRecord
  mAllRitems : List Nat
  mRitemLayer : RenderLayer → List Nat
  mWavesRitem : Option Nat

/-- The scene before `BuildRenderItems`. -/
def Scene.empty : Scene :=
  { heap := [], mAllRitems := [], mRitemLayer := fun _ => [], mWavesRitem := none }

/-- One block of `BuildRenderItems`: `make_unique<RenderItem>()`, the assignments to
the fields of the new item, and the `push_back` of its pointer on a draw layer.
Returns the pointer and the new scene. -/
def Scene.addItem (sc : Scene) (objCBIndex : Nat) (mat geo submesh : String)
    (primitiveType : PrimitiveTopology) (layer : RenderLayer) : Nat × Scene :=
  let p := sc.heap.length
  let item : ItemRecord :=
    { ObjCBIndex := objCBIndex, Mat := mat, Geo := geo, Submesh := submesh,
      PrimitiveType := primitiveType }
  (p, { sc with
        heap := sc.heap ++ [item],
        mRitemLayer := fun l => if l = layer then sc.mRitemLayer l ++ [p] else sc.mRitemLayer l })

/-- The statement `mAllRitems.push_back(std::move(p))`. -/
def Scene.own (sc : Scene) (p : Nat) : Scene :=
  { sc with mAllRitems := sc.mAllRitems ++ [p] }

/-- The records of the render items owned by `mAllRitems`, in order. -/
def Scene.owned (sc : Scene) : List ItemRecord :=
  sc.mAllRitems.filterMap (fun p => sc.heap[p]?)

/-- The function `BuildRenderItems`, block by block in source order; the three
loops create and own their items at once, all other items are owned at the end.
The stores of `World` and `TexTransform` are placement data, supplied when a record is
turned into a render item; the camera and collision bounds are not part of the
scene state. -/
def BuildRenderItems : Scene :=
  let sc : Scene := Scene.empty
  let r : Nat × Scene := sc.addItem 0 "water" "waterGeo" "grid"
    PrimitiveTopology.TRIANGLELIST RenderLayer.Transparent
  let wavesRitem : Nat := r.1
  let sc : Scene := { r.2 with mWavesRitem := some wavesRitem }
  let r : Nat × Scene := sc.addItem 1 "grass" "landGeo" "grid"
    PrimitiveTopology.TRIANGLELIST RenderLayer.Opaque
  let gridRitem : Nat := r.1
  let sc : Scene := r.2
  let r : Nat × Scene := sc.addItem 2 "wirefence" "boxGeo" "box"
    PrimitiveTopology.TRIANGLELIST RenderLayer.AlphaTested
  let Gate : Nat := r.1
  let sc : Scene := r.2
  let r : Nat × Scene := sc.addItem 3 "crate" "boxGeo" "box"
    PrimitiveTopology.TRIANGLELIST RenderLayer.AlphaTested
  let crate1 : Nat := r.1
  let sc : Scene := r.2
  let r : Nat × Scene := sc.addItem 4 "wall1" "boxGeo" "box"
    PrimitiveTopology.TRIANGLELIST RenderLayer.AlphaTested
  let bWall1 : Nat := r.1
  let sc : Scene := r.2
  let r : Nat × Scene := sc.addItem 5 "wall1" "boxGeo" "box"
    PrimitiveTopology.TRIANGLELIST RenderLayer.AlphaTested
  let bWall2 : Nat := r.1
  let sc : Scene := r.2
  let r : Nat × Scene := sc.addItem 6 "wall1" "boxGeo" "box"
    PrimitiveTopology.TRIANGLELIST RenderLayer.AlphaTested
  let bWall3 : Nat := r.1
  let sc : Scene := r.2
  let r : Nat × Scene := sc.addItem 7 "wall1" "boxGeo" "box"
    PrimitiveTopology.TRIANGLELIST RenderLayer.AlphaTested
  let bWall4 : Nat := r.1
  let sc : Scene := r.2
  let r : Nat × Scene := sc.addItem 8 "wall1" "boxGeo" "box"
    PrimitiveTopology.TRIANGLELIST RenderLayer.AlphaTested
  let bWall5 : Nat := r.1
  let sc : Scene := r.2
  let r : Nat × Scene := sc.addItem 9 "wall1" "boxGeo" "box"
    PrimitiveTopology.TRIANGLELIST RenderLayer.AlphaTested
  let fWall1 : Nat := r.1
  let sc : Scene := r.2
  let r : Nat × Scene := sc.addItem 10 "wall1" "boxGeo" "box"
    PrimitiveTopology.TRIANGLELIST RenderLayer.AlphaTested
  let fWall2 : Nat := r.1
  let sc : Scene := r.2
  let r : Nat × Scene := sc.addItem 11 "wall1" "boxGeo" "box"
    PrimitiveTopology.TRIANGLELIST RenderLayer.AlphaTested
  let fWall3 : Nat := r.1
  let sc : Scene := r.2
  let r : Nat × Scene := sc.addItem 12 "wall1" "boxGeo" "box"
    PrimitiveTopology.TRIANGLELIST RenderLayer.AlphaTested
  let fWall4 : Nat := r.1
  let sc : Scene := r.2
  let r : Nat × Scene := sc.addItem 13 "wall1" "boxGeo" "box"
    PrimitiveTopology.TRIANGLELIST RenderLayer.AlphaTested
  let fWallLedge1 : Nat := r.1
  let sc : Scene := r.2
  let r : Nat × Scene := sc.addItem 14 "wall1" "boxGeo" "box"
    PrimitiveTopology.TRIANGLELIST RenderLayer.AlphaTested
  let fWallLedge2 : Nat := r.1
  let sc : Scene := r.2
  let r : Nat × Scene := sc.addItem 15 "wall1" "boxGeo" "box"
    PrimitiveTopology.TRIANGLELIST RenderLayer.AlphaTested
  let rWall1 : Nat := r.1
  let sc : Scene := r.2
  let r : Nat × Scene := sc.addItem 16 "wall1" "boxGeo" "box"
    PrimitiveTopology.TRIANGLELIST RenderLayer.AlphaTested
  let rWall2 : Nat := r.1
  let sc : Scene := r.2
  let r : Nat × Scene := sc.addItem 17 "wall1" "boxGeo" "box"
    PrimitiveTopology.TRIANGLELIST RenderLayer.AlphaTested
  let rWall3 : Nat := r.1
  let sc : Scene := r.2
  let r : Nat × Scene := sc.addItem 18 "wall1" "boxGeo" "box"
    PrimitiveTopology.TRIANGLELIST RenderLayer.AlphaTested
  let rWall4 : Nat := r.1
  let sc : Scene := r.2
  let r : Nat × Scene := sc.addItem 19 "wall1" "boxGeo" "box"
    PrimitiveTopology.TRIANGLELIST RenderLayer.AlphaTested
  let rWall5 : Nat := r.1
  let sc : Scene := r.2
  let r : Nat × Scene := sc.addItem 20 "wall1" "boxGeo" "box"
    PrimitiveTopology.TRIANGLELIST RenderLayer.AlphaTested
  let lWall1 : Nat := r.1
  let sc : Scene := r.2
  let r : Nat × Scene := sc.addItem 21 "wall1" "boxGeo" "box"
    PrimitiveTopology.TRIANGLELIST RenderLayer.AlphaTested
  let lWall2 : Nat := r.1
  let sc : Scene := r.2
  let r : Nat × Scene := sc.addItem 22 "wall1" "boxGeo" "box"
    PrimitiveTopology.TRIANGLELIST RenderLayer.AlphaTested
  let lWall3 : Nat := r.1
  let sc : Scene := r.2
  let r : Nat × Scene := sc.addItem 23 "wall1" "boxGeo" "box"
    PrimitiveTopology.TRIANGLELIST RenderLayer.AlphaTested
  let lWall4 : Nat := r.1
  let sc : Scene := r.2
  let r : Nat × Scene := sc.addItem 24 "wall1" "boxGeo" "box"
    PrimitiveTopology.TRIANGLELIST RenderLayer.AlphaTested
  let lWall5 : Nat := r.1
  let sc : Scene := r.2
  let r : Nat × Scene := sc.addItem 25 "wall1" "cylinderGeo" "cylinder"
    PrimitiveTopology.TRIANGLELIST RenderLayer.AlphaTested
  let fRTower : Nat := r.1
  let sc : Scene := r.2
  let r : Nat × Scene := sc.addItem 26 "wall1" "cylinderGeo" "cylinder"
    PrimitiveTopology.TRIANGLELIST RenderLayer.AlphaTested
  let fLTower : Nat := r.1
  let sc : Scene := r.2
  let r : Nat × Scene := sc.addItem 27 "wall1" "cylinderGeo" "cylinder"
    PrimitiveTopology.TRIANGLELIST RenderLayer.AlphaTested
  let bRTower : Nat := r.1
  let sc : Scene := r.2
  let r : Nat × Scene := sc.addItem 28 "wall1" "cylinderGeo" "cylinder"
    PrimitiveTopology.TRIANGLELIST RenderLayer.AlphaTested
  let bLTower : Nat := r.1
  let sc : Scene := r.2
  let r : Nat × Scene := sc.addItem 29 "roof1" "coneGeo" "cone"
    PrimitiveTopology.TRIANGLELIST RenderLayer.AlphaTested
  let fRCone : Nat := r.1
  let sc : Scene := r.2
  let r : Nat × Scene := sc.addItem 30 "roof1" "coneGeo" "cone"
    PrimitiveTopology.TRIANGLELIST RenderLayer.AlphaTested
  let fLCone : Nat := r.1
  let sc : Scene := r.2
  let r : Nat × Scene := sc.addItem 31 "roof1" "coneGeo" "cone"
    PrimitiveTopology.TRIANGLELIST RenderLayer.AlphaTested
  let bRCone : Nat := r.1
  let sc : Scene := r.2
  let r : Nat × Scene := sc.addItem 32 "roof1" "coneGeo" "cone"
    PrimitiveTopology.TRIANGLELIST RenderLayer.AlphaTested
  let bLCone : Nat := r.1
  let sc : Scene := r.2
  let r : Nat × Scene := sc.addItem 33 "wall1" "boxGeo" "box"
    PrimitiveTopology.TRIANGLELIST RenderLayer.AlphaTested
  let lGateWall : Nat := r.1
  let sc : Scene := r.2
  let r : Nat × Scene := sc.addItem 34 "wall1" "boxGeo" "box"
    PrimitiveTopology.TRIANGLELIST RenderLayer.AlphaTested
  let rGateWall : Nat := r.1
  let sc : Scene := r.2
  let r : Nat × Scene := sc.addItem 35 "wall1" "boxGeo" "box"
    PrimitiveTopology.TRIANGLELIST RenderLayer.AlphaTested
  let gateHouseRoof : Nat := r.1
  let sc : Scene := r.2
  let r : Nat × Scene := sc.addItem 36 "wood1" "walk1Geo" "walk1"
    PrimitiveTopology.TRIANGLELIST RenderLayer.AlphaTested
  let gateHouseFloor : Nat := r.1
  let sc : Scene := r.2
  let r : Nat × Scene := sc.addItem 37 "wood1" "walk1Geo" "walk1"
    PrimitiveTopology.TRIANGLELIST RenderLayer.AlphaTested
  let gateHouseWalkWay : Nat := r.1
  let sc : Scene := r.2
  let r : Nat × Scene := sc.addItem 38 "wall1" "boxGeo" "box"
    PrimitiveTopology.TRIANGLELIST RenderLayer.AlphaTested
  let fgateHouseLedgeMid : Nat := r.1
  let sc : Scene := r.2
  let r : Nat × Scene := sc.addItem 39 "wall1" "boxGeo" "box"
    PrimitiveTopology.TRIANGLELIST RenderLayer.AlphaTested
  let fgateHouseLedgeLeft : Nat := r.1
  let sc : Scene := r.2
  let r : Nat × Scene := sc.addItem 40 "wall1" "boxGeo" "box"
    PrimitiveTopology.TRIANGLELIST RenderLayer.AlphaTested
  let fgateHouseLedgeRight : Nat := r.1
  let sc : Scene := r.2
  let r : Nat × Scene := sc.addItem 41 "wall1" "boxGeo" "box"
    PrimitiveTopology.TRIANGLELIST RenderLayer.AlphaTested
  let fgateHouseLedge2 : Nat := r.1
  let sc : Scene := r.2
  let r : Nat × Scene := sc.addItem 42 "wall1" "boxGeo" "box"
    PrimitiveTopology.TRIANGLELIST RenderLayer.AlphaTested
  let fgateHouseLedge3 : Nat := r.1
  let sc : Scene := r.2
  let r : Nat × Scene := sc.addItem 43 "wall1" "boxGeo" "box"
    PrimitiveTopology.TRIANGLELIST RenderLayer.AlphaTested
  let bgateHouseLedgeMid : Nat := r.1
  let sc : Scene := r.2
  let r : Nat × Scene := sc.addItem 44 "wall1" "boxGeo" "box"
    PrimitiveTopology.TRIANGLELIST RenderLayer.AlphaTested
  let bgateHouseLedgeLeft : Nat := r.1
  let sc : Scene := r.2
  let r : Nat × Scene := sc.addItem 45 "wall1" "boxGeo" "box"
    PrimitiveTopology.TRIANGLELIST RenderLayer.AlphaTested
  let bgateHouseLedgeRight : Nat := r.1
  let sc : Scene := r.2
  let objCBIndexOffset : Nat := 46
  let sc : Scene := (List.range 13).foldl (fun (sc : Scene) (i : Nat) =>
    let r : Nat × Scene := sc.addItem (objCBIndexOffset + i) "wall1" "wedgeGeo" "wedge"
      PrimitiveTopology.TRIANGLELIST RenderLayer.AlphaTested
    r.2.own r.1) sc
  let r : Nat × Scene := sc.addItem 59 "wood1" "walk1Geo" "walk1"
    PrimitiveTopology.TRIANGLELIST RenderLayer.AlphaTested
  let fRWallWalk : Nat := r.1
  let sc : Scene := r.2
  let r : Nat × Scene := sc.addItem 60 "wood1" "walk1Geo" "walk1"
    PrimitiveTopology.TRIANGLELIST RenderLayer.AlphaTested
  let fRWallWalk2 : Nat := r.1
  let sc : Scene := r.2
  let r : Nat × Scene := sc.addItem 61 "wood1" "walk1Geo" "walk1"
    PrimitiveTopology.TRIANGLELIST RenderLayer.AlphaTested
  let fLWallWalk : Nat := r.1
  let sc : Scene := r.2
  let r : Nat × Scene := sc.addItem 62 "wood1" "walk1Geo" "walk1"
    PrimitiveTopology.TRIANGLELIST RenderLayer.AlphaTested
  let fLWallWalk2 : Nat := r.1
  let sc : Scene := r.2
  let r : Nat × Scene := sc.addItem 63 "wood1" "walk4Geo" "walk4"
    PrimitiveTopology.TRIANGLELIST RenderLayer.AlphaTested
  let lWallWalkWay : Nat := r.1
  let sc : Scene := r.2
  let r : Nat × Scene := sc.addItem 64 "wood1" "walk3Geo" "walk3"
    PrimitiveTopology.TRIANGLELIST RenderLayer.AlphaTested
  let rWallWalkWay : Nat := r.1
  let sc : Scene := r.2
  let r : Nat × Scene := sc.addItem 65 "wood1" "walk2Geo" "walk2"
    PrimitiveTopology.TRIANGLELIST RenderLayer.AlphaTested
  let bWallWalkWay : Nat := r.1
  let sc : Scene := r.2
  let r : Nat × Scene := sc.addItem 66 "crate" "boxGeo" "box"
    PrimitiveTopology.TRIANGLELIST RenderLayer.AlphaTested
  let crate2 : Nat := r.1
  let sc : Scene := r.2
  let r : Nat × Scene := sc.addItem 67 "stone1" "backLedgeGeo" "backLedge"
    PrimitiveTopology.TRIANGLELIST RenderLayer.AlphaTested
  let backWallLedge : Nat := r.1
  let sc : Scene := r.2
  let r : Nat × Scene := sc.addItem 68 "stone1" "rightLedgeGeo" "rightLedge"
    PrimitiveTopology.TRIANGLELIST RenderLayer.AlphaTested
  let rightWallLedge : Nat := r.1
  let sc : Scene := r.2
  let r : Nat × Scene := sc.addItem 69 "stone1" "leftLedgeGeo" "leftLedge"
    PrimitiveTopology.TRIANGLELIST RenderLayer.AlphaTested
  let leftWallLedge : Nat := r.1
  let sc : Scene := r.2
  let r : Nat × Scene := sc.addItem 70 "wood2" "drawBridgeGeo" "drawBridge"
    PrimitiveTopology.TRIANGLELIST RenderLayer.AlphaTested
  let drawBridge : Nat := r.1
  let sc : Scene := r.2
  let r : Nat × Scene := sc.addItem 71 "stone1" "boxGeo" "box"
    PrimitiveTopology.TRIANGLELIST RenderLayer.AlphaTested
  let rDrawBridgePeg : Nat := r.1
  let sc : Scene := r.2
  let r : Nat × Scene := sc.addItem 72 "stone1" "boxGeo" "box"
    PrimitiveTopology.TRIANGLELIST RenderLayer.AlphaTested
  let lDrawBridgePeg : Nat := r.1
  let sc : Scene := r.2
  let r : Nat × Scene := sc.addItem 73 "dirtGrass" "backLedgeGeo" "backLedge"
    PrimitiveTopology.TRIANGLELIST RenderLayer.AlphaTested
  let riverWall1 : Nat := r.1
  let sc : Scene := r.2
  let r : Nat × Scene := sc.addItem 74 "dirtGrass" "backLedgeGeo" "backLedge"
    PrimitiveTopology.TRIANGLELIST RenderLayer.AlphaTested
  let riverWall2 : Nat := r.1
  let sc : Scene := r.2
  let r : Nat × Scene := sc.addItem 75 "grass" "avenueGeo" "avenue"
    PrimitiveTopology.TRIANGLELIST RenderLayer.AlphaTested
  let avenue : Nat := r.1
  let sc : Scene := r.2
  let numberOfLinks : Nat := 15
  let sc : Scene := (List.range numberOfLinks).foldl (fun (sc : Scene) (i : Nat) =>
    let r : Nat × Scene := sc.addItem (76 + i) "rMetal" "torusGeo" "torus"
      PrimitiveTopology.TRIANGLELIST RenderLayer.AlphaTested
    r.2.own r.1) sc
  let sc : Scene := (List.range numberOfLinks).foldl (fun (sc : Scene) (i : Nat) =>
    let r : Nat × Scene := sc.addItem (91 + i) "rMetal" "torusGeo" "torus"
      PrimitiveTopology.TRIANGLELIST RenderLayer.AlphaTested
    r.2.own r.1) sc
  let r : Nat × Scene := sc.addItem 106 "hedge" "boxGeo" "box"
    PrimitiveTopology.TRIANGLELIST RenderLayer.AlphaTested
  let mOuterWall1 : Nat := r.1
  let sc : Scene := r.2
  let r : Nat × Scene := sc.addItem 107 "hedge" "boxGeo" "box"
    PrimitiveTopology.TRIANGLELIST RenderLayer.AlphaTested
  let mOuterWall2 : Nat := r.1
  let sc : Scene := r.2
  let r : Nat × Scene := sc.addItem 108 "hedge" "boxGeo" "box"
    PrimitiveTopology.TRIANGLELIST RenderLayer.AlphaTested
  let mOuterWall3 : Nat := r.1
  let sc : Scene := r.2
  let r : Nat × Scene := sc.addItem 109 "hedge" "boxGeo" "box"
    PrimitiveTopology.TRIANGLELIST RenderLayer.AlphaTested
  let mOuterWall4 : Nat := r.1
  let sc : Scene := r.2
  let r : Nat × Scene := sc.addItem 110 "hedge" "boxGeo" "box"
    PrimitiveTopology.TRIANGLELIST RenderLayer.AlphaTested
  let mOuterWall5 : Nat := r.1
  let sc : Scene := r.2
  let r : Nat × Scene := sc.addItem 111 "hedge" "boxGeo" "box"
    PrimitiveTopology.TRIANGLELIST RenderLayer.AlphaTested
  let mOuterWall6 : Nat := r.1
  let sc : Scene := r.2
  let r : Nat × Scene := sc.addItem 112 "hedge" "boxGeo" "box"
    PrimitiveTopology.TRIANGLELIST RenderLayer.AlphaTested
  let mOuterWall7 : Nat := r.1
  let sc : Scene := r.2
  let r : Nat × Scene := sc.addItem 113 "hedge" "boxGeo" "box"
    PrimitiveTopology.TRIANGLELIST RenderLayer.AlphaTested
  let mOuterWall8 : Nat := r.1
  let sc : Scene := r.2
  let r : Nat × Scene := sc.addItem 114 "hedge" "boxGeo" "box"
    PrimitiveTopology.TRIANGLELIST RenderLayer.AlphaTested
  let mInnerWall1 : Nat := r.1
  let sc : Scene := r.2
  let r : Nat × Scene := sc.addItem 115 "hedge" "boxGeo" "box"
    PrimitiveTopology.TRIANGLELIST RenderLayer.AlphaTested
  let mInnerWall2 : Nat := r.1
  let sc : Scene := r.2
  let r : Nat × Scene := sc.addItem 116 "hedge" "boxGeo" "box"
    PrimitiveTopology.TRIANGLELIST RenderLayer.AlphaTested
  let mInnerWall3 : Nat := r.1
  let sc : Scene := r.2
  let r : Nat × Scene := sc.addItem 117 "hedge" "boxGeo" "box"
    PrimitiveTopology.TRIANGLELIST RenderLayer.AlphaTested
  let mInnerWall4 : Nat := r.1
  let sc : Scene := r.2
  let r : Nat × Scene := sc.addItem 118 "hedge" "boxGeo" "box"
    PrimitiveTopology.TRIANGLELIST RenderLayer.AlphaTested
  let mInnerWall5 : Nat := r.1
  let sc : Scene := r.2
  let r : Nat × Scene := sc.addItem 119 "hedge" "boxGeo" "box"
    PrimitiveTopology.TRIANGLELIST RenderLayer.AlphaTested
  let mInnerWall6 : Nat := r.1
  let sc : Scene := r.2
  let r : Nat × Scene := sc.addItem 120 "hedge" "boxGeo" "box"
    PrimitiveTopology.TRIANGLELIST RenderLayer.AlphaTested
  let mInnerWall7 : Nat := r.1
  let sc : Scene := r.2
  let r : Nat × Scene := sc.addItem 121 "hedge" "boxGeo" "box"
    PrimitiveTopology.TRIANGLELIST RenderLayer.AlphaTested
  let mInnerWall8 : Nat := r.1
  let sc : Scene := r.2
  let r : Nat × Scene := sc.addItem 122 "hedge" "boxGeo" "box"
    PrimitiveTopology.TRIANGLELIST RenderLayer.AlphaTested
  let mInnerWall9 : Nat := r.1
  let sc : Scene := r.2
  let r : Nat × Scene := sc.addItem 123 "hedge" "boxGeo" "box"
    PrimitiveTopology.TRIANGLELIST RenderLayer.AlphaTested
  let mInnerWall10 : Nat := r.1
  let sc : Scene := r.2
  let r : Nat × Scene := sc.addItem 124 "hedge" "boxGeo" "box"
    PrimitiveTopology.TRIANGLELIST RenderLayer.AlphaTested
  let mInnerWall11 : Nat := r.1
  let sc : Scene := r.2
  let r : Nat × Scene := sc.addItem 125 "hedge" "boxGeo" "box"
    PrimitiveTopology.TRIANGLELIST RenderLayer.AlphaTested
  let mInnerWall12 : Nat := r.1
  let sc : Scene := r.2
  let r : Nat × Scene := sc.addItem 126 "hedge" "boxGeo" "box"
    PrimitiveTopology.TRIANGLELIST RenderLayer.AlphaTested
  let mInnerWall13 : Nat := r.1
  let sc : Scene := r.2
  let r : Nat × Scene := sc.addItem 127 "hedge" "boxGeo" "box"
    PrimitiveTopology.TRIANGLELIST RenderLayer.AlphaTested
  let mInnerWall14 : Nat := r.1
  let sc : Scene := r.2
  let r : Nat × Scene := sc.addItem 128 "hedge" "boxGeo" "box"
    PrimitiveTopology.TRIANGLELIST RenderLayer.AlphaTested
  let mInnerWall15 : Nat := r.1
  let sc : Scene := r.2
  let r : Nat × Scene := sc.addItem 129 "hedge" "boxGeo" "box"
    PrimitiveTopology.TRIANGLELIST RenderLayer.AlphaTested
  let mInnerWall16 : Nat := r.1
  let sc : Scene := r.2
  let r : Nat × Scene := sc.addItem 130 "hedge" "boxGeo" "box"
    PrimitiveTopology.TRIANGLELIST RenderLayer.AlphaTested
  let mInnerDivider1 : Nat := r.1
  let sc : Scene := r.2
  let r : Nat × Scene := sc.addItem 131 "hedge" "boxGeo" "box"
    PrimitiveTopology.TRIANGLELIST RenderLayer.AlphaTested
  let mInnerDivider2 : Nat := r.1
  let sc : Scene := r.2
  let r : Nat × Scene := sc.addItem 132 "hedge" "boxGeo" "box"
    PrimitiveTopology.TRIANGLELIST RenderLayer.AlphaTested
  let mInnerDivider3 : Nat := r.1
  let sc : Scene := r.2
  let r : Nat × Scene := sc.addItem 133 "hedge" "boxGeo" "box"
    PrimitiveTopology.TRIANGLELIST RenderLayer.AlphaTested
  let mInnerDivider4 : Nat := r.1
  let sc : Scene := r.2
  let r : Nat × Scene := sc.addItem 134 "hedge" "boxGeo" "box"
    PrimitiveTopology.TRIANGLELIST RenderLayer.AlphaTested
  let mInnerDivider5 : Nat := r.1
  let sc : Scene := r.2
  let r : Nat × Scene := sc.addItem 135 "treeSprites" "treeSpritesGeo" "points"
    PrimitiveTopology.POINTLIST RenderLayer.AlphaTestedTreeSprites
  let treeSpritesRitem : Nat := r.1
  let sc : Scene := r.2
  List.foldl Scene.own sc
    [wavesRitem, gridRitem, Gate, crate1, bWall1, bWall2, bWall3, bWall4, bWall5, fWall1,
      fWall2, fWall3, fWall4, fWallLedge1, fWallLedge2, rWall1, rWall2, rWall3, rWall4, rWall5,
      lWall1, lWall2, lWall3, lWall4, lWall5, fRTower, fLTower, bRTower, bLTower, fRCone,
      fLCone, bRCone, bLCone, lGateWall, rGateWall, gateHouseRoof, gateHouseFloor,
      gateHouseWalkWay, fgateHouseLedgeMid, fgateHouseLedgeLeft, fgateHouseLedgeRight,
      fgateHouseLedge2, fgateHouseLedge3, bgateHouseLedgeMid, bgateHouseLedgeLeft,
      bgateHouseLedgeRight, fRWallWalk, fRWallWalk2, fLWallWalk, fLWallWalk2, lWallWalkWay,
      rWallWalkWay, bWallWalkWay, crate2, backWallLedge, rightWallLedge, leftWallLedge,
      drawBridge, rDrawBridgePeg, lDrawBridgePeg, riverWall1, riverWall2, avenue, mOuterWall1,
      mOuterWall2, mOuterWall3, mOuterWall4, mOuterWall5, mOuterWall6, mOuterWall7,
      mOuterWall8, mInnerWall1, mInnerWall2, mInnerWall3, mInnerWall4, mInnerWall5,
      mInnerWall6, mInnerWall7, mInnerWall8, mInnerWall9, mInnerWall10, mInnerWall11,
      mInnerWall12, mInnerWall13, mInnerWall14, mInnerWall15, mInnerWall16, mInnerDivider1,
      mInnerDivider2, mInnerDivider3, mInnerDivider4, mInnerDivider5, treeSpritesRitem]

/-- What the scene assembly takes from outside: the placement data (the `World` and
`TexTransform` stored into the render item created `p`-th) and the draw arguments of
the submeshes built by the geometry builders, by mesh key and submesh key. -/
structure SceneEnv (α : Type) where
  world : Nat → XMFLOAT4X4 α
  texTransform : Nat → XMFLOAT4X4 α
  drawArgs : String → String → SubmeshGeometry

/-- The render item that the block creating record `r` at pointer `p` leaves.  The
material and mesh keys used by the blocks are all keys that `BuildMaterials` and the
geometry builders create, so both references are non-null. -/
def ItemRecord.toRenderItem {α : Type} (env : SceneEnv α) (p : Nat) (r : ItemRecord) :
    RenderItem α :=
  { World := env.world p,
    TexTransform := env.texTransform p,
    ObjCBIndex := r.ObjCBIndex,
    Mat := some r.Mat,
    Geo := some r.Geo,
    PrimitiveType := r.PrimitiveType,
    IndexCount := (env.drawArgs r.Geo r.Submesh).IndexCount,
    StartIndexLocation := (env.drawArgs r.Geo r.Submesh).StartIndexLocation,
    BaseVertexLocation := (env.drawArgs r.Geo r.Submesh).BaseVertexLocation }

/-- The render items owned by `mAllRitems`, in order, as values. -/
def Scene.renderItems {α : Type} (env : SceneEnv α) (sc : Scene) : List (RenderItem α) :=
  sc.mAllRitems.filterMap (fun p => (sc.heap[p]?).map (ItemRecord.toRenderItem env p))

/-! ## Build configuration -/

/-- The macro `assert(cond)`: with `NDEBUG` defined (`ndebug = true`) it does
nothing; otherwise a false condition ends the process, reported as `none`. -/
def cAssert (ndebug : Bool) (cond : Bool) : Option Unit :=
  if ndebug then some () else if cond then some () else none

/-! ## Mouse input -/

/-- The camera members named by the controls in the file header. -/
structure Camera (α : Type) where
  mTheta : α
  mPhi : α
  mRadius : α
  mLastMousePos : Int × Int

/-- The button state flag of the left mouse button. -/
def MK_LBUTTON : Nat := 1

/-- The button state flag of the right mouse button. -/
def MK_RBUTTON : Nat := 2

/-- The function `OnMouseDown`: its body is empty. -/
def OnMouseDown {α : Type} (c : Camera α) (_btnState : Nat) (_x _y : Int) : Camera α := c

/-- The function `OnMouseUp`: its body is empty. -/
def OnMouseUp {α : Type} (c : Camera α) (_btnState : Nat) (_x _y : Int) : Camera α := c

/-- The function `OnMouseMove`: its body is empty. -/
def OnMouseMove {α : Type} (c : Camera α) (_btnState : Nat) (_x _y : Int) : Camera α := c

/-- A camera with the start values of the radius and of the mouse position. -/
def demoCamera : Camera ℚ :=
  { mTheta := 3 / 2, mPhi := 1 / 2, mRadius := 70, mLastMousePos := (0, 0) }

/-! ## `DrawRenderItems` -/

/-- The sizes `DrawRenderItems` multiplies indices with: the byte sizes of one object
and of one material constant element and the descriptor increment. -/
structure DrawEnv where
  objCBByteSize : Nat
  matCBByteSize : Nat
  mCbvSrvDescriptorSize : Nat

/-- The commands `DrawRenderItems` records.  A mesh is named by its key, a constant
buffer address by the frame slot, the buffer (object or material) and the byte offset
into it, a texture descriptor by its byte offset from the heap start. -/
inductive DrawCommand where
  | IASetVertexBuffers (geo : String)
  | IASetIndexBuffer (geo : String)
  | IASetPrimitiveTopology (primitiveType : PrimitiveTopology)
  | SetGraphicsRootDescriptorTable (rootParameterIndex : Nat) (descriptorOffset : Nat)
  | SetGraphicsRootConstantBufferView (rootParameterIndex : Nat) (slot : Nat)
      (materialBuffer : Bool) (byteOffset : Nat)
  | DrawIndexedInstanced (indexCount instanceCount startIndexLocation : Nat)
      (baseVertexLocation : Int) (startInstanceLocation : Nat)
  deriving DecidableEq, Repr

/-- The commands recorded for one render item whose mesh is `geo` and whose material
is `mat`, in the order of the loop body.  The two constant offsets are products of
32-bit unsigned values. -/
def itemCommands {α : Type} (env : DrawEnv) (slot : Nat) (geo : String) (mat : Material α)
    (ri : RenderItem α) : List DrawCommand :=
  [ DrawCommand.IASetVertexBuffers geo,
    DrawCommand.IASetIndexBuffer geo,
    DrawCommand.IASetPrimitiveTopology ri.PrimitiveType,
    DrawCommand.SetGraphicsRootDescriptorTable 0
      (mat.DiffuseSrvHeapIndex * env.mCbvSrvDescriptorSize),
    DrawCommand.SetGraphicsRootConstantBufferView 1 slot false
      ((ri.ObjCBIndex * env.objCBByteSize) % 4294967296),
    DrawCommand.SetGraphicsRootConstantBufferView 3 slot true
      ((mat.MatCBIndex * env.matCBByteSize) % 4294967296),
    DrawCommand.DrawIndexedInstanced ri.IndexCount 1 ri.StartIndexLocation
      ri.BaseVertexLocation 0 ]

/-- The loop of `DrawRenderItems` over the render items.  An item without mesh runs
into `assert(false)` and is then skipped by `continue`; an item with a mesh has its
material dereferenced, so a missing material ends the process. -/
def drawLoop {α : Type} (ndebug : Bool) (env : DrawEnv) (mats : List (String × Material α))
    (slot : Nat) : List DrawCommand → List (RenderItem α) → Option (List DrawCommand)
  | cmdList, [] => some cmdList
  | cmdList, ri :: rest =>
    match ri.Geo with
    | none =>
      match cAssert ndebug false with
      | none => none
      | some _ => drawLoop ndebug env mats slot cmdList rest
    | some geo =>
      match ri.Mat with
      | none => none
      | some key =>
        match mats.lookup key with
        | none => none
        | some mat =>
          drawLoop ndebug env mats slot (cmdList ++ itemCommands env slot geo mat ri) rest

/-- The function `DrawRenderItems`: the commands it appends to the command list.
The constant buffers are taken from `mCurrFrameResource`, which has to be set. -/
def DrawRenderItems {α : Type} (ndebug : Bool) (env : DrawEnv) (s : App α)
    (cmdList : List DrawCommand) (ritems : List (RenderItem α)) :
    Option (List DrawCommand) :=
  match s.mCurrFrameResource with
  | none => none
  | some k =>
    match s.mFrameResources[k]? with
    | none => none
    | some _ => drawLoop ndebug env s.mMaterials k cmdList ritems

/-- The commands of a render item when its mesh and its material are both there,
and no command otherwise. -/
def drawnCommands {α : Type} (env : DrawEnv) (mats : List (String × Material α))
    (slot : Nat) (ri : RenderItem α) : List DrawCommand :=
  match ri.Geo, ri.Mat with
  | some geo, some key =>
    match mats.lookup key with
    | some mat => itemCommands env slot geo mat ri
    | none => []
  | _, _ => []

/-- Every render item of the list that has a mesh has a material that is in the
material map. -/
def MaterialsResolved {α : Type} (mats : List (String × Material α))
    (ritems : List (RenderItem α)) : Prop :=
  ∀ ri ∈ ritems, ri.Geo.isSome = true →
    (ri.Mat.bind (fun key => mats.lookup key)).isSome = true

instance instDecidableMaterialsResolved {α : Type} (mats : List (String × Material α))
    (ritems : List (RenderItem α)) : Decidable (MaterialsResolved mats ritems) := by
  unfold MaterialsResolved; infer_instance

/-- The sizes of a 256-byte constant element and a 32-byte descriptor. -/
def demoDrawEnv : DrawEnv :=
  { objCBByteSize := 256, matCBByteSize := 256, mCbvSrvDescriptorSize := 32 }

/-- A render item with a mesh and a material of the concrete scene. -/
def demoMeshItem (i : Nat) : RenderItem ℚ :=
  { demoItem i with Geo := some "boxGeo", Mat := some "grass", IndexCount := 36 }

/-- A list with a render item without mesh between two complete ones. -/
def demoDrawList : List (RenderItem ℚ) := [demoMeshItem 0, demoItem 1, demoMeshItem 1]

/-! ## Waves -/

/-- The vertex format written into the wave vertex buffer: `Pos`, `Normal`, `TexC`. -/
structure Vertex (α : Type) where
  Pos : XMFLOAT3 α
  Normal : XMFLOAT3 α
  TexC : α × α

/-- The interface of the `Waves` class as `Assignment3.cpp` calls it.  The class is
defined outside this file and is a parameter of everything below. -/
structure WavesApi (W α : Type) where
  RowCount : W → Int
  ColumnCount : W → Int
  VertexCount : W → Int
  TriangleCount : W → Int
  Width : W → α
  Depth : W → α
  Position : W → Int → XMFLOAT3 α
  Normal : W → Int → XMFLOAT3 α
  Disturb : W → Int → Int → α → W
  Update : W → α → W

/-- One call `mWaves->Disturb(i, j, r)`, with the total time at which it was issued
(ghost record). -/
structure DisturbCall (α : Type) where
  i : Int
  j : Int
  magnitude : α
  totalTime : α

/-- The state `UpdateWaves` works on: the wave field `mWaves`, the function-static
`t_base`, the wave vertex buffer of every frame resource (`WavesVB`), the slot whose
buffer the water geometry points to (`mWavesRitem->Geo->VertexBufferGPU`), and the
ghost log of the disturbances issued so far, oldest first. -/
structure WaveState (W α : Type) where
  mWaves : W
  t_base : α
  WavesVB : List (UploadBuffer (Vertex α))
  VertexBufferGPU : Option Nat
  disturbLog : List (DisturbCall α)

/-- What one call of `UpdateWaves` reads from outside: the timer and the results of
the three random draws (`MathHelper::Rand` for the row and the column,
`MathHelper::RandF` for the magnitude), each as a function of the requested range. -/
structure WaveInput (α : Type) where
  TotalTime : α
  DeltaTime : α
  RandRow : Int → Int → Int
  RandCol : Int → Int → Int
  RandF : α → α → α

/-- The first block of `UpdateWaves`, read in exact arithmetic: when a quarter second
has passed since `t_base`, advance `t_base` by a quarter second and disturb a random
cell.  The same block with the rounding of the `float` operations of the source is
`maybeDisturbF32`. -/
def maybeDisturb {W α : Type} [LinearOrderedField α] (api : WavesApi W α)
    (ws : WaveState W α) (inp : WaveInput α) : WaveState W α :=
  if inp.TotalTime - ws.t_base ≥ 1 / 4 then
    let i := inp.RandRow 4 (api.RowCount ws.mWaves - 5)
    let j := inp.RandCol 4 (api.ColumnCount ws.mWaves - 5)
    let r := inp.RandF (1 / 5) (1 / 2)
    { ws with
      t_base := ws.t_base + 1 / 4
      mWaves := api.Disturb ws.mWaves i j r
      disturbLog := ws.disturbLog ++ [{ i := i, j := j, magnitude := r,
                                        totalTime := inp.TotalTime }] }
  else ws

/-- The vertex exported for index `i`: position and normal of the wave field, and the
texture coordinate derived from the position. -/
def waveVertex {W α : Type} [LinearOrderedField α] (api : WavesApi W α) (w : W) (i : Int) :
    Vertex α :=
  let Pos := api.Position w i
  let Normal := api.Normal w i
  { Pos := Pos, Normal := Normal,
    TexC := (1 / 2 + Pos.1 / api.Width w, 1 / 2 - Pos.2.2 / api.Depth w) }

/-- The export loop of `UpdateWaves` over the vertex indices. -/
def waveVertexLoop {W α : Type} [LinearOrderedField α] (api : WavesApi W α) (w : W) :
    UploadBuffer (Vertex α) → List Nat → Option (UploadBuffer (Vertex α))
  | vb, [] => some vb
  | vb, i :: rest =>
    match vb.CopyData i (waveVertex api w (i : Int)) with
    | none => none
    | some vb1 => waveVertexLoop api w vb1 rest

/-- The method `UpdateWaves`; `curr` is `mCurrFrameResource`. -/
def UpdateWaves {W α : Type} [LinearOrderedField α] (api : WavesApi W α) (curr : Option Nat)
    (ws : WaveState W α) (inp : WaveInput α) : Option (WaveState W α) :=
  let ws1 := maybeDisturb api ws inp
  let w2 := api.Update ws1.mWaves inp.DeltaTime
  match curr with
  | none => none
  | some k =>
    match ws1.WavesVB[k]? with
    | none => none
    | some currWavesVB =>
      match waveVertexLoop api w2 currWavesVB (List.range (api.VertexCount w2).toNat) with
      | none => none
      | some vb =>
        some { ws1 with mWaves := w2, WavesVB := ws1.WavesVB.set k vb,
                        VertexBufferGPU := some k }

/-- A run of `UpdateWaves` over successive frames, each with the slot selected for it
and its input. -/
def runWaves {W α : Type} [LinearOrderedField α] (api : WavesApi W α) :
    WaveState W α → List (Nat × WaveInput α) → Option (WaveState W α)
  | ws, [] => some ws
  | ws, f :: rest =>
    match UpdateWaves api (some f.1) ws f.2 with
    | none => none
    | some ws1 => runWaves api ws1 rest

/-- The assumption on `MathHelper::Rand`: the result lies in the requested range. -/
def RandOk (Rand : Int → Int → Int) : Prop :=
  ∀ a b : Int, a ≤ b → a ≤ Rand a b ∧ Rand a b ≤ b

/-- The wave field keeps its dimensions: `Disturb` and `Update` change neither the
row count, the column count nor the vertex count. -/
def WavesApi.FixedSize {W α : Type} (api : WavesApi W α) : Prop :=
  (∀ w i j r, api.RowCount (api.Disturb w i j r) = api.RowCount w ∧
    api.ColumnCount (api.Disturb w i j r) = api.ColumnCount w ∧
    api.VertexCount (api.Disturb w i j r) = api.VertexCount w) ∧
  (∀ w dt, api.RowCount (api.Update w dt) = api.RowCount w ∧
    api.ColumnCount (api.Update w dt) = api.ColumnCount w ∧
    api.VertexCount (api.Update w dt) = api.VertexCount w)

/-- Every wave vertex buffer holds at least `VertexCount` elements, as
`BuildFrameResources` creates them. -/
def WaveBuffersOk {W α : Type} (api : WavesApi W α) (ws : WaveState W α) : Prop :=
  ∀ vb ∈ ws.WavesVB, (api.VertexCount ws.mWaves).toNat ≤ vb.elementCount

/-- The counts of an `m × n` grid of vertices triangulated with two triangles per
quad, as the `Waves` constructor sets them. -/
def WavesApi.GridCounts {W α : Type} (api : WavesApi W α) (w : W) : Prop :=
  api.VertexCount w = api.RowCount w * api.ColumnCount w ∧
  api.TriangleCount w = 2 * (api.RowCount w - 1) * (api.ColumnCount w - 1)

/-! ### A wave grid -/

/-- Modelled from the spec: the wave field of the `Waves` class, which is defined
outside `Assignment3.cpp`: an M×N grid of height samples with a spatial step.  The
heights are kept row by row. -/
structure WaveGrid (α : Type) where
  mNumRows : Nat
  mNumCols : Nat
  mSpatialStep : α
  heights : List α

/-- Adds `v` to the element at position `k` of the list. -/
def addAt {α : Type} [Add α] : List α → Nat → α → List α
  | [], _, _ => []
  | x :: xs, 0, v => (x + v) :: xs
  | x :: xs, k + 1, v => x :: addAt xs k v

/-- Modelled from the spec: the height of cell `(a, b)` of the wave grid, `none`
outside the grid. -/
def WaveGrid.height {α : Type} (g : WaveGrid α) (a b : Int) : Option α :=
  if 0 ≤ a ∧ a < g.mNumRows ∧ 0 ≤ b ∧ b < g.mNumCols then
    g.heights[(a * g.mNumCols + b).toNat]?
  else none

/-- Modelled from the spec: raising one cell of the wave grid by `v`; `none` when the
cell is outside the grid. -/
def WaveGrid.raise {α : Type} [Add α] (g : WaveGrid α) (a b : Int) (v : α) :
    Option (WaveGrid α) :=
  if 0 ≤ a ∧ a < g.mNumRows ∧ 0 ≤ b ∧ b < g.mNumCols
      ∧ (a * g.mNumCols + b).toNat < g.heights.length then
    some { g with heights := addAt g.heights (a * g.mNumCols + b).toNat v }
  else none

/-- Modelled from the spec: `Waves::Disturb`, which is defined outside
`Assignment3.cpp`: "raise that cell and blend the raise into its four neighbors".
The target cell is raised by the magnitude and each of the four neighbours by
`blend magnitude`. -/
def WaveGrid.Disturb {α : Type} [Add α] (blend : α → α) (g : WaveGrid α) (i j : Int)
    (magnitude : α) : Option (WaveGrid α) :=
  match g.raise i j magnitude with
  | none => none
  | some g1 =>
    match g1.raise i (j + 1) (blend magnitude) with
    | none => none
    | some g2 =>
      match g2.raise i (j - 1) (blend magnitude) with
      | none => none
      | some g3 =>
        match g3.raise (i + 1) j (blend magnitude) with
        | none => none
        | some g4 => g4.raise (i - 1) j (blend magnitude)

/-- A wave grid is well formed when it holds one height per cell. -/
def WaveGrid.WellFormed {α : Type} (g : WaveGrid α) : Prop :=
  g.heights.length = g.mNumRows * g.mNumCols

/-- An implementation of the interface on the wave grid: the counts of a grid
triangulated with two triangles per quad, vertices spread over the width and the
depth, `Update` damping every height. -/
def gridWavesApi : WavesApi (WaveGrid ℚ) ℚ where
  RowCount := fun g => g.mNumRows
  ColumnCount := fun g => g.mNumCols
  VertexCount := fun g => (g.mNumRows : Int) * g.mNumCols
  TriangleCount := fun g => 2 * ((g.mNumRows : Int) - 1) * ((g.mNumCols : Int) - 1)
  Width := fun g => ((g.mNumCols : ℚ) - 1) * g.mSpatialStep
  Depth := fun g => ((g.mNumRows : ℚ) - 1) * g.mSpatialStep
  Position := fun g i =>
    (-(((g.mNumCols : ℚ) - 1) * g.mSpatialStep / 2) + ((i % g.mNumCols : Int) : ℚ) * g.mSpatialStep,
     (g.heights[i.toNat]?).getD 0,
     ((g.mNumRows : ℚ) - 1) * g.mSpatialStep / 2 - ((i / g.mNumCols : Int) : ℚ) * g.mSpatialStep)
  Normal := fun _ _ => (0, 1, 0)
  Disturb := fun g i j r => (g.Disturb (fun x => x / 2) i j r).getD g
  Update := fun g dt => { g with heights := g.heights.map (fun h => h * (1 - dt)) }

/-- A flat grid of the given dimensions with spatial step 1. -/
def flatGrid (rows cols : Nat) : WaveGrid ℚ :=
  { mNumRows := rows, mNumCols := cols, mSpatialStep := 1,
    heights := List.replicate (rows * cols) 0 }

/-- The wave state at start-up for a flat grid: `t_base` 0, three fresh vertex
buffers of `VertexCount` elements, nothing disturbed yet. -/
def demoWaveState (rows cols : Nat) : WaveState (WaveGrid ℚ) ℚ :=
  { mWaves := flatGrid rows cols, t_base := 0,
    WavesVB := List.replicate 3 (UploadBuffer.create (Vertex ℚ) (rows * cols)),
    VertexBufferGPU := none, disturbLog := [] }

/-- A frame input whose random draws return the lower end of the requested range. -/
def demoWaveInput (TotalTime DeltaTime : ℚ) : WaveInput ℚ :=
  { TotalTime := TotalTime, DeltaTime := DeltaTime,
    RandRow := fun a _ => a, RandCol := fun _ b => b, RandF := fun a _ => a }

/-! ## `BuildWavesGeometry` -/

/-- The conversion of an `int` to `std::uint16_t`. -/
def toUInt16 (x : Int) : Nat := (x % 65536).toNat

/-- The store `indices[k] = x` into a vector of `std::uint16_t`.  `operator[]` is
not bounds checked; a position outside the vector has no defined behaviour and is
reported as `none`. -/
def vecSet (indices : List Nat) (k : Int) (x : Int) : Option (List Nat) :=
  if 0 ≤ k ∧ k < indices.length then some (indices.set k.toNat (toUInt16 x)) else none

/-- The body of the inner loop of `BuildWavesGeometry`: the six stores of quad
`(i, j)` at positions `k .. k+5`. -/
def writeQuad (n : Int) (indices : List Nat) (k i j : Int) : Option (List Nat) :=
  (vecSet indices k (i * n + j)).bind fun v1 =>
  (vecSet v1 (k + 1) (i * n + j + 1)).bind fun v2 =>
  (vecSet v2 (k + 2) ((i + 1) * n + j)).bind fun v3 =>
  (vecSet v3 (k + 3) ((i + 1) * n + j)).bind fun v4 =>
  (vecSet v4 (k + 4) (i * n + j + 1)).bind fun v5 =>
  vecSet v5 (k + 5) ((i + 1) * n + j + 1)

/-- The inner loop over `j` for one row `i`; the state is the vector and `k`. -/
def quadRow (n : Int) (i : Int) : List Nat → List Nat × Int → Option (List Nat × Int)
  | [], st => some st
  | j :: js, st =>
    match writeQuad n st.1 st.2 i j with
    | none => none
    | some v => quadRow n i js (v, st.2 + 6)

/-- The outer loop over `i`, with `j` running over `0 .. n-2` in every row. -/
def quadLoop (n : Int) : List Nat → List Nat × Int → Option (List Nat × Int)
  | [], st => some st
  | i :: is, st =>
    match quadRow n i (List.range (n - 1).toNat) st with
    | none => none
    | some st1 => quadLoop n is st1

/-- The part of `MeshGeometry` that `BuildWavesGeometry` fills in: the name, the
system-memory copy of the index buffer, the strides and sizes, and the submeshes. -/
structure MeshGeometry where
  Name : String
  IndexBufferCPU : List Nat
  VertexByteStride : Nat
  VertexBufferByteSize : Nat
  IndexBufferByteSize : Nat
  DrawArgs : List (String × SubmeshGeometry)

/-- The method `BuildWavesGeometry`; `sizeofVertex` is `sizeof(Vertex)`.  The index
vector is created with `12 * TriangleCount` zero entries (a count that is negative or
does not fit an `int` is reported as `none`), the quad loop fills it from position 0,
and the whole vector is copied into the index buffer. -/
def BuildWavesGeometry {W α : Type} (ndebug : Bool) (api : WavesApi W α) (w : W)
    (sizeofVertex : Nat) : Option MeshGeometry :=
  let count : Int := 12 * api.TriangleCount w
  if 0 ≤ count ∧ count < 2147483648 then
    let indices : List Nat := List.replicate count.toNat 0
    match cAssert ndebug (decide (api.VertexCount w < 65535)) with
    | none => none
    | some _ =>
      let m : Int := api.RowCount w
      let n : Int := api.ColumnCount w
      match quadLoop n (List.range (m - 1).toNat) (indices, 0) with
      | none => none
      | some st =>
        let vbByteSize : Nat := ((api.VertexCount w * sizeofVertex) % 4294967296).toNat
        let ibByteSize : Nat := ((st.1.length % 4294967296) * 2) % 4294967296
        some { Name := "waterGeo"
               IndexBufferCPU := st.1.take (ibByteSize / 2)
               VertexByteStride := sizeofVertex
               VertexBufferByteSize := vbByteSize
               IndexBufferByteSize := ibByteSize
               DrawArgs := [("grid", { IndexCount := st.1.length % 4294967296,
                                       StartIndexLocation := 0,
                                       BaseVertexLocation := 0 })] }
  else none

/-- The six values stored for quad `(i, j)`, in the order of the stores. -/
def quadStores (n i j : Int) : List Nat :=
  [toUInt16 (i * n + j), toUInt16 (i * n + j + 1), toUInt16 ((i + 1) * n + j),
   toUInt16 ((i + 1) * n + j), toUInt16 (i * n + j + 1), toUInt16 ((i + 1) * n + j + 1)]

/-- The two triangles of quad `(i, j)` of a grid with `n` columns, as vertex
numbers: `(i*n+j, i*n+j+1, (i+1)*n+j)` and `((i+1)*n+j, i*n+j+1, (i+1)*n+j+1)`. -/
def quadTriangles (n i j : Nat) : List Nat :=
  [i * n + j, i * n + j + 1, (i + 1) * n + j, (i + 1) * n + j, i * n + j + 1,
   (i + 1) * n + j + 1]

/-! ## The terrain -/

/-- The method `GetHillsHeight`; `sinf` and `cosf` are the library functions of the
same name, taken as parameters. -/
def GetHillsHeight {α : Type} [LinearOrderedField α] (sinf cosf : α → α) (x z : α) : α :=
  let h : α := 0
  if z < -50 then
    if x > -90 ∧ x < 90 ∧ z > -57 ∧ z < -43 then
      if x > -90 ∧ x < 90 ∧ z > -44 ∧ z < -43 then
        -5
      else
        if z > -57 ∧ z < -54 then
          -5 * (1 - (z + 54) / 3)
        else if z > -44 ∧ z < -43 then
          -5 * (1 - (46 - z) / 3)
        else h
    else h
  else
    0 * (z * sinf (1 / 10 * x) + x * cosf (1 / 10 * z))

/-- The library function `XMVector3Normalize` on a vector of nonzero length: every
component divided by the length, `sqrtf` being the square root. -/
def XMVector3Normalize {α : Type} [LinearOrderedField α] (sqrtf : α → α) (v : XMFLOAT3 α) :
    XMFLOAT3 α :=
  let length := sqrtf (v.1 * v.1 + v.2.1 * v.2.1 + v.2.2 * v.2.2)
  (v.1 / length, v.2.1 / length, v.2.2 / length)

/-- The method `GetHillsNormal`. -/
def GetHillsNormal {α : Type} [LinearOrderedField α] (sqrtf sinf cosf : α → α) (x z : α) :
    XMFLOAT3 α :=
  let n : XMFLOAT3 α :=
    (-(3 / 100) * z * cosf (1 / 10 * x) - 3 / 10 * cosf (1 / 10 * z),
     1,
     -(3 / 10) * sinf (1 / 10 * x) + 3 / 100 * x * sinf (1 / 10 * z))
  XMVector3Normalize sqrtf n

/-! ## `BuildMaterials` and `BuildDescriptorHeaps` -/

/-- The statement `mMaterials[key] = std::move(mat)`: the entry under `key` is
replaced when the map has one, and a new entry is added otherwise. -/
def assignMaterial {α : Type} (key : String) (mat : Material α) :
    List (String × Material α) → List (String × Material α)
  | [] => [(key, mat)]
  | (k, m) :: rest =>
    if k = key then (k, mat) :: rest else (k, m) :: assignMaterial key mat rest

/-- The function `BuildMaterials`: the thirteen materials in source order, then the
thirteen map assignments.  A new `Material` has the identity as `MatTransform` and
`gNumFrameResources` as dirty counter. -/
def BuildMaterials (α : Type) [LinearOrderedField α] : List (String × Material α) :=
  let grass : Material α :=
    { Name := "grass", MatCBIndex := 0, DiffuseSrvHeapIndex := 0,
      DiffuseAlbedo := (1, 1, 1, 1), FresnelR0 := (1 / 100, 1 / 100, 1 / 100),
      Roughness := 1 / 8, MatTransform := Identity4x4 α }
  let water : Material α :=
    { Name := "water", MatCBIndex := 1, DiffuseSrvHeapIndex := 1,
      DiffuseAlbedo := (1, 1, 1, 1 / 2), FresnelR0 := (1 / 10, 1 / 10, 1 / 10),
      Roughness := 0, MatTransform := Identity4x4 α }
  let wirefence : Material α :=
    { Name := "wirefence", MatCBIndex := 2, DiffuseSrvHeapIndex := 2,
      DiffuseAlbedo := (1, 1, 1, 1), FresnelR0 := (1 / 50, 1 / 50, 1 / 50),
      Roughness := 1 / 4, MatTransform := Identity4x4 α }
  let crate : Material α :=
    { Name := "crate", MatCBIndex := 3, DiffuseSrvHeapIndex := 3,
      DiffuseAlbedo := (1, 1, 1, 1), FresnelR0 := (1 / 50, 1 / 50, 1 / 50),
      Roughness := 1 / 4, MatTransform := Identity4x4 α }
  let wall1 : Material α :=
    { Name := "wall1", MatCBIndex := 4, DiffuseSrvHeapIndex := 4,
      DiffuseAlbedo := (1, 1, 1, 1), FresnelR0 := (1 / 50, 1 / 50, 1 / 50),
      Roughness := 1 / 4, MatTransform := Identity4x4 α }
  let roof1 : Material α :=
    { Name := "roof1", MatCBIndex := 5, DiffuseSrvHeapIndex := 5,
      DiffuseAlbedo := (1, 1, 1, 1), FresnelR0 := (1 / 50, 1 / 50, 1 / 50),
      Roughness := 1 / 4, MatTransform := Identity4x4 α }
  let wood1 : Material α :=
    { Name := "wood1", MatCBIndex := 6, DiffuseSrvHeapIndex := 6,
      DiffuseAlbedo := (1, 1, 1, 1), FresnelR0 := (1 / 50, 1 / 50, 1 / 50),
      Roughness := 1 / 4, MatTransform := Identity4x4 α }
  let stone1 : Material α :=
    { Name := "stone1", MatCBIndex := 7, DiffuseSrvHeapIndex := 7,
      DiffuseAlbedo := (1, 1, 1, 1), FresnelR0 := (1 / 50, 1 / 50, 1 / 50),
      Roughness := 1 / 4, MatTransform := Identity4x4 α }
  let wood2 : Material α :=
    { Name := "wood2", MatCBIndex := 8, DiffuseSrvHeapIndex := 8,
      DiffuseAlbedo := (1, 1, 1, 1), FresnelR0 := (1 / 50, 1 / 50, 1 / 50),
      Roughness := 1 / 4, MatTransform := Identity4x4 α }
  let rMetal : Material α :=
    { Name := "rMetal", MatCBIndex := 9, DiffuseSrvHeapIndex := 9,
      DiffuseAlbedo := (1, 1, 1, 1), FresnelR0 := (1 / 50, 1 / 50, 1 / 50),
      Roughness := 1 / 4, MatTransform := Identity4x4 α }
  let dirtGrass : Material α :=
    { Name := "dirtGrass", MatCBIndex := 10, DiffuseSrvHeapIndex := 10,
      DiffuseAlbedo := (1, 1, 1, 1), FresnelR0 := (1 / 50, 1 / 50, 1 / 50),
      Roughness := 1 / 4, MatTransform := Identity4x4 α }
  let hedge : Material α :=
    { Name := "hedge", MatCBIndex := 11, DiffuseSrvHeapIndex := 11,
      DiffuseAlbedo := (1, 1, 1, 1), FresnelR0 := (1 / 50, 1 / 50, 1 / 50),
      Roughness := 1 / 4, MatTransform := Identity4x4 α }
  let treeSprites : Material α :=
    { Name := "treeSprites", MatCBIndex := 12, DiffuseSrvHeapIndex := 12,
      DiffuseAlbedo := (1, 1, 1, 1), FresnelR0 := (1 / 100, 1 / 100, 1 / 100),
      Roughness := 1 / 8, MatTransform := Identity4x4 α }
  let mMaterials : List (String × Material α) := []
  let mMaterials : List (String × Material α) := assignMaterial "grass" grass mMaterials
  let mMaterials : List (String × Material α) := assignMaterial "water" water mMaterials
  let mMaterials : List (String × Material α) := assignMaterial "wirefence" wirefence mMaterials
  let mMaterials : List (String × Material α) := assignMaterial "crate" crate mMaterials
  let mMaterials : List (String × Material α) := assignMaterial "wall1" wall1 mMaterials
  let mMaterials : List (String × Material α) := assignMaterial "roof1" roof1 mMaterials
  let mMaterials : List (String × Material α) := assignMaterial "wood1" wood1 mMaterials
  let mMaterials : List (String × Material α) := assignMaterial "stone1" stone1 mMaterials
  let mMaterials : List (String × Material α) := assignMaterial "wood2" wood2 mMaterials
  let mMaterials : List (String × Material α) := assignMaterial "rMetal" rMetal mMaterials
  let mMaterials : List (String × Material α) := assignMaterial "dirtGrass" dirtGrass mMaterials
  let mMaterials : List (String × Material α) := assignMaterial "hedge" hedge mMaterials
  let mMaterials : List (String × Material α) := assignMaterial "treeSprites" treeSprites mMaterials
  mMaterials

/-- The shader-resource-view heap: the number of descriptors it was created with
and, for every `CreateShaderResourceView` call, the descriptor written and the key of
the texture, in call order. -/
structure SrvHeap where
  NumDescriptors : Nat
  views : List (Nat × String)
  deriving DecidableEq, Repr

/-- The call `CreateShaderResourceView(tex, &srvDesc, hDescriptor)`. -/
def SrvHeap.CreateShaderResourceView (heap : SrvHeap) (tex : String) (hDescriptor : Nat) :
    SrvHeap :=
  { heap with views := heap.views ++ [(hDescriptor, tex)] }

/-- The function `BuildDescriptorHeaps`: a heap of 14 descriptors; `hDescriptor`
starts at the first descriptor and is moved on by one before every view but the
first. -/
def BuildDescriptorHeaps : SrvHeap :=
  let mSrvDescriptorHeap : SrvHeap := { NumDescriptors := 14, views := [] }
  let hDescriptor : Nat := 0
  let mSrvDescriptorHeap : SrvHeap :=
    mSrvDescriptorHeap.CreateShaderResourceView "grassTex" hDescriptor
  let hDescriptor : Nat := hDescriptor + 1
  let mSrvDescriptorHeap : SrvHeap :=
    mSrvDescriptorHeap.CreateShaderResourceView "waterTex" hDescriptor
  let hDescriptor : Nat := hDescriptor + 1
  let mSrvDescriptorHeap : SrvHeap :=
    mSrvDescriptorHeap.CreateShaderResourceView "fenceTex" hDescriptor
  let hDescriptor : Nat := hDescriptor + 1
  let mSrvDescriptorHeap : SrvHeap :=
    mSrvDescriptorHeap.CreateShaderResourceView "crateTex" hDescriptor
  let hDescriptor : Nat := hDescriptor + 1
  let mSrvDescriptorHeap : SrvHeap :=
    mSrvDescriptorHeap.CreateShaderResourceView "wallTex" hDescriptor
  let hDescriptor : Nat := hDescriptor + 1
  let mSrvDescriptorHeap : SrvHeap :=
    mSrvDescriptorHeap.CreateShaderResourceView "roof1Tex" hDescriptor
  let hDescriptor : Nat := hDescriptor + 1
  let mSrvDescriptorHeap : SrvHeap :=
    mSrvDescriptorHeap.CreateShaderResourceView "wood1Tex" hDescriptor
  let hDescriptor : Nat := hDescriptor + 1
  let mSrvDescriptorHeap : SrvHeap :=
    mSrvDescriptorHeap.CreateShaderResourceView "stone1Tex" hDescriptor
  let hDescriptor : Nat := hDescriptor + 1
  let mSrvDescriptorHeap : SrvHeap :=
    mSrvDescriptorHeap.CreateShaderResourceView "wood2Tex" hDescriptor
  let hDescriptor : Nat := hDescriptor + 1
  let mSrvDescriptorHeap : SrvHeap :=
    mSrvDescriptorHeap.CreateShaderResourceView "rMetalTex" hDescriptor
  let hDescriptor : Nat := hDescriptor + 1
  let mSrvDescriptorHeap : SrvHeap :=
    mSrvDescriptorHeap.CreateShaderResourceView "dirtGrassTex" hDescriptor
  let hDescriptor : Nat := hDescriptor + 1
  let mSrvDescriptorHeap : SrvHeap :=
    mSrvDescriptorHeap.CreateShaderResourceView "hedgeTex" hDescriptor
  let hDescriptor : Nat := hDescriptor + 1
  let mSrvDescriptorHeap : SrvHeap :=
    mSrvDescriptorHeap.CreateShaderResourceView "treeArrayTex" hDescriptor
  mSrvDescriptorHeap

/-! ### The schedule in the arithmetic of `float` -/

/-- Rounding of a rational to the nearest integer, a tie going to the even one. -/
def roundTiesEven (q : ℚ) : Int :=
  if q - ⌊q⌋ < 1 / 2 then ⌊q⌋
  else if q - ⌊q⌋ > 1 / 2 then ⌊q⌋ + 1
  else if ⌊q⌋ % 2 = 0 then ⌊q⌋ else ⌊q⌋ + 1

/-- Rounding of a rational to the nearest `float` (IEEE binary32: 24 significant
bits, least exponent -126, ties to even).  The spacing of the `float`s around `q` is
`2 ^ (e - 23)` for `e` the binary exponent of `q`.  Results of magnitude `2 ^ 128` and
more, which a `float` replaces by infinity, are outside this model. -/
def roundFloat32 (q : ℚ) : ℚ :=
  if q = 0 then 0
  else
    let e : Int := max (Int.log 2 |q|) (-126)
    (roundTiesEven (q / (2 : ℚ) ^ (e - 23)) : ℚ) * (2 : ℚ) ^ (e - 23)

/-- The sum of two `float`s, as a `float`. -/
def f32add (a b : ℚ) : ℚ := roundFloat32 (a + b)

/-- The difference of two `float`s, as a `float`. -/
def f32sub (a b : ℚ) : ℚ := roundFloat32 (a - b)

/-- The first block of `UpdateWaves` in the arithmetic of the source: `t_base` and
the total time are `float`s, the subtraction `TotalTime() - t_base` and the update
`t_base += 0.25f` round to `float`, and `0.2f` is the `float` nearest to 1/5. -/
def maybeDisturbF32 {W : Type} (api : WavesApi W ℚ) (ws : WaveState W ℚ)
    (inp : WaveInput ℚ) : WaveState W ℚ :=
  if f32sub inp.TotalTime ws.t_base ≥ 1 / 4 then
    let i := inp.RandRow 4 (api.RowCount ws.mWaves - 5)
    let j := inp.RandCol 4 (api.ColumnCount ws.mWaves - 5)
    let r := inp.RandF (roundFloat32 (1 / 5)) (1 / 2)
    { ws with
      t_base := f32add ws.t_base (1 / 4)
      mWaves := api.Disturb ws.mWaves i j r
      disturbLog := ws.disturbLog ++ [{ i := i, j := j, magnitude := r,
                                        totalTime := inp.TotalTime }] }
  else ws

/-! ## The update loops -/

theorem CopyData_eq_some {β : Type} {cb cb1 : UploadBuffer β} {i : Nat} {x : β}
    (h : cb.CopyData i x = some cb1) :
    i < cb.mElements.length ∧ cb1.mElements = cb.mElements.set i (some x) ∧
      cb1.copyLog = i :: cb.copyLog := by
  unfold UploadBuffer.CopyData at h
  split at h
  · cases h; exact ⟨by assumption, rfl, rfl⟩
  · cases h

theorem uploadLoop_spec {E β : Type} (dirty : E → Int) (index : E → Nat) (payload : E → β)
    (dec : E → E) :
    ∀ (items : List E) (cb cb2 : UploadBuffer β) (items2 : List E),
      uploadLoop dirty index payload dec cb items = some (cb2, items2) →
      items2 = items.map (fun e => if dirty e > 0 then dec e else e) ∧
      cb2.mElements.length = cb.mElements.length ∧
      cb2.copyLog =
        ((items.filter (fun e => decide (dirty e > 0))).map index).reverse ++ cb.copyLog ∧
      (∀ i, (∀ e ∈ items, dirty e > 0 → index e ≠ i) → cb2.mElements[i]? = cb.mElements[i]?) := by
  intro items
  induction items with
  | nil =>
    intro cb cb2 items2 h
    simp only [uploadLoop, Option.some.injEq, Prod.mk.injEq] at h
    obtain ⟨rfl, rfl⟩ := h
    simp
  | cons e rest ih =>
    intro cb cb2 items2 h
    by_cases hd : dirty e > 0
    · simp only [uploadLoop, hd, if_true] at h
      cases hc : cb.CopyData (index e) (payload e) with
      | none => simp [hc] at h
      | some cb1 =>
        simp only [hc] at h
        cases hl : uploadLoop dirty index payload dec cb1 rest with
        | none => simp [hl] at h
        | some r =>
          obtain ⟨cb3, rest1⟩ := r
          simp only [hl, Option.some.injEq, Prod.mk.injEq] at h
          obtain ⟨rfl, rfl⟩ := h
          obtain ⟨h1, h2, h3, h4⟩ := ih cb1 cb3 rest1 hl
          obtain ⟨hlt, hset, hlog⟩ := CopyData_eq_some hc
          refine ⟨?_, ?_, ?_, ?_⟩
          · simp [hd, h1]
          · rw [h2, hset, List.length_set]
          · rw [h3, hlog]; simp [hd]
          · intro i hi
            rw [h4 i (fun x hx hxd => hi x (List.mem_cons_of_mem _ hx) hxd), hset]
            exact List.getElem?_set_ne (hi e (List.mem_cons_self _ _) hd)
    · simp only [uploadLoop, hd, if_false] at h
      cases hl : uploadLoop dirty index payload dec cb rest with
      | none => simp [hl] at h
      | some r =>
        obtain ⟨cb3, rest1⟩ := r
        simp only [hl, Option.some.injEq, Prod.mk.injEq] at h
        obtain ⟨rfl, rfl⟩ := h
        obtain ⟨h1, h2, h3, h4⟩ := ih cb cb3 rest1 hl
        refine ⟨?_, h2, ?_, ?_⟩
        · simp [hd, h1]
        · rw [h3]; simp [hd]
        · intro i hi
          exact h4 i (fun x hx hxd => hi x (List.mem_cons_of_mem _ hx) hxd)

theorem uploadLoop_entry {E β : Type} (dirty : E → Int) (index : E → Nat) (payload : E → β)
    (dec : E → E) :
    ∀ (items : List E) (cb cb2 : UploadBuffer β) (items2 : List E),
      (items.map index).Nodup →
      uploadLoop dirty index payload dec cb items = some (cb2, items2) →
      ∀ e ∈ items, dirty e > 0 → cb2.entry (index e) = some (payload e) := by
  intro items
  induction items with
  | nil => intro cb cb2 items2 _ _ e he; cases he
  | cons x rest ih =>
    intro cb cb2 items2 hnd h e he hde
    rw [List.map_cons, List.nodup_cons] at hnd
    obtain ⟨hx, hnd⟩ := hnd
    by_cases hd : dirty x > 0
    · simp only [uploadLoop, hd, if_true] at h
      cases hc : cb.CopyData (index x) (payload x) with
      | none => simp [hc] at h
      | some cb1 =>
        simp only [hc] at h
        cases hl : uploadLoop dirty index payload dec cb1 rest with
        | none => simp [hl] at h
        | some r =>
          obtain ⟨cb3, rest1⟩ := r
          simp only [hl, Option.some.injEq, Prod.mk.injEq] at h
          obtain ⟨rfl, rfl⟩ := h
          rcases List.mem_cons.mp he with rfl | he
          · obtain ⟨_, _, _, h4⟩ := uploadLoop_spec dirty index payload dec rest cb1 cb3 rest1 hl
            obtain ⟨hlt, hset, _⟩ := CopyData_eq_some hc
            have hk : cb3.mElements[index e]? = some (some (payload e)) := by
              rw [h4 (index e) (fun y hy _ hyi => hx (hyi ▸ List.mem_map_of_mem index hy)), hset]
              exact List.getElem?_set_self hlt
            simp [UploadBuffer.entry, hk]
          · exact ih cb1 cb3 rest1 hnd hl e he hde
    · simp only [uploadLoop, hd, if_false] at h
      cases hl : uploadLoop dirty index payload dec cb rest with
      | none => simp [hl] at h
      | some r =>
        obtain ⟨cb3, rest1⟩ := r
        simp only [hl, Option.some.injEq, Prod.mk.injEq] at h
        obtain ⟨rfl, rfl⟩ := h
        rcases List.mem_cons.mp he with rfl | he
        · exact absurd hde hd
        · exact ih cb cb3 rest1 hnd hl e he hde

theorem uploadLoop_some {E β : Type} (dirty : E → Int) (index : E → Nat) (payload : E → β)
    (dec : E → E) :
    ∀ (items : List E) (cb : UploadBuffer β),
      (∀ e ∈ items, dirty e > 0 → index e < cb.mElements.length) →
      ∃ r, uploadLoop dirty index payload dec cb items = some r := by
  intro items
  induction items with
  | nil => intro cb _; exact ⟨_, rfl⟩
  | cons x rest ih =>
    intro cb hb
    by_cases hd : dirty x > 0
    · have hlt := hb x (List.mem_cons_self _ _) hd
      have hc : cb.CopyData (index x) (payload x) =
          some ⟨cb.mElements.set (index x) (some (payload x)), index x :: cb.copyLog⟩ := by
        simp [UploadBuffer.CopyData, hlt]
      obtain ⟨r, hr⟩ := ih ⟨cb.mElements.set (index x) (some (payload x)), index x :: cb.copyLog⟩
        (fun e he hde => by
          simpa [List.length_set] using hb e (List.mem_cons_of_mem _ he) hde)
      exact ⟨(r.1, dec x :: r.2), by simp only [uploadLoop, hd, if_true, hc, hr]⟩
    · obtain ⟨r, hr⟩ := ih cb (fun e he hde => hb e (List.mem_cons_of_mem _ he) hde)
      exact ⟨(r.1, x :: r.2), by simp only [uploadLoop, hd, if_false, hr]⟩

theorem objectLoop_eq_uploadLoop {α : Type} :
    ∀ (items : List (RenderItem α)) (cb : UploadBuffer (ObjectConstants α)),
      objectLoop cb items =
        uploadLoop (fun e => e.NumFramesDirty) (fun e => e.ObjCBIndex) objectPayload
          RenderItem.decDirty cb items := by
  intro items
  induction items with
  | nil => intro cb; rfl
  | cons e rest ih =>
    intro cb
    by_cases hd : e.NumFramesDirty > 0
    · simp only [objectLoop, uploadLoop, hd, if_true, ih]
      cases cb.CopyData e.ObjCBIndex (objectPayload e) with
      | none => rfl
      | some cb1 =>
        simp only []
        cases uploadLoop (fun e => e.NumFramesDirty) (fun e => e.ObjCBIndex) objectPayload
          RenderItem.decDirty cb1 rest with
        | none => rfl
        | some r => rfl
    · simp only [objectLoop, uploadLoop, hd, if_false, ih]
      cases uploadLoop (fun e => e.NumFramesDirty) (fun e => e.ObjCBIndex) objectPayload
        RenderItem.decDirty cb rest with
      | none => rfl
      | some r => rfl

theorem materialLoop_eq_uploadLoop {α : Type} :
    ∀ (mats : List (String × Material α)) (cb : UploadBuffer (MaterialConstants α)),
      materialLoop cb mats =
        uploadLoop (fun km => km.2.NumFramesDirty) (fun km => km.2.MatCBIndex)
          (fun km => materialPayload km.2) (fun km => (km.1, km.2.decDirty)) cb mats := by
  intro mats
  induction mats with
  | nil => intro cb; rfl
  | cons km rest ih =>
    intro cb
    obtain ⟨k, mat⟩ := km
    by_cases hd : mat.NumFramesDirty > 0
    · simp only [materialLoop, uploadLoop, hd, if_true, ih]
      cases cb.CopyData mat.MatCBIndex (materialPayload mat) with
      | none => rfl
      | some cb1 =>
        simp only []
        cases uploadLoop (fun km => km.2.NumFramesDirty) (fun km => km.2.MatCBIndex)
          (fun km => materialPayload km.2) (fun km => (km.1, km.2.decDirty)) cb1 rest with
        | none => rfl
        | some r => rfl
    · simp only [materialLoop, uploadLoop, hd, if_false, ih]
      cases uploadLoop (fun km => km.2.NumFramesDirty) (fun km => km.2.MatCBIndex)
        (fun km => materialPayload km.2) (fun km => (km.1, km.2.decDirty)) cb rest with
      | none => rfl
      | some r => rfl

theorem map_tickItem_eq {α : Type} (items : List (RenderItem α)) :
    items.map (fun e => if e.NumFramesDirty > 0 then e.decDirty else e) = items.map tickItem :=
  rfl

theorem map_tickMaterial_eq {α : Type} (mats : List (String × Material α)) :
    mats.map (fun km => if km.2.NumFramesDirty > 0 then (km.1, km.2.decDirty) else km)
      = mats.map tickMaterial :=
  rfl

/-! ## The ring step -/

theorem tmod_succ_of_range (c : Int) (h0 : 0 ≤ c) (h3 : c < 3) :
    Int.tmod (c + 1) 3 = (c + 1) % 3 ∧ 0 ≤ (c + 1) % 3 ∧ (c + 1) % 3 < 3 ∧
      ((c + 1) % 3).toNat < 3 := by
  interval_cases c <;> decide

theorem cycleFrameResource_spec {α : Type} (s : App α) (inp : FrameInput α) (hr : RingOk s) :
    ∃ fr, s.mFrameResources[((s.mCurrFrameResourceIndex + 1) % 3).toNat]? = some fr ∧
      cycleFrameResource s inp = some
        { s with
          mCurrFrameResourceIndex := (s.mCurrFrameResourceIndex + 1) % 3,
          mCurrFrameResource := some ((s.mCurrFrameResourceIndex + 1) % 3).toNat,
          gpuCompleted :=
            if fr.Fence ≠ 0 ∧ s.gpuCompleted + inp.gpuAdvance < fr.Fence then
              fr.Fence + inp.waitOvershoot
            else s.gpuCompleted + inp.gpuAdvance,
          waitLog :=
            if fr.Fence ≠ 0 ∧ s.gpuCompleted + inp.gpuAdvance < fr.Fence then
              fr.Fence :: s.waitLog
            else s.waitLog } := by
  obtain ⟨hlen, h0, h3⟩ := hr
  obtain ⟨ht, hn0, _, hlt⟩ := tmod_succ_of_range s.mCurrFrameResourceIndex h0 h3
  have hk : ((s.mCurrFrameResourceIndex + 1) % 3).toNat < s.mFrameResources.length := by
    rw [hlen]; exact hlt
  refine ⟨s.mFrameResources[((s.mCurrFrameResourceIndex + 1) % 3).toNat],
    List.getElem?_eq_getElem hk, ?_⟩
  unfold cycleFrameResource
  simp only [gNumFrameResources, ht, hn0, if_true, List.getElem?_eq_getElem hk]
  split <;> rfl

/-! ## The material map -/

theorem modifyMaterial_some {α : Type} (key : String) (f : Material α → Material α) :
    ∀ (l : List (String × Material α)), key ∈ l.map Prod.fst →
      ∃ l1, modifyMaterial key f l = some l1 := by
  intro l
  induction l with
  | nil => intro h; cases h
  | cons km rest ih =>
    intro h
    obtain ⟨k, m⟩ := km
    by_cases hk : k = key
    · exact ⟨(k, f m) :: rest, by simp [modifyMaterial, hk]⟩
    · have hmem : key ∈ rest.map Prod.fst := by
        rcases List.mem_cons.mp h with h1 | h1
        · exact absurd h1.symm hk
        · exact h1
      obtain ⟨l1, hl1⟩ := ih hmem
      exact ⟨(k, m) :: l1, by simp [modifyMaterial, hk, hl1]⟩

theorem modifyMaterial_cons {α : Type} (key : String) (f : Material α → Material α)
    (k : String) (m : Material α) (rest l1 : List (String × Material α))
    (h : modifyMaterial key f ((k, m) :: rest) = some l1) :
    (k = key ∧ l1 = (k, f m) :: rest) ∨
      (k ≠ key ∧ ∃ rest1, modifyMaterial key f rest = some rest1 ∧ l1 = (k, m) :: rest1) := by
  by_cases hk : k = key
  · left
    simp only [modifyMaterial, hk, if_true, Option.some.injEq] at h
    exact ⟨hk, by rw [← h, hk]⟩
  · right
    simp only [modifyMaterial, hk, if_false] at h
    cases hr : modifyMaterial key f rest with
    | none => simp [hr] at h
    | some rest1 =>
      simp only [hr, Option.some.injEq] at h
      exact ⟨hk, rest1, rfl, h.symm⟩

theorem modifyMaterial_map_fst {α : Type} (key : String) (f : Material α → Material α) :
    ∀ (l l1 : List (String × Material α)), modifyMaterial key f l = some l1 →
      l1.map Prod.fst = l.map Prod.fst := by
  intro l
  induction l with
  | nil => intro l1 h; simp [modifyMaterial] at h
  | cons km rest ih =>
    intro l1 h
    obtain ⟨k, m⟩ := km
    rcases modifyMaterial_cons key f k m rest l1 h with ⟨_, rfl⟩ | ⟨_, rest1, hr, rfl⟩
    · rfl
    · simp [ih rest1 hr]

theorem modifyMaterial_map_index {α : Type} (key : String) (f : Material α → Material α)
    (hf : ∀ m, (f m).MatCBIndex = m.MatCBIndex) :
    ∀ (l l1 : List (String × Material α)), modifyMaterial key f l = some l1 →
      l1.map (fun km => km.2.MatCBIndex) = l.map (fun km => km.2.MatCBIndex) := by
  intro l
  induction l with
  | nil => intro l1 h; simp [modifyMaterial] at h
  | cons km rest ih =>
    intro l1 h
    obtain ⟨k, m⟩ := km
    rcases modifyMaterial_cons key f k m rest l1 h with ⟨_, rfl⟩ | ⟨_, rest1, hr, rfl⟩
    · simp [hf]
    · simp [ih rest1 hr]

theorem modifyMaterial_getElem?_ne {α : Type} (key : String) (f : Material α → Material α) :
    ∀ (l l1 : List (String × Material α)), modifyMaterial key f l = some l1 →
      ∀ (p : Nat) (km : String × Material α), l[p]? = some km → km.1 ≠ key →
        l1[p]? = some km := by
  intro l
  induction l with
  | nil => intro l1 h; simp [modifyMaterial] at h
  | cons km0 rest ih =>
    intro l1 h p km hp hne
    obtain ⟨k, m⟩ := km0
    rcases modifyMaterial_cons key f k m rest l1 h with ⟨hk, rfl⟩ | ⟨_, rest1, hr, rfl⟩
    · cases p with
      | zero =>
        simp only [List.getElem?_cons_zero, Option.some.injEq] at hp
        subst hp
        exact absurd hk hne
      | succ q => simpa using hp
    · cases p with
      | zero => simpa using hp
      | succ q =>
        simp only [List.getElem?_cons_succ] at hp ⊢
        exact ih rest1 hr q km hp hne

theorem animateWater_index {α : Type} [LinearOrderedField α] (dt : α) (m : Material α) :
    (animateWater dt m).MatCBIndex = m.MatCBIndex := rfl

/-! ## The effect of one `Update` and one `Draw` -/

theorem objectLoop_run {α : Type} (cb : UploadBuffer (ObjectConstants α))
    (items : List (RenderItem α)) (hb : ∀ e ∈ items, e.ObjCBIndex < cb.elementCount) :
    ∃ cb2, objectLoop cb items = some (cb2, items.map tickItem) := by
  obtain ⟨r, hr⟩ := uploadLoop_some (fun e : RenderItem α => e.NumFramesDirty)
    (fun e => e.ObjCBIndex) objectPayload RenderItem.decDirty items cb
    (fun e he _ => hb e he)
  obtain ⟨cb2, items2⟩ := r
  have h1 := (uploadLoop_spec _ _ _ _ items cb cb2 items2 hr).1
  rw [map_tickItem_eq] at h1
  exact ⟨cb2, by rw [objectLoop_eq_uploadLoop, hr, h1]⟩

theorem materialLoop_run {α : Type} (cb : UploadBuffer (MaterialConstants α))
    (mats : List (String × Material α)) (hb : ∀ km ∈ mats, km.2.MatCBIndex < cb.elementCount) :
    ∃ cb2, materialLoop cb mats = some (cb2, mats.map tickMaterial) := by
  obtain ⟨r, hr⟩ := uploadLoop_some (fun km : String × Material α => km.2.NumFramesDirty)
    (fun km => km.2.MatCBIndex) (fun km => materialPayload km.2)
    (fun km => (km.1, km.2.decDirty)) mats cb (fun km hkm _ => hb km hkm)
  obtain ⟨cb2, mats2⟩ := r
  have h1 := (uploadLoop_spec _ _ _ _ mats cb cb2 mats2 hr).1
  rw [map_tickMaterial_eq] at h1
  exact ⟨cb2, by rw [materialLoop_eq_uploadLoop, hr, h1]⟩

theorem Update_spec {α : Type} [LinearOrderedField α] (s : App α) (inp : FrameInput α)
    (h : Runnable s) :
    ∃ fr mats1 ocb mcb,
      s.mFrameResources[((s.mCurrFrameResourceIndex + 1) % 3).toNat]? = some fr ∧
      modifyMaterial "water" (animateWater inp.dt) s.mMaterials = some mats1 ∧
      objectLoop fr.ObjectCB s.mAllRitems = some (ocb, s.mAllRitems.map tickItem) ∧
      materialLoop fr.MaterialCB mats1 = some (mcb, mats1.map tickMaterial) ∧
      Update s inp = some
        { mFrameResources :=
            s.mFrameResources.set ((s.mCurrFrameResourceIndex + 1) % 3).toNat
              { Fence := fr.Fence, ObjectCB := ocb, MaterialCB := mcb },
          mCurrFrameResource := some ((s.mCurrFrameResourceIndex + 1) % 3).toNat,
          mCurrFrameResourceIndex := (s.mCurrFrameResourceIndex + 1) % 3,
          mCurrentFence := s.mCurrentFence,
          gpuCompleted :=
            if fr.Fence ≠ 0 ∧ s.gpuCompleted + inp.gpuAdvance < fr.Fence then
              fr.Fence + inp.waitOvershoot
            else s.gpuCompleted + inp.gpuAdvance,
          waitLog :=
            if fr.Fence ≠ 0 ∧ s.gpuCompleted + inp.gpuAdvance < fr.Fence then
              fr.Fence :: s.waitLog
            else s.waitLog,
          mAllRitems := s.mAllRitems.map tickItem,
          mMaterials := mats1.map tickMaterial } := by
  obtain ⟨hr, hb, hw⟩ := h
  obtain ⟨fr, hfr, hcyc⟩ := cycleFrameResource_spec s inp hr
  have hmem : fr ∈ s.mFrameResources := List.getElem?_mem hfr
  obtain ⟨hbo, hbm⟩ := hb fr hmem
  obtain ⟨mats1, hmats⟩ := modifyMaterial_some "water" (animateWater inp.dt) s.mMaterials hw
  obtain ⟨ocb, hocb⟩ := objectLoop_run fr.ObjectCB s.mAllRitems hbo
  have hbm1 : ∀ km ∈ mats1, km.2.MatCBIndex < fr.MaterialCB.elementCount := by
    intro km hkm
    have h1 : km.2.MatCBIndex ∈ mats1.map (fun km => km.2.MatCBIndex) :=
      List.mem_map_of_mem (fun km : String × Material α => km.2.MatCBIndex) hkm
    rw [modifyMaterial_map_index "water" (animateWater inp.dt) (animateWater_index inp.dt)
      s.mMaterials mats1 hmats] at h1
    obtain ⟨km0, hkm0, heq⟩ := List.mem_map.mp h1
    rw [← heq]
    exact hbm km0 hkm0
  obtain ⟨mcb, hmcb⟩ := materialLoop_run fr.MaterialCB mats1 hbm1
  refine ⟨fr, mats1, ocb, mcb, hfr, hmats, hocb, hmcb, ?_⟩
  have hk : ((s.mCurrFrameResourceIndex + 1) % 3).toNat < s.mFrameResources.length :=
    (List.getElem?_eq_some_iff.mp hfr).1
  simp only [Update, hcyc, AnimateMaterials, hmats, UpdateObjectCBs, hfr, hocb,
    UpdateMaterialCBs, List.getElem?_set_self hk, hmcb, List.set_set]

theorem Draw_spec {α : Type} (s : App α) (k : Nat) (fr : FrameResource α)
    (hc : s.mCurrFrameResource = some k) (hfr : s.mFrameResources[k]? = some fr) :
    Draw s = some
      { s with mCurrentFence := s.mCurrentFence + 1,
               mFrameResources :=
                 s.mFrameResources.set k { fr with Fence := s.mCurrentFence + 1 } } := by
  simp only [Draw, hc, hfr]

theorem map_index_tickItem {α : Type} (items : List (RenderItem α)) :
    (items.map tickItem).map (fun e => e.ObjCBIndex) = items.map (fun e => e.ObjCBIndex) := by
  rw [List.map_map]
  apply List.map_congr_left
  intro e _
  simp only [Function.comp, tickItem]
  split <;> rfl

theorem map_fst_tickMaterial {α : Type} (mats : List (String × Material α)) :
    (mats.map tickMaterial).map Prod.fst = mats.map Prod.fst := by
  rw [List.map_map]
  apply List.map_congr_left
  intro km _
  simp only [Function.comp, tickMaterial]
  split <;> rfl

theorem map_index_tickMaterial {α : Type} (mats : List (String × Material α)) :
    (mats.map tickMaterial).map (fun km => km.2.MatCBIndex)
      = mats.map (fun km => km.2.MatCBIndex) := by
  rw [List.map_map]
  apply List.map_congr_left
  intro km _
  simp only [Function.comp, tickMaterial]
  split <;> rfl

theorem objectLoop_elementCount {α : Type} (cb cb2 : UploadBuffer (ObjectConstants α))
    (items items2 : List (RenderItem α)) (h : objectLoop cb items = some (cb2, items2)) :
    cb2.elementCount = cb.elementCount := by
  rw [objectLoop_eq_uploadLoop] at h
  exact (uploadLoop_spec _ _ _ _ items cb cb2 items2 h).2.1

theorem materialLoop_elementCount {α : Type} (cb cb2 : UploadBuffer (MaterialConstants α))
    (mats mats2 : List (String × Material α)) (h : materialLoop cb mats = some (cb2, mats2)) :
    cb2.elementCount = cb.elementCount := by
  rw [materialLoop_eq_uploadLoop] at h
  exact (uploadLoop_spec _ _ _ _ mats cb cb2 mats2 h).2.1

/-- Buffer bounds survive any step that keeps the constant indices and the buffer
sizes. -/
theorem buffersOk_transfer {α : Type} (s t : App α)
    (hitems : t.mAllRitems.map (fun e => e.ObjCBIndex)
      = s.mAllRitems.map (fun e => e.ObjCBIndex))
    (hmats : t.mMaterials.map (fun km => km.2.MatCBIndex)
      = s.mMaterials.map (fun km => km.2.MatCBIndex))
    (hfrs : ∀ fr2 ∈ t.mFrameResources, ∃ fr ∈ s.mFrameResources,
      fr2.ObjectCB.elementCount = fr.ObjectCB.elementCount ∧
      fr2.MaterialCB.elementCount = fr.MaterialCB.elementCount)
    (h : BuffersOk s) : BuffersOk t := by
  intro fr2 hfr2
  obtain ⟨fr, hfr, ho, hm⟩ := hfrs fr2 hfr2
  obtain ⟨h1, h2⟩ := h fr hfr
  constructor
  · intro e he
    have hmem : e.ObjCBIndex ∈ t.mAllRitems.map (fun e => e.ObjCBIndex) :=
      List.mem_map_of_mem (fun e : RenderItem α => e.ObjCBIndex) he
    rw [hitems] at hmem
    obtain ⟨e0, he0, heq⟩ := List.mem_map.mp hmem
    rw [ho, ← heq]
    exact h1 e0 he0
  · intro km hkm
    have hmem : km.2.MatCBIndex ∈ t.mMaterials.map (fun km => km.2.MatCBIndex) :=
      List.mem_map_of_mem (fun km : String × Material α => km.2.MatCBIndex) hkm
    rw [hmats] at hmem
    obtain ⟨km0, hkm0, heq⟩ := List.mem_map.mp hmem
    rw [hm, ← heq]
    exact h2 km0 hkm0

theorem mem_set_cases {β : Type} (l : List β) (k : Nat) (a b : β) (h : b ∈ l.set k a) :
    b ∈ l ∨ b = a := by
  rcases List.mem_or_eq_of_mem_set h with h1 | h1
  · exact Or.inl h1
  · exact Or.inr h1

theorem Update_runnable {α : Type} [LinearOrderedField α] (s : App α) (inp : FrameInput α)
    (h : Runnable s) :
    ∃ t, Update s inp = some t ∧ Runnable t ∧
      t.mCurrFrameResourceIndex = (s.mCurrFrameResourceIndex + 1) % 3 ∧
      t.mCurrFrameResource = some t.mCurrFrameResourceIndex.toNat ∧
      t.mCurrentFence = s.mCurrentFence ∧
      (∀ j, slotFence t j = slotFence s j) ∧
      t.mAllRitems = s.mAllRitems.map tickItem := by
  obtain ⟨fr, mats1, ocb, mcb, hfr, hmats, hocb, hmcb, hU⟩ := Update_spec s inp h
  obtain ⟨hr, hb, hw⟩ := h
  obtain ⟨hlen, h0, h3⟩ := hr
  obtain ⟨_, hn0, hn3, _⟩ := tmod_succ_of_range s.mCurrFrameResourceIndex h0 h3
  have hmem : fr ∈ s.mFrameResources := List.getElem?_mem hfr
  refine ⟨_, hU, ⟨⟨?_, hn0, hn3⟩, ?_, ?_⟩, rfl, rfl, rfl, ?_, rfl⟩
  · simp only [List.length_set]; exact hlen
  · apply buffersOk_transfer s _ (map_index_tickItem _) _ _ hb
    · simp only [map_index_tickMaterial]
      exact modifyMaterial_map_index "water" (animateWater inp.dt)
        (animateWater_index inp.dt) s.mMaterials mats1 hmats
    · intro fr2 hfr2
      rcases mem_set_cases _ _ _ _ hfr2 with h1 | h1
      · exact ⟨fr2, h1, rfl, rfl⟩
      · refine ⟨fr, hmem, ?_, ?_⟩
        · rw [h1]; exact objectLoop_elementCount _ _ _ _ hocb
        · rw [h1]; exact materialLoop_elementCount _ _ _ _ hmcb
  · simp only [HasWater, map_fst_tickMaterial]
    rw [modifyMaterial_map_fst "water" (animateWater inp.dt) s.mMaterials mats1 hmats]
    exact hw
  · intro j
    simp only [slotFence]
    by_cases hj : ((s.mCurrFrameResourceIndex + 1) % 3).toNat = j
    · subst hj
      rw [List.getElem?_set_self (List.getElem?_eq_some_iff.mp hfr).1, hfr]
    · rw [List.getElem?_set_ne hj]

theorem Draw_runnable {α : Type} (u : App α) (h : Runnable u)
    (hc : u.mCurrFrameResource = some u.mCurrFrameResourceIndex.toNat) :
    ∃ t, Draw u = some t ∧ Runnable t ∧
      t.mCurrFrameResourceIndex = u.mCurrFrameResourceIndex ∧
      t.mCurrFrameResource = u.mCurrFrameResource ∧
      t.mCurrentFence = u.mCurrentFence + 1 ∧
      t.gpuCompleted = u.gpuCompleted ∧
      t.waitLog = u.waitLog ∧
      slotFence t u.mCurrFrameResourceIndex.toNat = u.mCurrentFence + 1 ∧
      (∀ j, j ≠ u.mCurrFrameResourceIndex.toNat → t.mFrameResources[j]? = u.mFrameResources[j]?) ∧
      (∀ j, objectEntry t j = objectEntry u j) ∧
      (∀ j, materialEntry t j = materialEntry u j) ∧
      t.mAllRitems = u.mAllRitems ∧ t.mMaterials = u.mMaterials := by
  obtain ⟨⟨hlen, h0, h3⟩, hb, hw⟩ := h
  have hk : u.mCurrFrameResourceIndex.toNat < u.mFrameResources.length := by
    rw [hlen]
    simp only [gNumFrameResources] at h3
    omega
  have hfr := List.getElem?_eq_getElem hk
  refine ⟨_, Draw_spec u _ _ hc hfr, ⟨⟨?_, h0, h3⟩, ?_, hw⟩, rfl, rfl, rfl, rfl, rfl, ?_, ?_,
    ?_, ?_, rfl, rfl⟩
  · simp only [List.length_set]; exact hlen
  · refine buffersOk_transfer u _ ?_ ?_ ?_ hb
    · rfl
    · rfl
    intro fr2 hfr2
    rcases mem_set_cases _ _ _ _ hfr2 with h1 | h1
    · exact ⟨fr2, h1, rfl, rfl⟩
    · exact ⟨_, List.getElem_mem hk, by rw [h1], by rw [h1]⟩
  · simp only [slotFence, List.getElem?_set_self hk]
  · intro j hj
    exact List.getElem?_set_ne (Ne.symm hj)
  · intro j
    funext i
    simp only [objectEntry]
    by_cases hj : u.mCurrFrameResourceIndex.toNat = j
    · subst hj
      rw [List.getElem?_set_self hk, hfr]
    · rw [List.getElem?_set_ne hj]
  · intro j
    funext i
    simp only [materialEntry]
    by_cases hj : u.mCurrFrameResourceIndex.toNat = j
    · subst hj
      rw [List.getElem?_set_self hk, hfr]
    · rw [List.getElem?_set_ne hj]

theorem frame_runnable {α : Type} [LinearOrderedField α] (s : App α) (inp : FrameInput α)
    (h : Runnable s) :
    ∃ t, frame s inp = some t ∧ Runnable t ∧
      t.mCurrFrameResourceIndex = (s.mCurrFrameResourceIndex + 1) % 3 ∧
      t.mCurrFrameResource = some t.mCurrFrameResourceIndex.toNat ∧
      t.mCurrentFence = s.mCurrentFence + 1 ∧
      slotFence t t.mCurrFrameResourceIndex.toNat = t.mCurrentFence ∧
      (∀ j, j ≠ t.mCurrFrameResourceIndex.toNat → slotFence t j = slotFence s j) := by
  obtain ⟨u, hu, hru, hidx, hcur, hfence, hslots, _⟩ := Update_runnable s inp h
  obtain ⟨t, ht, hrt, hti, htc, htf, _, _, hts, hto, _⟩ := Draw_runnable u hru hcur
  refine ⟨t, ?_, hrt, ?_, ?_, ?_, ?_, ?_⟩
  · simp only [frame, hu, ht]
  · rw [hti, hidx]
  · rw [htc, hti, hcur]
  · rw [htf, hfence]
  · rw [hti, hts, htf]
  · intro j hj
    rw [hti] at hj
    simp only [slotFence, hto j hj]
    exact hslots j

theorem runFrames_runnable {α : Type} [LinearOrderedField α] :
    ∀ (ins : List (FrameInput α)) (s : App α), Runnable s →
      ∃ t, runFrames s ins = some t ∧ Runnable t ∧
        t.mCurrentFence = s.mCurrentFence + ins.length ∧
        t.mCurrFrameResourceIndex = (s.mCurrFrameResourceIndex + ins.length) % 3 := by
  intro ins
  induction ins with
  | nil =>
    intro s h
    refine ⟨s, rfl, h, rfl, ?_⟩
    obtain ⟨⟨_, h0, h3⟩, _⟩ := h
    simp only [gNumFrameResources] at h3
    simp only [List.length_nil, Nat.cast_zero, add_zero]
    omega
  | cons inp rest ih =>
    intro s h
    obtain ⟨u, hu, hru, hidx, _, hfence, _⟩ := frame_runnable s inp h
    obtain ⟨t, ht, hrt, htf, hti⟩ := ih u hru
    refine ⟨t, ?_, hrt, ?_, ?_⟩
    · simp only [runFrames, hu, ht]
    · rw [htf, hfence, List.length_cons]; omega
    · rw [hti, hidx, List.length_cons]
      push_cast
      omega

/-! ## Ring claims -/

theorem cycleFrameResource_safe {α : Type} (s s2 : App α) (inp : FrameInput α)
    (h : cycleFrameResource s inp = some s2) :
    ∃ k fr, s2.mCurrFrameResource = some k ∧ s2.mFrameResources[k]? = some fr ∧
      (fr.Fence = 0 ∨ fr.Fence ≤ s2.gpuCompleted) ∧ s.gpuCompleted ≤ s2.gpuCompleted := by
  unfold cycleFrameResource at h
  simp only at h
  split at h
  · split at h
    · cases h
    · rename_i fr hfr
      split at h
      · rename_i hc
        cases h
        exact ⟨_, fr, rfl, hfr, Or.inr (Nat.le_add_right _ _), by
          show s.gpuCompleted ≤ fr.Fence + inp.waitOvershoot
          omega⟩
      · rename_i hc
        cases h
        refine ⟨_, fr, rfl, hfr, ?_, Nat.le_add_right _ _⟩
        by_cases hz : fr.Fence = 0
        · exact Or.inl hz
        · right
          have : ¬ s.gpuCompleted + inp.gpuAdvance < fr.Fence := fun hlt => hc ⟨hz, hlt⟩
          show fr.Fence ≤ s.gpuCompleted + inp.gpuAdvance
          omega
  · cases h


/-- C1 (ring wraparound safety): from a runnable state, after any sequence of frames,
the next `Update` succeeds, and at the moment the ring step hands the selected slot to
the CPU the recorded fence of that slot is 0 or has been reached by the GPU clock;
the clock only moved forward, and fence and clock are the same at the end of
`Update`, after the constant buffers of the slot were written.  The last part states
the same of the ring step in any state whatever in which it returns. -/
theorem ring_wraparound_safety {α : Type} [LinearOrderedField α] (s : App α)
    (h : Runnable s) (pre : List (FrameInput α)) (inp : FrameInput α) :
    ∃ s1 s2 s3 k fr,
      runFrames s pre = some s1 ∧ cycleFrameResource s1 inp = some s2 ∧
      Update s1 inp = some s3 ∧
      s2.mCurrFrameResource = some k ∧ s2.mFrameResources[k]? = some fr ∧
      (fr.Fence = 0 ∨ fr.Fence ≤ s2.gpuCompleted) ∧
      s1.gpuCompleted ≤ s2.gpuCompleted ∧
      s3.mCurrFrameResource = some k ∧ slotFence s3 k = fr.Fence ∧
      s3.gpuCompleted = s2.gpuCompleted ∧
      (∀ (u u2 : App α) (inp2 : FrameInput α), cycleFrameResource u inp2 = some u2 →
        ∃ k2 fr2, u2.mCurrFrameResource = some k2 ∧ u2.mFrameResources[k2]? = some fr2 ∧
          (fr2.Fence = 0 ∨ fr2.Fence ≤ u2.gpuCompleted) ∧
          u.gpuCompleted ≤ u2.gpuCompleted) := by
  obtain ⟨s1, hs1, hr1, _, _⟩ := runFrames_runnable pre s h
  obtain ⟨fr, hfr, hcyc⟩ := cycleFrameResource_spec s1 inp hr1.1
  obtain ⟨fr2, mats1, ocb, mcb, hfr2, _, _, _, hU⟩ := Update_spec s1 inp hr1
  have hfreq : fr2 = fr := by
    rw [hfr] at hfr2
    exact (Option.some.inj hfr2).symm
  subst hfreq
  have hk := (List.getElem?_eq_some_iff.mp hfr).1
  refine ⟨s1, _, _, ((s1.mCurrFrameResourceIndex + 1) % 3).toNat, fr2, hs1, hcyc, hU, rfl, hfr,
    ?_, ?_, rfl, ?_, rfl, fun u u2 inp2 hu => cycleFrameResource_safe u u2 inp2 hu⟩
  · by_cases hc : fr2.Fence ≠ 0 ∧ s1.gpuCompleted + inp.gpuAdvance < fr2.Fence
    · right
      show fr2.Fence ≤ ite _ _ _
      rw [if_pos hc]
      omega
    · show fr2.Fence = 0 ∨ fr2.Fence ≤ ite _ _ _
      rw [if_neg hc]
      by_cases hz : fr2.Fence = 0
      · exact Or.inl hz
      · right
        have : ¬ s1.gpuCompleted + inp.gpuAdvance < fr2.Fence := fun hlt => hc ⟨hz, hlt⟩
        omega
  · show s1.gpuCompleted ≤ ite _ _ _
    split
    · omega
    · omega
  · simp only [slotFence, List.getElem?_set_self hk]

/-- C3: in a runnable state with ring index `c`, `Update` succeeds and selects slot
`(c + 1) % gNumFrameResources`; the new index is in range and addresses an existing
slot, from index 0 the selected slot is 1, and after any sequence of frames the
index is still in range. -/
theorem update_selects_next_slot {α : Type} [LinearOrderedField α] (s : App α)
    (h : Runnable s) (inp : FrameInput α) (ins : List (FrameInput α)) :
    (∃ t, Update s inp = some t ∧
      t.mCurrFrameResourceIndex = (s.mCurrFrameResourceIndex + 1) % gNumFrameResources ∧
      t.mCurrFrameResource = some t.mCurrFrameResourceIndex.toNat ∧
      0 ≤ t.mCurrFrameResourceIndex ∧ t.mCurrFrameResourceIndex < gNumFrameResources ∧
      t.mCurrFrameResourceIndex.toNat < t.mFrameResources.length ∧
      (s.mCurrFrameResourceIndex = 0 → t.mCurrFrameResourceIndex = 1)) ∧
    (∃ t, runFrames s ins = some t ∧
      0 ≤ t.mCurrFrameResourceIndex ∧ t.mCurrFrameResourceIndex < gNumFrameResources ∧
      t.mCurrFrameResourceIndex.toNat < t.mFrameResources.length) := by
  constructor
  · obtain ⟨t, ht, ⟨⟨hlen, h0, h3⟩, _⟩, hidx, hcur, _⟩ := Update_runnable s inp h
    refine ⟨t, ht, hidx, hcur, h0, h3, ?_, ?_⟩
    · rw [hlen]; simp only [gNumFrameResources] at h3; omega
    · intro hz
      rw [hidx, hz]
      rfl
  · obtain ⟨t, ht, ⟨⟨hlen, h0, h3⟩, _⟩, _⟩ := runFrames_runnable ins s h
    refine ⟨t, ht, h0, h3, ?_⟩
    rw [hlen]; simp only [gNumFrameResources] at h3; omega

/-- C4: in a runnable state `Update` blocks on the fence exactly when the recorded
fence of the newly selected slot is nonzero and the completed fence value is strictly
below it; the awaited value is then that fence.  A slot whose fence is 0 and a slot
whose fence the GPU has reached cause no wait. -/
theorem update_waits_iff {α : Type} [LinearOrderedField α] (s : App α)
    (h : Runnable s) (inp : FrameInput α) :
    ∃ fr t,
      s.mFrameResources[((s.mCurrFrameResourceIndex + 1) % gNumFrameResources).toNat]? = some fr ∧
      Update s inp = some t ∧
      (t.waitLog = fr.Fence :: s.waitLog ↔
        (fr.Fence ≠ 0 ∧ s.gpuCompleted + inp.gpuAdvance < fr.Fence)) ∧
      (t.waitLog = s.waitLog ↔
        ¬ (fr.Fence ≠ 0 ∧ s.gpuCompleted + inp.gpuAdvance < fr.Fence)) ∧
      (fr.Fence = 0 → t.waitLog = s.waitLog) ∧
      (fr.Fence ≤ s.gpuCompleted + inp.gpuAdvance → t.waitLog = s.waitLog) := by
  obtain ⟨fr, mats1, ocb, mcb, hfr, _, _, _, hU⟩ := Update_spec s inp h
  have hne : ∀ (x : Nat) (l : List Nat), x :: l ≠ l := fun x l hx => by
    have := congrArg List.length hx
    simp at this
  refine ⟨fr, _, hfr, hU, ?_, ?_, ?_, ?_⟩
  · show ite _ _ _ = _ ↔ _
    by_cases hc : fr.Fence ≠ 0 ∧ s.gpuCompleted + inp.gpuAdvance < fr.Fence
    · rw [if_pos hc]
      exact ⟨fun _ => hc, fun _ => rfl⟩
    · rw [if_neg hc]
      exact ⟨fun hx => absurd hx.symm (hne _ _), fun hx => absurd hx hc⟩
  · show ite _ _ _ = _ ↔ _
    by_cases hc : fr.Fence ≠ 0 ∧ s.gpuCompleted + inp.gpuAdvance < fr.Fence
    · rw [if_pos hc]
      exact ⟨fun hx => absurd hx (hne _ _), fun hx => absurd hc hx⟩
    · rw [if_neg hc]
      exact ⟨fun _ => hc, fun _ => rfl⟩
  · intro hz
    have hc : ¬ (fr.Fence ≠ 0 ∧ s.gpuCompleted + inp.gpuAdvance < fr.Fence) :=
      fun hc => hc.1 hz
    show ite _ _ _ = _
    rw [if_neg hc]
  · intro hle
    have hc : ¬ (fr.Fence ≠ 0 ∧ s.gpuCompleted + inp.gpuAdvance < fr.Fence) :=
      fun hc => absurd hc.2 (by omega)
    show ite _ _ _ = _
    rw [if_neg hc]

/-- Witness for C1: three stalled frames, then the fourth `Update` (which has to
wait for slot 1). -/
theorem ring_wraparound_safety_witness :
    Runnable demoApp ∧
    ∃ s1 s2 s3 k fr,
      runFrames demoApp [stalledInput, stalledInput, stalledInput] = some s1 ∧
      cycleFrameResource s1 stalledInput = some s2 ∧
      Update s1 stalledInput = some s3 ∧
      s2.mCurrFrameResource = some k ∧ s2.mFrameResources[k]? = some fr ∧
      (fr.Fence = 0 ∨ fr.Fence ≤ s2.gpuCompleted) ∧
      s1.gpuCompleted ≤ s2.gpuCompleted ∧
      s3.mCurrFrameResource = some k ∧ slotFence s3 k = fr.Fence ∧
      s3.gpuCompleted = s2.gpuCompleted ∧
      (∀ (u u2 : App ℚ) (inp2 : FrameInput ℚ), cycleFrameResource u inp2 = some u2 →
        ∃ k2 fr2, u2.mCurrFrameResource = some k2 ∧ u2.mFrameResources[k2]? = some fr2 ∧
          (fr2.Fence = 0 ∨ fr2.Fence ≤ u2.gpuCompleted) ∧
          u.gpuCompleted ≤ u2.gpuCompleted) :=
  ⟨by decide,
    ring_wraparound_safety demoApp (by decide) [stalledInput, stalledInput, stalledInput]
      stalledInput⟩

/-- Witness for C3 on the concrete start state. -/
theorem update_selects_next_slot_witness :
    Runnable demoApp ∧
    ((∃ t, Update demoApp stalledInput = some t ∧
      t.mCurrFrameResourceIndex = (demoApp.mCurrFrameResourceIndex + 1) % gNumFrameResources ∧
      t.mCurrFrameResource = some t.mCurrFrameResourceIndex.toNat ∧
      0 ≤ t.mCurrFrameResourceIndex ∧ t.mCurrFrameResourceIndex < gNumFrameResources ∧
      t.mCurrFrameResourceIndex.toNat < t.mFrameResources.length ∧
      (demoApp.mCurrFrameResourceIndex = 0 → t.mCurrFrameResourceIndex = 1)) ∧
    (∃ t, runFrames demoApp [stalledInput, stalledInput] = some t ∧
      0 ≤ t.mCurrFrameResourceIndex ∧ t.mCurrFrameResourceIndex < gNumFrameResources ∧
      t.mCurrFrameResourceIndex.toNat < t.mFrameResources.length)) :=
  ⟨by decide,
    update_selects_next_slot demoApp (by decide) stalledInput [stalledInput, stalledInput]⟩

/-- Witness for C4 on the concrete start state. -/
theorem update_waits_iff_witness :
    Runnable demoApp ∧
    ∃ fr t,
      demoApp.mFrameResources[
        ((demoApp.mCurrFrameResourceIndex + 1) % gNumFrameResources).toNat]? = some fr ∧
      Update demoApp stalledInput = some t ∧
      (t.waitLog = fr.Fence :: demoApp.waitLog ↔
        (fr.Fence ≠ 0 ∧ demoApp.gpuCompleted + stalledInput.gpuAdvance < fr.Fence)) ∧
      (t.waitLog = demoApp.waitLog ↔
        ¬ (fr.Fence ≠ 0 ∧ demoApp.gpuCompleted + stalledInput.gpuAdvance < fr.Fence)) ∧
      (fr.Fence = 0 → t.waitLog = demoApp.waitLog) ∧
      (fr.Fence ≤ demoApp.gpuCompleted + stalledInput.gpuAdvance →
        t.waitLog = demoApp.waitLog) :=
  ⟨by decide, update_waits_iff demoApp (by decide) stalledInput⟩

/-! ## Fence values -/

theorem Draw_inv {α : Type} (s t : App α) (h : Draw s = some t) :
    ∃ k fr, s.mCurrFrameResource = some k ∧ s.mFrameResources[k]? = some fr ∧
      t = { s with mCurrentFence := s.mCurrentFence + 1,
                   mFrameResources :=
                     s.mFrameResources.set k { fr with Fence := s.mCurrentFence + 1 } } := by
  unfold Draw at h
  cases hc : s.mCurrFrameResource with
  | none => simp [hc] at h
  | some k =>
    cases hfr : s.mFrameResources[k]? with
    | none => simp [hc, hfr] at h
    | some fr =>
      simp only [hc, hfr, Option.some.injEq] at h
      exact ⟨k, fr, rfl, hfr, h.symm⟩

theorem slotFence_of_ge {α : Type} (s : App α) (j : Nat) (h : s.mFrameResources.length ≤ j) :
    slotFence s j = 0 := by
  simp only [slotFence, List.getElem?_eq_none h]

theorem fenceInv_congr {α : Type} (s t : App α)
    (hlen : t.mFrameResources.length = s.mFrameResources.length)
    (hf : ∀ j, slotFence t j = slotFence s j) (hc : t.mCurrentFence = s.mCurrentFence)
    (h : FenceInv s) : FenceInv t := by
  obtain ⟨h1, h2⟩ := h
  constructor
  · intro j hj
    rw [hf, hc]
    exact h1 j (hlen ▸ hj)
  · intro i hi j hj hij
    rw [hf, hf]
    exact h2 i (hlen ▸ hi) j (hlen ▸ hj) hij

theorem Draw_fence_step {α : Type} (s t : App α) (hinv : FenceInv s) (hd : Draw s = some t) :
    t.mCurrentFence = s.mCurrentFence + 1 ∧
    (∃ k, s.mCurrFrameResource = some k ∧ k < s.mFrameResources.length ∧
      slotFence t k = t.mCurrentFence ∧ ∀ j, j ≠ k → slotFence t j = slotFence s j) ∧
    (∀ j, slotFence s j < t.mCurrentFence) ∧
    FenceInv t := by
  obtain ⟨k, fr, hc, hfr, rfl⟩ := Draw_inv s t hd
  obtain ⟨h1, h2⟩ := hinv
  have hk := (List.getElem?_eq_some_iff.mp hfr).1
  have hself : ∀ (u : App α), u.mFrameResources = s.mFrameResources.set k
      { fr with Fence := s.mCurrentFence + 1 } → slotFence u k = s.mCurrentFence + 1 := by
    intro u hu
    simp only [slotFence, hu, List.getElem?_set_self hk]
  have hother : ∀ (u : App α), u.mFrameResources = s.mFrameResources.set k
      { fr with Fence := s.mCurrentFence + 1 } → ∀ j, j ≠ k → slotFence u j = slotFence s j := by
    intro u hu j hj
    simp only [slotFence, hu, List.getElem?_set_ne (Ne.symm hj)]
  have hbound : ∀ j, slotFence s j ≤ s.mCurrentFence := by
    intro j
    by_cases hj : j < s.mFrameResources.length
    · exact h1 j hj
    · rw [slotFence_of_ge s j (by omega)]; omega
  refine ⟨rfl, ⟨k, hc, hk, hself _ rfl, hother _ rfl⟩, ?_, ?_, ?_⟩
  · intro j
    have := hbound j
    show slotFence s j < s.mCurrentFence + 1
    omega
  · intro j hj
    show slotFence _ j ≤ s.mCurrentFence + 1
    by_cases hjk : j = k
    · rw [hjk, hself _ rfl]
    · rw [hother _ rfl j hjk]
      have := hbound j
      omega
  · intro i hi j hj hij heq
    simp only [List.length_set] at hi hj
    by_cases hik : i = k
    · have hjk : j ≠ k := fun hjk => hij (hik.trans hjk.symm)
      rw [hik, hself _ rfl, hother _ rfl j hjk] at heq
      have := hbound j
      omega
    · by_cases hjk : j = k
      · rw [hjk, hself _ rfl, hother _ rfl i hik] at heq
        have := hbound i
        omega
      · rw [hother _ rfl i hik] at heq ⊢
        rw [hother _ rfl j hjk] at heq
        exact h2 i hi j hj hij heq

theorem frame_fenceInv {α : Type} [LinearOrderedField α] (s : App α) (inp : FrameInput α)
    (h : Runnable s) (hinv : FenceInv s) :
    ∃ t, frame s inp = some t ∧ Runnable t ∧ FenceInv t ∧
      t.mCurrentFence = s.mCurrentFence + 1 ∧
      (∃ k, t.mCurrFrameResource = some k ∧ slotFence t k = t.mCurrentFence) := by
  obtain ⟨u, hu, hru, _, _, hfence, hslots, _⟩ := Update_runnable s inp h
  obtain ⟨t, ht, hrt, hti, htc, htf, hts, _⟩ := frame_runnable s inp h
  have hframe : Draw u = some t := by
    simp only [frame, hu] at ht
    exact ht
  have hinvu : FenceInv u :=
    fenceInv_congr s u (by rw [hru.1.1, h.1.1]) hslots hfence hinv
  obtain ⟨_, _, _, hinvt⟩ := Draw_fence_step u t hinvu hframe
  exact ⟨t, ht, hrt, hinvt, htf, _, htc, hts⟩

theorem runFrames_fenceInv {α : Type} [LinearOrderedField α] :
    ∀ (ins : List (FrameInput α)) (s : App α), Runnable s → FenceInv s →
      ∃ t, runFrames s ins = some t ∧ FenceInv t ∧
        t.mCurrentFence = s.mCurrentFence + ins.length ∧
        (ins ≠ [] → ∃ k, t.mCurrFrameResource = some k ∧ slotFence t k = t.mCurrentFence) := by
  intro ins
  induction ins with
  | nil => intro s _ hinv; exact ⟨s, rfl, hinv, rfl, fun hne => absurd rfl hne⟩
  | cons inp rest ih =>
    intro s h hinv
    obtain ⟨u, hu, hru, hinvu, hfu, hpub⟩ := frame_fenceInv s inp h hinv
    obtain ⟨t, ht, hinvt, hft, hlast⟩ := ih u hru hinvu
    refine ⟨t, ?_, hinvt, ?_, ?_⟩
    · simp only [runFrames, hu, ht]
    · rw [hft, hfu, List.length_cons]; omega
    · intro _
      cases rest with
      | nil =>
        simp only [runFrames, Option.some.injEq] at ht
        rw [← ht]
        exact hpub
      | cons inp2 rest2 => exact hlast (List.cons_ne_nil _ _)

theorem fenceInv_explicit {α : Type} (t : App α) (h : FenceInv t) :
    (∀ j, slotFence t j ≤ t.mCurrentFence) ∧
    (∀ i j, i ≠ j → slotFence t i ≠ 0 → slotFence t i ≠ slotFence t j) := by
  obtain ⟨h1, h2⟩ := h
  constructor
  · intro j
    by_cases hj : j < t.mFrameResources.length
    · exact h1 j hj
    · rw [slotFence_of_ge t j (by omega)]; omega
  · intro i j hij hne heq
    by_cases hi : i < t.mFrameResources.length
    · by_cases hj : j < t.mFrameResources.length
      · exact hne (h2 i hi j hj hij heq)
      · rw [slotFence_of_ge t j (by omega)] at heq
        exact hne heq
    · exact hne (slotFence_of_ge t i (by omega))

/-- C5: a `Draw` call raises the fence counter by exactly one and stores the new
value in the current slot only; the new value exceeds every fence recorded before.
Over any sequence of frames from a runnable state the counter grows by one per
frame, the value published by the last frame is the counter, every recorded fence is
at most the counter, and the nonzero fences of distinct slots are distinct. -/
theorem fence_published_increasing {α : Type} [LinearOrderedField α]
    (s1 s2 : App α) (hinv1 : FenceInv s1) (hd : Draw s1 = some s2)
    (s : App α) (h : Runnable s) (hinv : FenceInv s) (ins : List (FrameInput α)) :
    (s2.mCurrentFence = s1.mCurrentFence + 1 ∧
      (∃ k, s1.mCurrFrameResource = some k ∧ k < s1.mFrameResources.length ∧
        slotFence s2 k = s2.mCurrentFence ∧ ∀ j, j ≠ k → slotFence s2 j = slotFence s1 j) ∧
      (∀ j, slotFence s1 j < s2.mCurrentFence) ∧
      (∀ j, slotFence s2 j ≤ s2.mCurrentFence) ∧
      (∀ i j, i ≠ j → slotFence s2 i ≠ 0 → slotFence s2 i ≠ slotFence s2 j)) ∧
    (∃ t, runFrames s ins = some t ∧
      t.mCurrentFence = s.mCurrentFence + ins.length ∧
      (ins ≠ [] → ∃ k, t.mCurrFrameResource = some k ∧ slotFence t k = t.mCurrentFence) ∧
      (∀ j, slotFence t j ≤ t.mCurrentFence) ∧
      (∀ i j, i ≠ j → slotFence t i ≠ 0 → slotFence t i ≠ slotFence t j)) := by
  constructor
  · obtain ⟨h1, h2, h3, h4⟩ := Draw_fence_step s1 s2 hinv1 hd
    obtain ⟨h5, h6⟩ := fenceInv_explicit s2 h4
    exact ⟨h1, h2, h3, h5, h6⟩
  · obtain ⟨t, ht, hinvt, hft, hlast⟩ := runFrames_fenceInv ins s h hinv
    obtain ⟨h5, h6⟩ := fenceInv_explicit t hinvt
    exact ⟨t, ht, hft, hlast, h5, h6⟩

/-- Witness for C5: one `Draw` on the concrete state, and a run of three frames. -/
theorem fence_published_increasing_witness :
    FenceInv demoSelected ∧ Draw demoSelected = some demoDrawn ∧
    Runnable demoApp ∧ FenceInv demoApp ∧
    demoDrawn.mCurrentFence = demoSelected.mCurrentFence + 1 ∧
    (∀ j, slotFence demoSelected j < demoDrawn.mCurrentFence) ∧
    (∃ t, runFrames demoApp [stalledInput, stalledInput, stalledInput] = some t ∧
      t.mCurrentFence = demoApp.mCurrentFence + [stalledInput, stalledInput, stalledInput].length ∧
      ([stalledInput, stalledInput, stalledInput] ≠ [] →
        ∃ k, t.mCurrFrameResource = some k ∧ slotFence t k = t.mCurrentFence) ∧
      (∀ j, slotFence t j ≤ t.mCurrentFence) ∧
      (∀ i j, i ≠ j → slotFence t i ≠ 0 → slotFence t i ≠ slotFence t j)) :=
  have h := fence_published_increasing demoSelected demoDrawn (by decide) rfl demoApp
    (by decide) (by decide) [stalledInput, stalledInput, stalledInput]
  ⟨by decide, rfl, by decide, by decide, h.1.1, h.1.2.2.1, h.2⟩

/-! ## Dirty propagation: one pass of an update function -/

theorem count_dirty_index {E : Type} (dirty : E → Int) (index : E → Nat) (items : List E)
    (hnd : (items.map index).Nodup) (e : E) (he : e ∈ items) :
    List.count (index e) ((items.filter (fun x => decide (dirty x > 0))).map index)
      = if dirty e > 0 then 1 else 0 := by
  have hsub : ((items.filter (fun x => decide (dirty x > 0))).map index).Sublist
      (items.map index) := (List.filter_sublist items).map index
  have hnd2 := List.Nodup.sublist hsub hnd
  by_cases hde : dirty e > 0
  · rw [if_pos hde]
    apply List.count_eq_one_of_mem hnd2
    exact List.mem_map_of_mem index (List.mem_filter.mpr ⟨he, by simpa using hde⟩)
  · rw [if_neg hde]
    apply List.count_eq_zero.mpr
    intro hmem
    obtain ⟨x, hx, hxe⟩ := List.mem_map.mp hmem
    obtain ⟨hxi, hxd⟩ := List.mem_filter.mp hx
    have : x = e := List.inj_on_of_nodup_map hnd hxi he hxe
    subst this
    exact hde (by simpa using hxd)

theorem entry_congr {β : Type} (cb cb2 : UploadBuffer β) (i : Nat)
    (h : cb2.mElements[i]? = cb.mElements[i]?) : cb2.entry i = cb.entry i := by
  simp only [UploadBuffer.entry, h]

theorem uploadLoop_facts {E β : Type} (dirty : E → Int) (index : E → Nat) (payload : E → β)
    (dec : E → E) (items : List E) (cb cb2 : UploadBuffer β) (items2 : List E)
    (hnd : (items.map index).Nodup)
    (h : uploadLoop dirty index payload dec cb items = some (cb2, items2)) :
    (∀ e ∈ items, dirty e > 0 →
      cb2.entry (index e) = some (payload e) ∧
      cb2.copyLog.count (index e) = cb.copyLog.count (index e) + 1) ∧
    (∀ e ∈ items, ¬ dirty e > 0 →
      cb2.entry (index e) = cb.entry (index e) ∧
      cb2.copyLog.count (index e) = cb.copyLog.count (index e)) := by
  obtain ⟨_, _, hlog, hkeep⟩ := uploadLoop_spec dirty index payload dec items cb cb2 items2 h
  constructor
  · intro e he hde
    refine ⟨uploadLoop_entry dirty index payload dec items cb cb2 items2 hnd h e he hde, ?_⟩
    rw [hlog, List.count_append, List.count_reverse, count_dirty_index dirty index items hnd e he,
      if_pos hde]
    omega
  · intro e he hde
    constructor
    · apply entry_congr
      apply hkeep
      intro x hx hxd hxe
      have : x = e := List.inj_on_of_nodup_map hnd hx he hxe
      subst this
      exact hde hxd
    · rw [hlog, List.count_append, List.count_reverse,
        count_dirty_index dirty index items hnd e he, if_neg hde]
      omega

theorem UpdateObjectCBs_spec {α : Type} (s : App α) (k : Nat) (fr : FrameResource α)
    (hc : s.mCurrFrameResource = some k) (hfr : s.mFrameResources[k]? = some fr)
    (hb : ∀ e ∈ s.mAllRitems, e.ObjCBIndex < fr.ObjectCB.elementCount) :
    ∃ ocb, objectLoop fr.ObjectCB s.mAllRitems = some (ocb, s.mAllRitems.map tickItem) ∧
      UpdateObjectCBs s = some
        { s with mFrameResources := s.mFrameResources.set k { fr with ObjectCB := ocb },
                 mAllRitems := s.mAllRitems.map tickItem } := by
  obtain ⟨ocb, hocb⟩ := objectLoop_run fr.ObjectCB s.mAllRitems hb
  exact ⟨ocb, hocb, by simp only [UpdateObjectCBs, hc, hfr, hocb]⟩

theorem UpdateMaterialCBs_spec {α : Type} (s : App α) (k : Nat) (fr : FrameResource α)
    (hc : s.mCurrFrameResource = some k) (hfr : s.mFrameResources[k]? = some fr)
    (hb : ∀ km ∈ s.mMaterials, km.2.MatCBIndex < fr.MaterialCB.elementCount) :
    ∃ mcb, materialLoop fr.MaterialCB s.mMaterials = some (mcb, s.mMaterials.map tickMaterial) ∧
      UpdateMaterialCBs s = some
        { s with mFrameResources := s.mFrameResources.set k { fr with MaterialCB := mcb },
                 mMaterials := s.mMaterials.map tickMaterial } := by
  obtain ⟨mcb, hmcb⟩ := materialLoop_run fr.MaterialCB s.mMaterials hb
  exact ⟨mcb, hmcb, by simp only [UpdateMaterialCBs, hc, hfr, hmcb]⟩

theorem objectLoop_facts {α : Type} (items : List (RenderItem α))
    (cb cb2 : UploadBuffer (ObjectConstants α)) (items2 : List (RenderItem α))
    (hnd : (items.map (fun e => e.ObjCBIndex)).Nodup)
    (h : objectLoop cb items = some (cb2, items2)) :
    (∀ e ∈ items, e.NumFramesDirty > 0 →
      cb2.entry e.ObjCBIndex = some (objectPayload e) ∧
      cb2.copyLog.count e.ObjCBIndex = cb.copyLog.count e.ObjCBIndex + 1) ∧
    (∀ e ∈ items, ¬ e.NumFramesDirty > 0 →
      cb2.entry e.ObjCBIndex = cb.entry e.ObjCBIndex ∧
      cb2.mElements[e.ObjCBIndex]? = cb.mElements[e.ObjCBIndex]? ∧
      cb2.copyLog.count e.ObjCBIndex = cb.copyLog.count e.ObjCBIndex) := by
  rw [objectLoop_eq_uploadLoop] at h
  obtain ⟨h1, h2⟩ := uploadLoop_facts _ _ _ _ items cb cb2 items2 hnd h
  refine ⟨h1, fun e he hde => ⟨(h2 e he hde).1, ?_, (h2 e he hde).2⟩⟩
  apply (uploadLoop_spec _ _ _ _ items cb cb2 items2 h).2.2.2
  intro x hx hxd hxe
  have : x = e := List.inj_on_of_nodup_map hnd hx he hxe
  subst this
  exact hde hxd

theorem materialLoop_facts {α : Type} (mats : List (String × Material α))
    (cb cb2 : UploadBuffer (MaterialConstants α)) (mats2 : List (String × Material α))
    (hnd : (mats.map (fun km => km.2.MatCBIndex)).Nodup)
    (h : materialLoop cb mats = some (cb2, mats2)) :
    (∀ km ∈ mats, km.2.NumFramesDirty > 0 →
      cb2.entry km.2.MatCBIndex = some (materialPayload km.2) ∧
      cb2.copyLog.count km.2.MatCBIndex = cb.copyLog.count km.2.MatCBIndex + 1) ∧
    (∀ km ∈ mats, ¬ km.2.NumFramesDirty > 0 →
      cb2.entry km.2.MatCBIndex = cb.entry km.2.MatCBIndex ∧
      cb2.mElements[km.2.MatCBIndex]? = cb.mElements[km.2.MatCBIndex]? ∧
      cb2.copyLog.count km.2.MatCBIndex = cb.copyLog.count km.2.MatCBIndex) := by
  rw [materialLoop_eq_uploadLoop] at h
  obtain ⟨h1, h2⟩ := uploadLoop_facts _ _ _ _ mats cb cb2 mats2 hnd h
  refine ⟨h1, fun km hkm hde => ⟨(h2 km hkm hde).1, ?_, (h2 km hkm hde).2⟩⟩
  apply (uploadLoop_spec _ _ _ _ mats cb cb2 mats2 h).2.2.2
  intro x hx hxd hxe
  have : x = km := List.inj_on_of_nodup_map hnd hx hkm hxe
  subst this
  exact hde hxd

theorem getElem?_map_tickItem {α : Type} (items : List (RenderItem α)) (p : Nat)
    (e : RenderItem α) (h : items[p]? = some e) :
    (items.map tickItem)[p]? = some (tickItem e) := by
  rw [List.getElem?_map, h]; rfl

theorem getElem?_map_tickMaterial {α : Type} (mats : List (String × Material α)) (p : Nat)
    (km : String × Material α) (h : mats[p]? = some km) :
    (mats.map tickMaterial)[p]? = some (tickMaterial km) := by
  rw [List.getElem?_map, h]; rfl

/-- C6: when an update function runs on a state whose constant indices are in range
and pairwise distinct, every render item with a positive dirty counter gets the
transposed `World` and `TexTransform` stored at `ObjCBIndex` in the current slot and
its counter lowered by exactly one; every material with a positive counter gets
`DiffuseAlbedo`, `FresnelR0`, `Roughness` and the transposed `MatTransform` stored at
`MatCBIndex` in the current slot and its counter lowered by exactly one. -/
theorem dirty_entity_uploaded {α : Type} (s : App α) (k : Nat) (fr : FrameResource α)
    (hc : s.mCurrFrameResource = some k) (hfr : s.mFrameResources[k]? = some fr)
    (hb : BuffersOk s) (hd : IndicesDistinct s) :
    (∃ t, UpdateObjectCBs s = some t ∧
      ∀ (p : Nat) (e : RenderItem α), s.mAllRitems[p]? = some e → e.NumFramesDirty > 0 →
        objectEntry t k e.ObjCBIndex =
          some { World := XMMatrixTranspose e.World,
                 TexTransform := XMMatrixTranspose e.TexTransform } ∧
        t.mAllRitems[p]? = some { e with NumFramesDirty := e.NumFramesDirty - 1 }) ∧
    (∃ t, UpdateMaterialCBs s = some t ∧
      ∀ (p : Nat) (key : String) (mat : Material α), s.mMaterials[p]? = some (key, mat) → mat.NumFramesDirty > 0 →
        materialEntry t k mat.MatCBIndex =
          some { DiffuseAlbedo := mat.DiffuseAlbedo, FresnelR0 := mat.FresnelR0,
                 Roughness := mat.Roughness,
                 MatTransform := XMMatrixTranspose mat.MatTransform } ∧
        t.mMaterials[p]? = some (key, { mat with NumFramesDirty := mat.NumFramesDirty - 1 })) := by
  have hmem : fr ∈ s.mFrameResources := List.getElem?_mem hfr
  have hk := (List.getElem?_eq_some_iff.mp hfr).1
  obtain ⟨hbo, hbm⟩ := hb fr hmem
  constructor
  · obtain ⟨ocb, hocb, hU⟩ := UpdateObjectCBs_spec s k fr hc hfr hbo
    refine ⟨_, hU, ?_⟩
    intro p e hp hde
    have he : e ∈ s.mAllRitems := List.getElem?_mem hp
    constructor
    · simp only [objectEntry, List.getElem?_set_self hk]
      exact ((objectLoop_facts _ _ _ _ hd.1 hocb).1 e he hde).1
    · show (s.mAllRitems.map tickItem)[p]? = _
      rw [getElem?_map_tickItem _ _ _ hp]
      simp only [tickItem, hde, if_true, RenderItem.decDirty]
  · obtain ⟨mcb, hmcb, hU⟩ := UpdateMaterialCBs_spec s k fr hc hfr hbm
    refine ⟨_, hU, ?_⟩
    intro p key mat hp hde
    have hkm : (key, mat) ∈ s.mMaterials := List.getElem?_mem hp
    constructor
    · simp only [materialEntry, List.getElem?_set_self hk]
      exact ((materialLoop_facts _ _ _ _ hd.2 hmcb).1 (key, mat) hkm hde).1
    · show (s.mMaterials.map tickMaterial)[p]? = _
      rw [getElem?_map_tickMaterial _ _ _ hp]
      simp only [tickMaterial, hde, if_true, Material.decDirty]

/-- Witness for C6: the concrete state after the ring step, both items and both
materials dirty. -/
theorem dirty_entity_uploaded_witness :
    demoSelected.mCurrFrameResource = some 1 ∧
    demoSelected.mFrameResources[1]? = some (FrameResource.create ℚ 2 2) ∧
    BuffersOk demoSelected ∧ IndicesDistinct demoSelected ∧
    (∃ t, UpdateObjectCBs demoSelected = some t ∧
      ∀ (p : Nat) (e : RenderItem ℚ), demoSelected.mAllRitems[p]? = some e → e.NumFramesDirty > 0 →
        objectEntry t 1 e.ObjCBIndex =
          some { World := XMMatrixTranspose e.World,
                 TexTransform := XMMatrixTranspose e.TexTransform } ∧
        t.mAllRitems[p]? = some { e with NumFramesDirty := e.NumFramesDirty - 1 }) ∧
    (∃ t, UpdateMaterialCBs demoSelected = some t ∧
      ∀ (p : Nat) (key : String) (mat : Material ℚ),
        demoSelected.mMaterials[p]? = some (key, mat) → mat.NumFramesDirty > 0 →
        materialEntry t 1 mat.MatCBIndex =
          some { DiffuseAlbedo := mat.DiffuseAlbedo, FresnelR0 := mat.FresnelR0,
                 Roughness := mat.Roughness,
                 MatTransform := XMMatrixTranspose mat.MatTransform } ∧
        t.mMaterials[p]? = some (key, { mat with NumFramesDirty := mat.NumFramesDirty - 1 })) :=
  have h := dirty_entity_uploaded demoSelected 1 (FrameResource.create ℚ 2 2) rfl rfl
    (by decide) (by decide)
  ⟨rfl, rfl, by decide, by decide, h.1, h.2⟩

theorem tickItem_of_clean {α : Type} (e : RenderItem α) (h : ¬ e.NumFramesDirty > 0) :
    tickItem e = e := by
  simp only [tickItem, h, if_false]

theorem tickMaterial_of_clean {α : Type} (km : String × Material α)
    (h : ¬ km.2.NumFramesDirty > 0) : tickMaterial km = km := by
  simp only [tickMaterial, h, if_false]

theorem tickItem_logical {α : Type} (e : RenderItem α) :
    (tickItem e).World = e.World ∧ (tickItem e).TexTransform = e.TexTransform ∧
      (tickItem e).ObjCBIndex = e.ObjCBIndex := by
  simp only [tickItem]
  split <;> exact ⟨rfl, rfl, rfl⟩

theorem tickMaterial_logical {α : Type} (km : String × Material α) :
    (tickMaterial km).1 = km.1 ∧
      (tickMaterial km).2.DiffuseAlbedo = km.2.DiffuseAlbedo ∧
      (tickMaterial km).2.FresnelR0 = km.2.FresnelR0 ∧
      (tickMaterial km).2.Roughness = km.2.Roughness ∧
      (tickMaterial km).2.MatTransform = km.2.MatTransform ∧
      (tickMaterial km).2.MatCBIndex = km.2.MatCBIndex := by
  simp only [tickMaterial]
  split <;> exact ⟨rfl, rfl, rfl, rfl, rfl, rfl⟩

/-- C9: a pass of `UpdateObjectCBs` or of `UpdateMaterialCBs` leaves every slot but
the current one untouched, and in the current slot keeps the fence and the other
constant buffer.  The copies made are exactly one per entity with a positive counter;
every element that is not the index of such an entity keeps its content.  An entity
whose counter is not positive keeps its counter and, the indices being distinct, its
element is not copied to.  The logical values of all entities are unchanged. -/
theorem update_cbs_touch_only_dirty {α : Type} (s : App α) (k : Nat) (fr : FrameResource α)
    (hc : s.mCurrFrameResource = some k) (hfr : s.mFrameResources[k]? = some fr)
    (hb : BuffersOk s) :
    (∃ t fr2, UpdateObjectCBs s = some t ∧ t.mFrameResources[k]? = some fr2 ∧
      (∀ j, j ≠ k → t.mFrameResources[j]? = s.mFrameResources[j]?) ∧
      fr2.Fence = fr.Fence ∧ fr2.MaterialCB = fr.MaterialCB ∧
      fr2.ObjectCB.copyLog =
        ((s.mAllRitems.filter (fun e => decide (e.NumFramesDirty > 0))).map
          (fun e => e.ObjCBIndex)).reverse ++ fr.ObjectCB.copyLog ∧
      (∀ i, (∀ e ∈ s.mAllRitems, e.NumFramesDirty > 0 → e.ObjCBIndex ≠ i) →
        fr2.ObjectCB.mElements[i]? = fr.ObjectCB.mElements[i]?) ∧
      (IndicesDistinct s → ∀ e ∈ s.mAllRitems, ¬ e.NumFramesDirty > 0 →
        fr2.ObjectCB.mElements[e.ObjCBIndex]? = fr.ObjectCB.mElements[e.ObjCBIndex]? ∧
        fr2.ObjectCB.copyLog.count e.ObjCBIndex = fr.ObjectCB.copyLog.count e.ObjCBIndex) ∧
      (∀ (p : Nat) (e : RenderItem α), s.mAllRitems[p]? = some e →
        ¬ e.NumFramesDirty > 0 → t.mAllRitems[p]? = some e) ∧
      (∀ (p : Nat) (e : RenderItem α), s.mAllRitems[p]? = some e →
        ∃ e2, t.mAllRitems[p]? = some e2 ∧ e2.World = e.World ∧
          e2.TexTransform = e.TexTransform ∧ e2.ObjCBIndex = e.ObjCBIndex) ∧
      t.mAllRitems.length = s.mAllRitems.length ∧ t.mMaterials = s.mMaterials) ∧
    (∃ t fr2, UpdateMaterialCBs s = some t ∧ t.mFrameResources[k]? = some fr2 ∧
      (∀ j, j ≠ k → t.mFrameResources[j]? = s.mFrameResources[j]?) ∧
      fr2.Fence = fr.Fence ∧ fr2.ObjectCB = fr.ObjectCB ∧
      fr2.MaterialCB.copyLog =
        ((s.mMaterials.filter (fun km => decide (km.2.NumFramesDirty > 0))).map
          (fun km => km.2.MatCBIndex)).reverse ++ fr.MaterialCB.copyLog ∧
      (∀ i, (∀ km ∈ s.mMaterials, km.2.NumFramesDirty > 0 → km.2.MatCBIndex ≠ i) →
        fr2.MaterialCB.mElements[i]? = fr.MaterialCB.mElements[i]?) ∧
      (IndicesDistinct s → ∀ km ∈ s.mMaterials, ¬ km.2.NumFramesDirty > 0 →
        fr2.MaterialCB.mElements[km.2.MatCBIndex]? = fr.MaterialCB.mElements[km.2.MatCBIndex]? ∧
        fr2.MaterialCB.copyLog.count km.2.MatCBIndex
          = fr.MaterialCB.copyLog.count km.2.MatCBIndex) ∧
      (∀ (p : Nat) (km : String × Material α), s.mMaterials[p]? = some km →
        ¬ km.2.NumFramesDirty > 0 → t.mMaterials[p]? = some km) ∧
      (∀ (p : Nat) (km : String × Material α), s.mMaterials[p]? = some km →
        ∃ km2, t.mMaterials[p]? = some km2 ∧ km2.1 = km.1 ∧
          km2.2.DiffuseAlbedo = km.2.DiffuseAlbedo ∧ km2.2.FresnelR0 = km.2.FresnelR0 ∧
          km2.2.Roughness = km.2.Roughness ∧ km2.2.MatTransform = km.2.MatTransform ∧
          km2.2.MatCBIndex = km.2.MatCBIndex) ∧
      t.mMaterials.length = s.mMaterials.length ∧ t.mAllRitems = s.mAllRitems) := by
  have hmem : fr ∈ s.mFrameResources := List.getElem?_mem hfr
  have hk := (List.getElem?_eq_some_iff.mp hfr).1
  obtain ⟨hbo, hbm⟩ := hb fr hmem
  constructor
  · obtain ⟨ocb, hocb, hU⟩ := UpdateObjectCBs_spec s k fr hc hfr hbo
    have hup := hocb
    rw [objectLoop_eq_uploadLoop] at hup
    obtain ⟨_, _, hlog, hkeep⟩ := uploadLoop_spec _ _ _ _ _ _ _ _ hup
    refine ⟨_, _, hU, List.getElem?_set_self hk, ?_, rfl, rfl, hlog, hkeep, ?_, ?_, ?_, ?_, rfl⟩
    · intro j hj
      exact List.getElem?_set_ne (Ne.symm hj)
    · intro hd e he hde
      obtain ⟨_, h2, h3⟩ := (objectLoop_facts _ _ _ _ hd.1 hocb).2 e he hde
      exact ⟨h2, h3⟩
    · intro p e hp hde
      show (s.mAllRitems.map tickItem)[p]? = _
      rw [getElem?_map_tickItem _ _ _ hp, tickItem_of_clean e hde]
    · intro p e hp
      exact ⟨tickItem e, getElem?_map_tickItem _ _ _ hp, tickItem_logical e⟩
    · show (s.mAllRitems.map tickItem).length = _
      rw [List.length_map]
  · obtain ⟨mcb, hmcb, hU⟩ := UpdateMaterialCBs_spec s k fr hc hfr hbm
    have hup := hmcb
    rw [materialLoop_eq_uploadLoop] at hup
    obtain ⟨_, _, hlog, hkeep⟩ := uploadLoop_spec _ _ _ _ _ _ _ _ hup
    refine ⟨_, _, hU, List.getElem?_set_self hk, ?_, rfl, rfl, hlog, hkeep, ?_, ?_, ?_, ?_, rfl⟩
    · intro j hj
      exact List.getElem?_set_ne (Ne.symm hj)
    · intro hd km hkm hde
      obtain ⟨_, h2, h3⟩ := (materialLoop_facts _ _ _ _ hd.2 hmcb).2 km hkm hde
      exact ⟨h2, h3⟩
    · intro p km hp hde
      show (s.mMaterials.map tickMaterial)[p]? = _
      rw [getElem?_map_tickMaterial _ _ _ hp, tickMaterial_of_clean km hde]
    · intro p km hp
      exact ⟨tickMaterial km, getElem?_map_tickMaterial _ _ _ hp, tickMaterial_logical km⟩
    · show (s.mMaterials.map tickMaterial).length = _
      rw [List.length_map]

/-- Witness for C9: a concrete state with one clean and one dirty render item and
one clean and one dirty material. -/
theorem update_cbs_touch_only_dirty_witness :
    demoMixed.mCurrFrameResource = some 1 ∧
    demoMixed.mFrameResources[1]? = some (FrameResource.create ℚ 2 2) ∧
    BuffersOk demoMixed ∧ IndicesDistinct demoMixed ∧
    (∃ t fr2, UpdateObjectCBs demoMixed = some t ∧ t.mFrameResources[1]? = some fr2 ∧
      (∀ j, j ≠ 1 → t.mFrameResources[j]? = demoMixed.mFrameResources[j]?) ∧
      fr2.Fence = (FrameResource.create ℚ 2 2).Fence ∧ fr2.MaterialCB = (FrameResource.create ℚ 2 2).MaterialCB ∧
      fr2.ObjectCB.copyLog =
        ((demoMixed.mAllRitems.filter (fun e => decide (e.NumFramesDirty > 0))).map
          (fun e => e.ObjCBIndex)).reverse ++ (FrameResource.create ℚ 2 2).ObjectCB.copyLog ∧
      (∀ i, (∀ e ∈ demoMixed.mAllRitems, e.NumFramesDirty > 0 → e.ObjCBIndex ≠ i) →
        fr2.ObjectCB.mElements[i]? = (FrameResource.create ℚ 2 2).ObjectCB.mElements[i]?) ∧
      (IndicesDistinct demoMixed → ∀ e ∈ demoMixed.mAllRitems, ¬ e.NumFramesDirty > 0 →
        fr2.ObjectCB.mElements[e.ObjCBIndex]? = (FrameResource.create ℚ 2 2).ObjectCB.mElements[e.ObjCBIndex]? ∧
        fr2.ObjectCB.copyLog.count e.ObjCBIndex = (FrameResource.create ℚ 2 2).ObjectCB.copyLog.count e.ObjCBIndex) ∧
      (∀ (p : Nat) (e : RenderItem ℚ), demoMixed.mAllRitems[p]? = some e →
        ¬ e.NumFramesDirty > 0 → t.mAllRitems[p]? = some e) ∧
      (∀ (p : Nat) (e : RenderItem ℚ), demoMixed.mAllRitems[p]? = some e →
        ∃ e2, t.mAllRitems[p]? = some e2 ∧ e2.World = e.World ∧
          e2.TexTransform = e.TexTransform ∧ e2.ObjCBIndex = e.ObjCBIndex) ∧
      t.mAllRitems.length = demoMixed.mAllRitems.length ∧ t.mMaterials = demoMixed.mMaterials) ∧
    (∃ t fr2, UpdateMaterialCBs demoMixed = some t ∧ t.mFrameResources[1]? = some fr2 ∧
      (∀ j, j ≠ 1 → t.mFrameResources[j]? = demoMixed.mFrameResources[j]?) ∧
      fr2.Fence = (FrameResource.create ℚ 2 2).Fence ∧ fr2.ObjectCB = (FrameResource.create ℚ 2 2).ObjectCB ∧
      fr2.MaterialCB.copyLog =
        ((demoMixed.mMaterials.filter (fun km => decide (km.2.NumFramesDirty > 0))).map
          (fun km => km.2.MatCBIndex)).reverse ++ (FrameResource.create ℚ 2 2).MaterialCB.copyLog ∧
      (∀ i, (∀ km ∈ demoMixed.mMaterials, km.2.NumFramesDirty > 0 → km.2.MatCBIndex ≠ i) →
        fr2.MaterialCB.mElements[i]? = (FrameResource.create ℚ 2 2).MaterialCB.mElements[i]?) ∧
      (IndicesDistinct demoMixed → ∀ km ∈ demoMixed.mMaterials, ¬ km.2.NumFramesDirty > 0 →
        fr2.MaterialCB.mElements[km.2.MatCBIndex]? = (FrameResource.create ℚ 2 2).MaterialCB.mElements[km.2.MatCBIndex]? ∧
        fr2.MaterialCB.copyLog.count km.2.MatCBIndex
          = (FrameResource.create ℚ 2 2).MaterialCB.copyLog.count km.2.MatCBIndex) ∧
      (∀ (p : Nat) (km : String × Material ℚ), demoMixed.mMaterials[p]? = some km →
        ¬ km.2.NumFramesDirty > 0 → t.mMaterials[p]? = some km) ∧
      (∀ (p : Nat) (km : String × Material ℚ), demoMixed.mMaterials[p]? = some km →
        ∃ km2, t.mMaterials[p]? = some km2 ∧ km2.1 = km.1 ∧
          km2.2.DiffuseAlbedo = km.2.DiffuseAlbedo ∧ km2.2.FresnelR0 = km.2.FresnelR0 ∧
          km2.2.Roughness = km.2.Roughness ∧ km2.2.MatTransform = km.2.MatTransform ∧
          km2.2.MatCBIndex = km.2.MatCBIndex) ∧
      t.mMaterials.length = demoMixed.mMaterials.length ∧ t.mAllRitems = demoMixed.mAllRitems) :=
  have h := update_cbs_touch_only_dirty demoMixed 1 (FrameResource.create ℚ 2 2) rfl rfl
    (by decide)
  ⟨rfl, rfl, by decide, by decide, h.1, h.2⟩

/-! ## `AnimateMaterials` and the water material -/

theorem modifyMaterial_lookup {α : Type} (key : String) (f : Material α → Material α) :
    ∀ (l l1 : List (String × Material α)), modifyMaterial key f l = some l1 →
      ∃ w, l.lookup key = some w ∧ l1.lookup key = some (f w) := by
  intro l
  induction l with
  | nil => intro l1 h; simp [modifyMaterial] at h
  | cons km rest ih =>
    intro l1 h
    obtain ⟨k, m⟩ := km
    rcases modifyMaterial_cons key f k m rest l1 h with ⟨hk, rfl⟩ | ⟨hk, rest1, hr, rfl⟩
    · refine ⟨m, ?_, ?_⟩
      · simp [List.lookup, hk]
      · simp [List.lookup, hk]
    · obtain ⟨w, hw1, hw2⟩ := ih rest1 hr
      have hbeq : (key == k) = false := by
        simpa using fun hkk : key = k => hk hkk.symm
      refine ⟨w, ?_, ?_⟩
      · simp only [List.lookup, hbeq]; exact hw1
      · simp only [List.lookup, hbeq]; exact hw2

theorem modifyMaterial_length {α : Type} (key : String) (f : Material α → Material α)
    (l l1 : List (String × Material α)) (h : modifyMaterial key f l = some l1) :
    l1.length = l.length := by
  have := congrArg List.length (modifyMaterial_map_fst key f l l1 h)
  simpa using this

/-- C8: `AnimateMaterials` succeeds whenever the water material exists, and then the
water material is the old one with scrolled texture offsets and its dirty counter
equal to `gNumFrameResources`, whatever the counter was; every other entry of the
material map, the render items and the frame resources are unchanged. -/
theorem animate_resets_water_counter {α : Type} [LinearOrderedField α] (s : App α) (dt : α)
    (h : HasWater s) :
    ∃ t w, AnimateMaterials s dt = some t ∧
      s.mMaterials.lookup "water" = some w ∧
      t.mMaterials.lookup "water" = some (animateWater dt w) ∧
      (animateWater dt w).NumFramesDirty = gNumFrameResources ∧
      (∀ (p : Nat) (key : String) (mat : Material α),
        s.mMaterials[p]? = some (key, mat) → key ≠ "water" →
          t.mMaterials[p]? = some (key, mat)) ∧
      t.mMaterials.length = s.mMaterials.length ∧
      t.mMaterials.map Prod.fst = s.mMaterials.map Prod.fst ∧
      t.mAllRitems = s.mAllRitems ∧ t.mFrameResources = s.mFrameResources := by
  obtain ⟨mats1, hmats⟩ := modifyMaterial_some "water" (animateWater dt) s.mMaterials h
  obtain ⟨w, hw1, hw2⟩ := modifyMaterial_lookup "water" (animateWater dt) s.mMaterials mats1 hmats
  refine ⟨{ s with mMaterials := mats1 }, w, ?_, hw1, hw2, rfl, ?_, ?_, ?_, rfl, rfl⟩
  · simp only [AnimateMaterials, hmats]
  · intro p key mat hp hne
    exact modifyMaterial_getElem?_ne "water" (animateWater dt) s.mMaterials mats1 hmats p
      (key, mat) hp hne
  · exact modifyMaterial_length _ _ _ _ hmats
  · exact modifyMaterial_map_fst _ _ _ _ hmats

/-- Witness for C8 on the concrete start state. -/
theorem animate_resets_water_counter_witness :
    HasWater demoApp ∧
    ∃ t w, AnimateMaterials demoApp (1 / 60) = some t ∧
      demoApp.mMaterials.lookup "water" = some w ∧
      t.mMaterials.lookup "water" = some (animateWater (1 / 60) w) ∧
      (animateWater (1 / 60 : ℚ) w).NumFramesDirty = gNumFrameResources ∧
      (∀ (p : Nat) (key : String) (mat : Material ℚ),
        demoApp.mMaterials[p]? = some (key, mat) → key ≠ "water" →
          t.mMaterials[p]? = some (key, mat)) ∧
      t.mMaterials.length = demoApp.mMaterials.length ∧
      t.mMaterials.map Prod.fst = demoApp.mMaterials.map Prod.fst ∧
      t.mAllRitems = demoApp.mAllRitems ∧ t.mFrameResources = demoApp.mFrameResources :=
  ⟨by decide, animate_resets_water_counter demoApp (1 / 60) (by decide)⟩

/-! ## Dirty propagation over whole frames -/

theorem frame_spec {α : Type} [LinearOrderedField α] (s : App α) (inp : FrameInput α)
    (h : Runnable s) :
    ∃ fr mats1 ocb mcb,
      s.mFrameResources[((s.mCurrFrameResourceIndex + 1) % 3).toNat]? = some fr ∧
      modifyMaterial "water" (animateWater inp.dt) s.mMaterials = some mats1 ∧
      objectLoop fr.ObjectCB s.mAllRitems = some (ocb, s.mAllRitems.map tickItem) ∧
      materialLoop fr.MaterialCB mats1 = some (mcb, mats1.map tickMaterial) ∧
      frame s inp = some
        { mFrameResources :=
            s.mFrameResources.set ((s.mCurrFrameResourceIndex + 1) % 3).toNat
              { Fence := s.mCurrentFence + 1, ObjectCB := ocb, MaterialCB := mcb },
          mCurrFrameResource := some ((s.mCurrFrameResourceIndex + 1) % 3).toNat,
          mCurrFrameResourceIndex := (s.mCurrFrameResourceIndex + 1) % 3,
          mCurrentFence := s.mCurrentFence + 1,
          gpuCompleted :=
            if fr.Fence ≠ 0 ∧ s.gpuCompleted + inp.gpuAdvance < fr.Fence then
              fr.Fence + inp.waitOvershoot
            else s.gpuCompleted + inp.gpuAdvance,
          waitLog :=
            if fr.Fence ≠ 0 ∧ s.gpuCompleted + inp.gpuAdvance < fr.Fence then
              fr.Fence :: s.waitLog
            else s.waitLog,
          mAllRitems := s.mAllRitems.map tickItem,
          mMaterials := mats1.map tickMaterial } := by
  obtain ⟨fr, mats1, ocb, mcb, hfr, hmats, hocb, hmcb, hU⟩ := Update_spec s inp h
  have hk := (List.getElem?_eq_some_iff.mp hfr).1
  refine ⟨fr, mats1, ocb, mcb, hfr, hmats, hocb, hmcb, ?_⟩
  simp only [frame, hU, Draw, List.getElem?_set_self hk, List.set_set]

theorem objectEntry_set_self {α : Type} (s t : App α) (k : Nat) (fr2 : FrameResource α)
    (hk : k < s.mFrameResources.length)
    (ht : t.mFrameResources = s.mFrameResources.set k fr2) (i : Nat) :
    objectEntry t k i = fr2.ObjectCB.entry i ∧
      objectCopyCount t k i = fr2.ObjectCB.copyLog.count i ∧
      materialEntry t k i = fr2.MaterialCB.entry i ∧
      materialCopyCount t k i = fr2.MaterialCB.copyLog.count i := by
  simp only [objectEntry, objectCopyCount, materialEntry, materialCopyCount, ht,
    List.getElem?_set_self hk, and_self]

theorem objectEntry_set_ne {α : Type} (s t : App α) (k : Nat) (fr2 : FrameResource α)
    (ht : t.mFrameResources = s.mFrameResources.set k fr2) (j : Nat) (hj : j ≠ k) (i : Nat) :
    objectEntry t j i = objectEntry s j i ∧
      objectCopyCount t j i = objectCopyCount s j i ∧
      materialEntry t j i = materialEntry s j i ∧
      materialCopyCount t j i = materialCopyCount s j i := by
  simp only [objectEntry, objectCopyCount, materialEntry, materialCopyCount, ht,
    List.getElem?_set_ne (Ne.symm hj), and_self]

theorem entries_of_getElem? {α : Type} (s : App α) (k : Nat) (fr : FrameResource α)
    (hfr : s.mFrameResources[k]? = some fr) (i : Nat) :
    objectEntry s k i = fr.ObjectCB.entry i ∧
      objectCopyCount s k i = fr.ObjectCB.copyLog.count i ∧
      materialEntry s k i = fr.MaterialCB.entry i ∧
      materialCopyCount s k i = fr.MaterialCB.copyLog.count i := by
  simp only [objectEntry, objectCopyCount, materialEntry, materialCopyCount, hfr, and_self]

/-- The effect of one frame on the render items, the materials other than water, and
the constant buffers. -/
theorem frame_dirty_step {α : Type} [LinearOrderedField α] (s : App α) (inp : FrameInput α)
    (h : Runnable s) (hd : IndicesDistinct s) :
    ∃ t, frame s inp = some t ∧ Runnable t ∧ IndicesDistinct t ∧
      t.mCurrFrameResourceIndex = (s.mCurrFrameResourceIndex + 1) % 3 ∧
      t.mCurrFrameResource = some t.mCurrFrameResourceIndex.toNat ∧
      (∀ (p : Nat) (e : RenderItem α), s.mAllRitems[p]? = some e →
        t.mAllRitems[p]? = some (tickItem e) ∧
        (e.NumFramesDirty > 0 →
          objectEntry t t.mCurrFrameResourceIndex.toNat e.ObjCBIndex = some (objectPayload e) ∧
          objectCopyCount t t.mCurrFrameResourceIndex.toNat e.ObjCBIndex
            = objectCopyCount s t.mCurrFrameResourceIndex.toNat e.ObjCBIndex + 1) ∧
        (¬ e.NumFramesDirty > 0 →
          objectEntry t t.mCurrFrameResourceIndex.toNat e.ObjCBIndex
            = objectEntry s t.mCurrFrameResourceIndex.toNat e.ObjCBIndex ∧
          objectCopyCount t t.mCurrFrameResourceIndex.toNat e.ObjCBIndex
            = objectCopyCount s t.mCurrFrameResourceIndex.toNat e.ObjCBIndex)) ∧
      (∀ (p : Nat) (km : String × Material α), s.mMaterials[p]? = some km → km.1 ≠ "water" →
        t.mMaterials[p]? = some (tickMaterial km) ∧
        (km.2.NumFramesDirty > 0 →
          materialEntry t t.mCurrFrameResourceIndex.toNat km.2.MatCBIndex
            = some (materialPayload km.2) ∧
          materialCopyCount t t.mCurrFrameResourceIndex.toNat km.2.MatCBIndex
            = materialCopyCount s t.mCurrFrameResourceIndex.toNat km.2.MatCBIndex + 1) ∧
        (¬ km.2.NumFramesDirty > 0 →
          materialEntry t t.mCurrFrameResourceIndex.toNat km.2.MatCBIndex
            = materialEntry s t.mCurrFrameResourceIndex.toNat km.2.MatCBIndex ∧
          materialCopyCount t t.mCurrFrameResourceIndex.toNat km.2.MatCBIndex
            = materialCopyCount s t.mCurrFrameResourceIndex.toNat km.2.MatCBIndex)) ∧
      (∀ j, j ≠ t.mCurrFrameResourceIndex.toNat → ∀ i,
        objectEntry t j i = objectEntry s j i ∧
        objectCopyCount t j i = objectCopyCount s j i ∧
        materialEntry t j i = materialEntry s j i ∧
        materialCopyCount t j i = materialCopyCount s j i) := by
  obtain ⟨fr, mats1, ocb, mcb, hfr, hmats, hocb, hmcb, hF⟩ := frame_spec s inp h
  obtain ⟨t, ht, hrt, hidx, hcur, _⟩ := frame_runnable s inp h
  rw [hF] at ht
  have ht := (Option.some.inj ht).symm
  have hk := (List.getElem?_eq_some_iff.mp hfr).1
  have hmi := modifyMaterial_map_index "water" (animateWater inp.dt)
    (animateWater_index inp.dt) s.mMaterials mats1 hmats
  have hnd1 : (mats1.map (fun km => km.2.MatCBIndex)).Nodup := by rw [hmi]; exact hd.2
  have hfrs : t.mFrameResources = s.mFrameResources.set
      ((s.mCurrFrameResourceIndex + 1) % 3).toNat
      { Fence := s.mCurrentFence + 1, ObjectCB := ocb, MaterialCB := mcb } := by rw [ht]
  have hitems : t.mAllRitems = s.mAllRitems.map tickItem := by rw [ht]
  have hmatsT : t.mMaterials = mats1.map tickMaterial := by rw [ht]
  refine ⟨t, by rw [hF, ht], hrt, ⟨?_, ?_⟩, hidx, hcur, ?_, ?_, ?_⟩
  · rw [hitems, map_index_tickItem]; exact hd.1
  · rw [hmatsT, map_index_tickMaterial]; exact hnd1
  · intro p e hp
    have he : e ∈ s.mAllRitems := List.getElem?_mem hp
    obtain ⟨hf1, hf2⟩ := objectLoop_facts _ _ _ _ hd.1 hocb
    rw [hidx]
    refine ⟨by rw [hitems]; exact getElem?_map_tickItem _ _ _ hp, ?_, ?_⟩
    · intro hde
      obtain ⟨h1, h2⟩ := hf1 e he hde
      obtain ⟨g1, g2, _, _⟩ := objectEntry_set_self s t _ _ hk hfrs e.ObjCBIndex
      obtain ⟨_, g4, _, _⟩ := entries_of_getElem? s _ fr hfr e.ObjCBIndex
      rw [g1, g2, g4]
      exact ⟨h1, h2⟩
    · intro hde
      obtain ⟨h1, _, h2⟩ := hf2 e he hde
      obtain ⟨g1, g2, _, _⟩ := objectEntry_set_self s t _ _ hk hfrs e.ObjCBIndex
      obtain ⟨g3, g4, _, _⟩ := entries_of_getElem? s _ fr hfr e.ObjCBIndex
      rw [g1, g2, g3, g4]
      exact ⟨h1, h2⟩
  · intro p km hp hne
    have hp1 : mats1[p]? = some km :=
      modifyMaterial_getElem?_ne "water" (animateWater inp.dt) s.mMaterials mats1 hmats p km
        hp hne
    have hkm : km ∈ mats1 := List.getElem?_mem hp1
    obtain ⟨hf1, hf2⟩ := materialLoop_facts _ _ _ _ hnd1 hmcb
    rw [hidx]
    refine ⟨by rw [hmatsT]; exact getElem?_map_tickMaterial _ _ _ hp1, ?_, ?_⟩
    · intro hde
      obtain ⟨h1, h2⟩ := hf1 km hkm hde
      obtain ⟨_, _, g1, g2⟩ := objectEntry_set_self s t _ _ hk hfrs km.2.MatCBIndex
      obtain ⟨_, _, _, g4⟩ := entries_of_getElem? s _ fr hfr km.2.MatCBIndex
      rw [g1, g2, g4]
      exact ⟨h1, h2⟩
    · intro hde
      obtain ⟨h1, _, h2⟩ := hf2 km hkm hde
      obtain ⟨_, _, g1, g2⟩ := objectEntry_set_self s t _ _ hk hfrs km.2.MatCBIndex
      obtain ⟨_, _, g3, g4⟩ := entries_of_getElem? s _ fr hfr km.2.MatCBIndex
      rw [g1, g2, g3, g4]
      exact ⟨h1, h2⟩
  · intro j hj i
    rw [hidx] at hj
    exact objectEntry_set_ne s t _ _ hfrs j hj i

theorem tickItem_of_dirty {α : Type} (e : RenderItem α) (h : e.NumFramesDirty > 0) :
    tickItem e = { e with NumFramesDirty := e.NumFramesDirty - 1 } := by
  simp only [tickItem, h, if_true, RenderItem.decDirty]

theorem tickMaterial_of_dirty {α : Type} (key : String) (mat : Material α)
    (h : mat.NumFramesDirty > 0) :
    tickMaterial (key, mat) = (key, { mat with NumFramesDirty := mat.NumFramesDirty - 1 }) := by
  simp only [tickMaterial, h, if_true, Material.decDirty]

/-- Three consecutive frames from a runnable state with distinct indices: the slots
used, and what happens to an entity whose dirty counter starts at 3. -/
theorem three_frames {α : Type} [LinearOrderedField α] (s : App α)
    (h : Runnable s) (hd : IndicesDistinct s) (i1 i2 i3 : FrameInput α) :
    ∃ t1 t2 t3 k1 k2 k3,
      frame s i1 = some t1 ∧ frame t1 i2 = some t2 ∧ frame t2 i3 = some t3 ∧
      Runnable t3 ∧ IndicesDistinct t3 ∧
      t1.mCurrFrameResource = some k1 ∧ t2.mCurrFrameResource = some k2 ∧
      t3.mCurrFrameResource = some k3 ∧
      k1 ≠ k2 ∧ k2 ≠ k3 ∧ k1 ≠ k3 ∧ k1 < 3 ∧ k2 < 3 ∧ k3 < 3 ∧
      (∀ (p : Nat) (e : RenderItem α), s.mAllRitems[p]? = some e → e.NumFramesDirty = 3 →
        t1.mAllRitems[p]? = some { e with NumFramesDirty := 2 } ∧
        t2.mAllRitems[p]? = some { e with NumFramesDirty := 1 } ∧
        t3.mAllRitems[p]? = some { e with NumFramesDirty := 0 } ∧
        objectCopyCount t1 k1 e.ObjCBIndex = objectCopyCount s k1 e.ObjCBIndex + 1 ∧
        objectCopyCount t2 k2 e.ObjCBIndex = objectCopyCount t1 k2 e.ObjCBIndex + 1 ∧
        objectCopyCount t3 k3 e.ObjCBIndex = objectCopyCount t2 k3 e.ObjCBIndex + 1 ∧
        (∀ j, j < 3 →
          objectEntry t3 j e.ObjCBIndex = some (objectPayload e) ∧
          objectCopyCount t3 j e.ObjCBIndex = objectCopyCount s j e.ObjCBIndex + 1)) ∧
      (∀ (p : Nat) (key : String) (mat : Material α), s.mMaterials[p]? = some (key, mat) →
        key ≠ "water" → mat.NumFramesDirty = 3 →
        t1.mMaterials[p]? = some (key, { mat with NumFramesDirty := 2 }) ∧
        t2.mMaterials[p]? = some (key, { mat with NumFramesDirty := 1 }) ∧
        t3.mMaterials[p]? = some (key, { mat with NumFramesDirty := 0 }) ∧
        materialCopyCount t1 k1 mat.MatCBIndex = materialCopyCount s k1 mat.MatCBIndex + 1 ∧
        materialCopyCount t2 k2 mat.MatCBIndex = materialCopyCount t1 k2 mat.MatCBIndex + 1 ∧
        materialCopyCount t3 k3 mat.MatCBIndex = materialCopyCount t2 k3 mat.MatCBIndex + 1 ∧
        (∀ j, j < 3 →
          materialEntry t3 j mat.MatCBIndex = some (materialPayload mat) ∧
          materialCopyCount t3 j mat.MatCBIndex = materialCopyCount s j mat.MatCBIndex + 1)) ∧
      (∀ j, j ≠ k1 → ∀ i, objectCopyCount t1 j i = objectCopyCount s j i ∧
        materialCopyCount t1 j i = materialCopyCount s j i) ∧
      (∀ j, j ≠ k2 → ∀ i, objectCopyCount t2 j i = objectCopyCount t1 j i ∧
        materialCopyCount t2 j i = materialCopyCount t1 j i) ∧
      (∀ j, j ≠ k3 → ∀ i, objectCopyCount t3 j i = objectCopyCount t2 j i ∧
        materialCopyCount t3 j i = materialCopyCount t2 j i) := by
  obtain ⟨t1, hf1, hr1, hd1, hx1, hc1, hI1, hM1, hO1⟩ := frame_dirty_step s i1 h hd
  obtain ⟨t2, hf2, hr2, hd2, hx2, hc2, hI2, hM2, hO2⟩ := frame_dirty_step t1 i2 hr1 hd1
  obtain ⟨t3, hf3, hr3, hd3, hx3, hc3, hI3, hM3, hO3⟩ := frame_dirty_step t2 i3 hr2 hd2
  obtain ⟨⟨_, h0, h3⟩, _⟩ := h
  simp only [gNumFrameResources] at h3
  have hk12 : t1.mCurrFrameResourceIndex.toNat ≠ t2.mCurrFrameResourceIndex.toNat := by omega
  have hk23 : t2.mCurrFrameResourceIndex.toNat ≠ t3.mCurrFrameResourceIndex.toNat := by omega
  have hk13 : t1.mCurrFrameResourceIndex.toNat ≠ t3.mCurrFrameResourceIndex.toNat := by omega
  have hcover : ∀ j, j < 3 → j = t1.mCurrFrameResourceIndex.toNat ∨
      j = t2.mCurrFrameResourceIndex.toNat ∨ j = t3.mCurrFrameResourceIndex.toNat := by
    intro j hj; omega
  refine ⟨t1, t2, t3, _, _, _, hf1, hf2, hf3, hr3, hd3, hc1, hc2, hc3, hk12, hk23, hk13,
    by omega, by omega, by omega, ?_, ?_, ?_, ?_, ?_⟩
  · intro p e hp hN
    obtain ⟨a1, b1, _⟩ := hI1 p e hp
    have hpos1 : e.NumFramesDirty > 0 := by rw [hN]; decide
    have e1 : tickItem e = { e with NumFramesDirty := 2 } := by
      rw [tickItem_of_dirty e hpos1, hN]; rfl
    rw [e1] at a1
    obtain ⟨a2, b2, _⟩ := hI2 p _ a1
    have e2 : tickItem { e with NumFramesDirty := 2 } = { e with NumFramesDirty := 1 } := by
      rw [tickItem_of_dirty _ (show (2 : Int) > 0 by decide)]; rfl
    rw [e2] at a2
    obtain ⟨a3, b3, _⟩ := hI3 p _ a2
    have e3 : tickItem { e with NumFramesDirty := 1 } = { e with NumFramesDirty := 0 } := by
      rw [tickItem_of_dirty _ (show (1 : Int) > 0 by decide)]; rfl
    rw [e3] at a3
    have c1 := b1 hpos1
    have c2 : objectEntry t2 t2.mCurrFrameResourceIndex.toNat e.ObjCBIndex
          = some (objectPayload e) ∧
        objectCopyCount t2 t2.mCurrFrameResourceIndex.toNat e.ObjCBIndex
          = objectCopyCount t1 t2.mCurrFrameResourceIndex.toNat e.ObjCBIndex + 1 :=
      b2 (show (2 : Int) > 0 by decide)
    have c3 : objectEntry t3 t3.mCurrFrameResourceIndex.toNat e.ObjCBIndex
          = some (objectPayload e) ∧
        objectCopyCount t3 t3.mCurrFrameResourceIndex.toNat e.ObjCBIndex
          = objectCopyCount t2 t3.mCurrFrameResourceIndex.toNat e.ObjCBIndex + 1 :=
      b3 (show (1 : Int) > 0 by decide)
    refine ⟨a1, a2, a3, c1.2, c2.2, c3.2, ?_⟩
    intro j hj
    rcases hcover j hj with rfl | rfl | rfl
    · obtain ⟨u1, u2, _, _⟩ := hO3 _ hk13 e.ObjCBIndex
      obtain ⟨v1, v2, _, _⟩ := hO2 _ hk12 e.ObjCBIndex
      rw [u1, u2, v1, v2]
      exact c1
    · obtain ⟨u1, u2, _, _⟩ := hO3 _ hk23 e.ObjCBIndex
      obtain ⟨_, v2, _, _⟩ := hO1 _ (Ne.symm hk12) e.ObjCBIndex
      rw [u1, u2, c2.1, c2.2, v2]
      exact ⟨rfl, rfl⟩
    · obtain ⟨_, u2, _, _⟩ := hO2 _ (Ne.symm hk23) e.ObjCBIndex
      obtain ⟨_, v2, _, _⟩ := hO1 _ (Ne.symm hk13) e.ObjCBIndex
      rw [c3.1, c3.2, u2, v2]
      exact ⟨rfl, rfl⟩
  · intro p key mat hp hne hN
    obtain ⟨a1, b1, _⟩ := hM1 p (key, mat) hp hne
    have hpos1 : mat.NumFramesDirty > 0 := by rw [hN]; decide
    have e1 : tickMaterial (key, mat) = (key, { mat with NumFramesDirty := 2 }) := by
      rw [tickMaterial_of_dirty key mat hpos1, hN]; rfl
    rw [e1] at a1
    obtain ⟨a2, b2, _⟩ := hM2 p _ a1 hne
    have e2 : tickMaterial (key, { mat with NumFramesDirty := 2 })
        = (key, { mat with NumFramesDirty := 1 }) := by
      rw [tickMaterial_of_dirty _ _ (show (2 : Int) > 0 by decide)]; rfl
    rw [e2] at a2
    obtain ⟨a3, b3, _⟩ := hM3 p _ a2 hne
    have e3 : tickMaterial (key, { mat with NumFramesDirty := 1 })
        = (key, { mat with NumFramesDirty := 0 }) := by
      rw [tickMaterial_of_dirty _ _ (show (1 : Int) > 0 by decide)]; rfl
    rw [e3] at a3
    have c1 := b1 hpos1
    have c2 : materialEntry t2 t2.mCurrFrameResourceIndex.toNat mat.MatCBIndex
          = some (materialPayload mat) ∧
        materialCopyCount t2 t2.mCurrFrameResourceIndex.toNat mat.MatCBIndex
          = materialCopyCount t1 t2.mCurrFrameResourceIndex.toNat mat.MatCBIndex + 1 :=
      b2 (show (2 : Int) > 0 by decide)
    have c3 : materialEntry t3 t3.mCurrFrameResourceIndex.toNat mat.MatCBIndex
          = some (materialPayload mat) ∧
        materialCopyCount t3 t3.mCurrFrameResourceIndex.toNat mat.MatCBIndex
          = materialCopyCount t2 t3.mCurrFrameResourceIndex.toNat mat.MatCBIndex + 1 :=
      b3 (show (1 : Int) > 0 by decide)
    refine ⟨a1, a2, a3, c1.2, c2.2, c3.2, ?_⟩
    intro j hj
    rcases hcover j hj with rfl | rfl | rfl
    · obtain ⟨_, _, u1, u2⟩ := hO3 _ hk13 mat.MatCBIndex
      obtain ⟨_, _, v1, v2⟩ := hO2 _ hk12 mat.MatCBIndex
      rw [u1, u2, v1, v2]
      exact c1
    · obtain ⟨_, _, u1, u2⟩ := hO3 _ hk23 mat.MatCBIndex
      obtain ⟨_, _, _, v2⟩ := hO1 _ (Ne.symm hk12) mat.MatCBIndex
      rw [u1, u2, c2.1, c2.2, v2]
      exact ⟨rfl, rfl⟩
    · obtain ⟨_, _, _, u2⟩ := hO2 _ (Ne.symm hk23) mat.MatCBIndex
      obtain ⟨_, _, _, v2⟩ := hO1 _ (Ne.symm hk13) mat.MatCBIndex
      rw [c3.1, c3.2, u2, v2]
      exact ⟨rfl, rfl⟩
  · intro j hj i
    exact ⟨(hO1 j hj i).2.1, (hO1 j hj i).2.2.2⟩
  · intro j hj i
    exact ⟨(hO2 j hj i).2.1, (hO2 j hj i).2.2.2⟩
  · intro j hj i
    exact ⟨(hO3 j hj i).2.1, (hO3 j hj i).2.2.2⟩

/-- C2 (dirty convergence): from a runnable state with distinct constant indices,
three consecutive frames succeed, and afterwards every render item whose counter
was 3 has counter 0 and, in each of the three slots, the element at its `ObjCBIndex`
holds the transposed `World` and `TexTransform`; likewise every material other than
water (which `AnimateMaterials` mutates again in every frame) whose counter was 3 has
counter 0 and its constants stored at `MatCBIndex` in each of the three slots. -/
theorem dirty_convergence {α : Type} [LinearOrderedField α] (s : App α)
    (h : Runnable s) (hd : IndicesDistinct s) (i1 i2 i3 : FrameInput α) :
    ∃ t, runFrames s [i1, i2, i3] = some t ∧ t.mFrameResources.length = 3 ∧
      (∀ (p : Nat) (e : RenderItem α), s.mAllRitems[p]? = some e →
        e.NumFramesDirty = gNumFrameResources →
        t.mAllRitems[p]? = some { e with NumFramesDirty := 0 } ∧
        ∀ j, j < 3 → objectEntry t j e.ObjCBIndex =
          some { World := XMMatrixTranspose e.World,
                 TexTransform := XMMatrixTranspose e.TexTransform }) ∧
      (∀ (p : Nat) (key : String) (mat : Material α), s.mMaterials[p]? = some (key, mat) →
        key ≠ "water" → mat.NumFramesDirty = gNumFrameResources →
        t.mMaterials[p]? = some (key, { mat with NumFramesDirty := 0 }) ∧
        ∀ j, j < 3 → materialEntry t j mat.MatCBIndex =
          some { DiffuseAlbedo := mat.DiffuseAlbedo, FresnelR0 := mat.FresnelR0,
                 Roughness := mat.Roughness,
                 MatTransform := XMMatrixTranspose mat.MatTransform }) := by
  obtain ⟨t1, t2, t3, k1, k2, k3, hf1, hf2, hf3, hr3, _, _, _, _, _, _, _, _, _, _, hI, hM, _⟩ :=
    three_frames s h hd i1 i2 i3
  refine ⟨t3, by simp only [runFrames, hf1, hf2, hf3], hr3.1.1, ?_, ?_⟩
  · intro p e hp hN
    obtain ⟨_, _, a3, _, _, _, hall⟩ := hI p e hp hN
    exact ⟨a3, fun j hj => (hall j hj).1⟩
  · intro p key mat hp hne hN
    obtain ⟨_, _, a3, _, _, _, hall⟩ := hM p key mat hp hne hN
    exact ⟨a3, fun j hj => (hall j hj).1⟩

/-- Witness for C2: three stalled frames from the concrete start state. -/
theorem dirty_convergence_witness :
    Runnable demoApp ∧ IndicesDistinct demoApp ∧
    ∃ t, runFrames demoApp [stalledInput, stalledInput, stalledInput] = some t ∧
      t.mFrameResources.length = 3 ∧
      (∀ (p : Nat) (e : RenderItem ℚ), demoApp.mAllRitems[p]? = some e →
        e.NumFramesDirty = gNumFrameResources →
        t.mAllRitems[p]? = some { e with NumFramesDirty := 0 } ∧
        ∀ j, j < 3 → objectEntry t j e.ObjCBIndex =
          some { World := XMMatrixTranspose e.World,
                 TexTransform := XMMatrixTranspose e.TexTransform }) ∧
      (∀ (p : Nat) (key : String) (mat : Material ℚ),
        demoApp.mMaterials[p]? = some (key, mat) →
        key ≠ "water" → mat.NumFramesDirty = gNumFrameResources →
        t.mMaterials[p]? = some (key, { mat with NumFramesDirty := 0 }) ∧
        ∀ j, j < 3 → materialEntry t j mat.MatCBIndex =
          some { DiffuseAlbedo := mat.DiffuseAlbedo, FresnelR0 := mat.FresnelR0,
                 Roughness := mat.Roughness,
                 MatTransform := XMMatrixTranspose mat.MatTransform }) :=
  ⟨by decide, by decide,
    dirty_convergence demoApp (by decide) (by decide) stalledInput stalledInput stalledInput⟩

/-- C7: from a runnable state with distinct constant indices, the three frames after
an entity has its counter at 3 use three pairwise distinct slots that cover the ring;
the counter goes 2, 1, 0, each frame copies the entity exactly once into the slot of
that frame and into no other slot, so after the three frames every slot has received
exactly one copy; in the fourth frame the counter stays 0 and no slot receives a
copy.  This holds for render items and for materials other than water. -/
theorem uploads_hit_distinct_slots {α : Type} [LinearOrderedField α] (s : App α)
    (h : Runnable s) (hd : IndicesDistinct s) (i1 i2 i3 i4 : FrameInput α) :
    ∃ t1 t2 t3 t4 k1 k2 k3,
      frame s i1 = some t1 ∧ frame t1 i2 = some t2 ∧ frame t2 i3 = some t3 ∧
      frame t3 i4 = some t4 ∧
      t1.mCurrFrameResource = some k1 ∧ t2.mCurrFrameResource = some k2 ∧
      t3.mCurrFrameResource = some k3 ∧
      k1 ≠ k2 ∧ k2 ≠ k3 ∧ k1 ≠ k3 ∧ k1 < 3 ∧ k2 < 3 ∧ k3 < 3 ∧
      (∀ j, j < 3 → j = k1 ∨ j = k2 ∨ j = k3) ∧
      (∀ (p : Nat) (e : RenderItem α), s.mAllRitems[p]? = some e →
        e.NumFramesDirty = gNumFrameResources →
        t1.mAllRitems[p]? = some { e with NumFramesDirty := 2 } ∧
        t2.mAllRitems[p]? = some { e with NumFramesDirty := 1 } ∧
        t3.mAllRitems[p]? = some { e with NumFramesDirty := 0 } ∧
        t4.mAllRitems[p]? = some { e with NumFramesDirty := 0 } ∧
        objectCopyCount t1 k1 e.ObjCBIndex = objectCopyCount s k1 e.ObjCBIndex + 1 ∧
        (∀ j, j ≠ k1 → objectCopyCount t1 j e.ObjCBIndex = objectCopyCount s j e.ObjCBIndex) ∧
        objectCopyCount t2 k2 e.ObjCBIndex = objectCopyCount t1 k2 e.ObjCBIndex + 1 ∧
        (∀ j, j ≠ k2 → objectCopyCount t2 j e.ObjCBIndex = objectCopyCount t1 j e.ObjCBIndex) ∧
        objectCopyCount t3 k3 e.ObjCBIndex = objectCopyCount t2 k3 e.ObjCBIndex + 1 ∧
        (∀ j, j ≠ k3 → objectCopyCount t3 j e.ObjCBIndex = objectCopyCount t2 j e.ObjCBIndex) ∧
        (∀ j, j < 3 →
          objectCopyCount t3 j e.ObjCBIndex = objectCopyCount s j e.ObjCBIndex + 1) ∧
        (∀ j, objectCopyCount t4 j e.ObjCBIndex = objectCopyCount t3 j e.ObjCBIndex)) ∧
      (∀ (p : Nat) (key : String) (mat : Material α), s.mMaterials[p]? = some (key, mat) →
        key ≠ "water" → mat.NumFramesDirty = gNumFrameResources →
        t1.mMaterials[p]? = some (key, { mat with NumFramesDirty := 2 }) ∧
        t2.mMaterials[p]? = some (key, { mat with NumFramesDirty := 1 }) ∧
        t3.mMaterials[p]? = some (key, { mat with NumFramesDirty := 0 }) ∧
        t4.mMaterials[p]? = some (key, { mat with NumFramesDirty := 0 }) ∧
        materialCopyCount t1 k1 mat.MatCBIndex = materialCopyCount s k1 mat.MatCBIndex + 1 ∧
        (∀ j, j ≠ k1 →
          materialCopyCount t1 j mat.MatCBIndex = materialCopyCount s j mat.MatCBIndex) ∧
        materialCopyCount t2 k2 mat.MatCBIndex = materialCopyCount t1 k2 mat.MatCBIndex + 1 ∧
        (∀ j, j ≠ k2 →
          materialCopyCount t2 j mat.MatCBIndex = materialCopyCount t1 j mat.MatCBIndex) ∧
        materialCopyCount t3 k3 mat.MatCBIndex = materialCopyCount t2 k3 mat.MatCBIndex + 1 ∧
        (∀ j, j ≠ k3 →
          materialCopyCount t3 j mat.MatCBIndex = materialCopyCount t2 j mat.MatCBIndex) ∧
        (∀ j, j < 3 →
          materialCopyCount t3 j mat.MatCBIndex = materialCopyCount s j mat.MatCBIndex + 1) ∧
        (∀ j, materialCopyCount t4 j mat.MatCBIndex
          = materialCopyCount t3 j mat.MatCBIndex)) := by
  obtain ⟨t1, t2, t3, k1, k2, k3, hf1, hf2, hf3, hr3, hd3, hc1, hc2, hc3, hk12, hk23, hk13,
    hl1, hl2, hl3, hI, hM, hO1, hO2, hO3⟩ := three_frames s h hd i1 i2 i3
  obtain ⟨t4, hf4, _, _, _, _, hI4, hM4, hO4⟩ := frame_dirty_step t3 i4 hr3 hd3
  refine ⟨t1, t2, t3, t4, k1, k2, k3, hf1, hf2, hf3, hf4, hc1, hc2, hc3, hk12, hk23, hk13,
    hl1, hl2, hl3, fun j hj => by omega, ?_, ?_⟩
  · intro p e hp hN
    obtain ⟨a1, a2, a3, c1, c2, c3, hall⟩ := hI p e hp hN
    obtain ⟨a4, _, b4⟩ := hI4 p _ a3
    have hclean : ¬ ({ e with NumFramesDirty := 0 } : RenderItem α).NumFramesDirty > 0 :=
      show ¬ ((0 : Int) > 0) by decide
    rw [tickItem_of_clean _ hclean] at a4
    refine ⟨a1, a2, a3, a4, c1, fun j hj => (hO1 j hj _).1, c2, fun j hj => (hO2 j hj _).1,
      c3, fun j hj => (hO3 j hj _).1, fun j hj => (hall j hj).2, ?_⟩
    intro j
    by_cases hj : j = t4.mCurrFrameResourceIndex.toNat
    · rw [hj]
      exact (b4 hclean).2
    · exact (hO4 j hj e.ObjCBIndex).2.1
  · intro p key mat hp hne hN
    obtain ⟨a1, a2, a3, c1, c2, c3, hall⟩ := hM p key mat hp hne hN
    obtain ⟨a4, _, b4⟩ := hM4 p _ a3 hne
    have hclean : ¬ ({ mat with NumFramesDirty := 0 } : Material α).NumFramesDirty > 0 :=
      show ¬ ((0 : Int) > 0) by decide
    rw [tickMaterial_of_clean _ hclean] at a4
    refine ⟨a1, a2, a3, a4, c1, fun j hj => (hO1 j hj _).2, c2, fun j hj => (hO2 j hj _).2,
      c3, fun j hj => (hO3 j hj _).2, fun j hj => (hall j hj).2, ?_⟩
    intro j
    by_cases hj : j = t4.mCurrFrameResourceIndex.toNat
    · rw [hj]
      exact (b4 hclean).2
    · exact (hO4 j hj mat.MatCBIndex).2.2.2

/-- Witness for C7: four stalled frames from the concrete start state. -/
theorem uploads_hit_distinct_slots_witness :
    Runnable demoApp ∧ IndicesDistinct demoApp ∧
    ∃ t1 t2 t3 t4 k1 k2 k3,
      frame demoApp stalledInput = some t1 ∧ frame t1 stalledInput = some t2 ∧ frame t2 stalledInput = some t3 ∧
      frame t3 stalledInput = some t4 ∧
      t1.mCurrFrameResource = some k1 ∧ t2.mCurrFrameResource = some k2 ∧
      t3.mCurrFrameResource = some k3 ∧
      k1 ≠ k2 ∧ k2 ≠ k3 ∧ k1 ≠ k3 ∧ k1 < 3 ∧ k2 < 3 ∧ k3 < 3 ∧
      (∀ j, j < 3 → j = k1 ∨ j = k2 ∨ j = k3) ∧
      (∀ (p : Nat) (e : RenderItem ℚ), demoApp.mAllRitems[p]? = some e →
        e.NumFramesDirty = gNumFrameResources →
        t1.mAllRitems[p]? = some { e with NumFramesDirty := 2 } ∧
        t2.mAllRitems[p]? = some { e with NumFramesDirty := 1 } ∧
        t3.mAllRitems[p]? = some { e with NumFramesDirty := 0 } ∧
        t4.mAllRitems[p]? = some { e with NumFramesDirty := 0 } ∧
        objectCopyCount t1 k1 e.ObjCBIndex = objectCopyCount demoApp k1 e.ObjCBIndex + 1 ∧
        (∀ j, j ≠ k1 → objectCopyCount t1 j e.ObjCBIndex = objectCopyCount demoApp j e.ObjCBIndex) ∧
        objectCopyCount t2 k2 e.ObjCBIndex = objectCopyCount t1 k2 e.ObjCBIndex + 1 ∧
        (∀ j, j ≠ k2 → objectCopyCount t2 j e.ObjCBIndex = objectCopyCount t1 j e.ObjCBIndex) ∧
        objectCopyCount t3 k3 e.ObjCBIndex = objectCopyCount t2 k3 e.ObjCBIndex + 1 ∧
        (∀ j, j ≠ k3 → objectCopyCount t3 j e.ObjCBIndex = objectCopyCount t2 j e.ObjCBIndex) ∧
        (∀ j, j < 3 →
          objectCopyCount t3 j e.ObjCBIndex = objectCopyCount demoApp j e.ObjCBIndex + 1) ∧
        (∀ j, objectCopyCount t4 j e.ObjCBIndex = objectCopyCount t3 j e.ObjCBIndex)) ∧
      (∀ (p : Nat) (key : String) (mat : Material ℚ), demoApp.mMaterials[p]? = some (key, mat) →
        key ≠ "water" → mat.NumFramesDirty = gNumFrameResources →
        t1.mMaterials[p]? = some (key, { mat with NumFramesDirty := 2 }) ∧
        t2.mMaterials[p]? = some (key, { mat with NumFramesDirty := 1 }) ∧
        t3.mMaterials[p]? = some (key, { mat with NumFramesDirty := 0 }) ∧
        t4.mMaterials[p]? = some (key, { mat with NumFramesDirty := 0 }) ∧
        materialCopyCount t1 k1 mat.MatCBIndex = materialCopyCount demoApp k1 mat.MatCBIndex + 1 ∧
        (∀ j, j ≠ k1 →
          materialCopyCount t1 j mat.MatCBIndex = materialCopyCount demoApp j mat.MatCBIndex) ∧
        materialCopyCount t2 k2 mat.MatCBIndex = materialCopyCount t1 k2 mat.MatCBIndex + 1 ∧
        (∀ j, j ≠ k2 →
          materialCopyCount t2 j mat.MatCBIndex = materialCopyCount t1 j mat.MatCBIndex) ∧
        materialCopyCount t3 k3 mat.MatCBIndex = materialCopyCount t2 k3 mat.MatCBIndex + 1 ∧
        (∀ j, j ≠ k3 →
          materialCopyCount t3 j mat.MatCBIndex = materialCopyCount t2 j mat.MatCBIndex) ∧
        (∀ j, j < 3 →
          materialCopyCount t3 j mat.MatCBIndex = materialCopyCount demoApp j mat.MatCBIndex + 1) ∧
        (∀ j, materialCopyCount t4 j mat.MatCBIndex
          = materialCopyCount t3 j mat.MatCBIndex)) :=
  ⟨by decide, by decide,
    uploads_hit_distinct_slots demoApp (by decide) (by decide) stalledInput stalledInput
      stalledInput stalledInput⟩

/-! ## Scene assembly -/

theorem filterMap_toRenderItem_index {α : Type} (env : SceneEnv α) (heap : List ItemRecord) :
    ∀ (ps : List Nat),
      (ps.filterMap (fun p => (heap[p]?).map (ItemRecord.toRenderItem env p))).map
          (fun e => e.ObjCBIndex)
        = (ps.filterMap (fun p => heap[p]?)).map (fun r => r.ObjCBIndex) := by
  intro ps
  induction ps with
  | nil => rfl
  | cons p rest ih =>
    cases hp : heap[p]? with
    | none => simp only [List.filterMap_cons, hp, Option.map_none', ih]
    | some r =>
      simp only [List.filterMap_cons, hp, Option.map_some', List.map_cons, ih,
        ItemRecord.toRenderItem]

set_option maxRecDepth 100000 in
theorem BuildRenderItems_indices :
    BuildRenderItems.owned.map (fun r => r.ObjCBIndex)
      = (List.range 13).map (46 + ·) ++ (List.range 30).map (76 + ·) ++ List.range 46
        ++ (List.range 17).map (59 + ·) ++ (List.range 30).map (106 + ·) := by
  decide

set_option maxRecDepth 100000 in
/-- C10: `BuildRenderItems` leaves 136 owned render items, none through a dangling
pointer; their `ObjCBIndex` values are pairwise distinct and are exactly the numbers
below the item count, which is the element count `BuildFrameResources` gives the
object constant buffer of every slot; so every index is inside that buffer and, as
render item values, no two items share a constant index. -/
theorem render_item_indices_unique :
    BuildRenderItems.mAllRitems.length = 136 ∧
    BuildRenderItems.owned.length = BuildRenderItems.mAllRitems.length ∧
    (BuildRenderItems.owned.map (fun r => r.ObjCBIndex)).Nodup ∧
    (∀ i, i ∈ BuildRenderItems.owned.map (fun r => r.ObjCBIndex)
      ↔ i < BuildRenderItems.mAllRitems.length) ∧
    (∀ (α : Type) (materialCount : Nat),
      (BuildFrameResources α BuildRenderItems.mAllRitems.length materialCount).length = 3 ∧
      ∀ fr ∈ BuildFrameResources α BuildRenderItems.mAllRitems.length materialCount,
        fr.ObjectCB.elementCount = BuildRenderItems.mAllRitems.length ∧
        ∀ r ∈ BuildRenderItems.owned, r.ObjCBIndex < fr.ObjectCB.elementCount) ∧
    (∀ (α : Type) (env : SceneEnv α),
      (BuildRenderItems.renderItems env).length = 136 ∧
      ((BuildRenderItems.renderItems env).map (fun e => e.ObjCBIndex)).Nodup ∧
      ∀ e ∈ BuildRenderItems.renderItems env, e.ObjCBIndex < 136) := by
  have hlen : BuildRenderItems.mAllRitems.length = 136 := by decide
  have hown : BuildRenderItems.owned.length = 136 := by
    have := congrArg List.length BuildRenderItems_indices
    simpa using this
  have hnd : (BuildRenderItems.owned.map (fun r => r.ObjCBIndex)).Nodup := by
    rw [BuildRenderItems_indices]; decide
  have hmem : ∀ i, i ∈ BuildRenderItems.owned.map (fun r => r.ObjCBIndex) ↔ i < 136 := by
    intro i
    rw [BuildRenderItems_indices]
    simp only [List.mem_append, List.mem_map, List.mem_range]
    constructor
    · rintro ((((⟨a, ha, rfl⟩ | ⟨a, ha, rfl⟩) | h) | ⟨a, ha, rfl⟩) | ⟨a, ha, rfl⟩) <;> omega
    · intro hi
      by_cases h1 : i < 46
      · exact Or.inl (Or.inl (Or.inr h1))
      · by_cases h2 : i < 59
        · exact Or.inl (Or.inl (Or.inl (Or.inl ⟨i - 46, by omega, by omega⟩)))
        · by_cases h3 : i < 76
          · exact Or.inl (Or.inr ⟨i - 59, by omega, by omega⟩)
          · by_cases h4 : i < 106
            · exact Or.inl (Or.inl (Or.inl (Or.inr ⟨i - 76, by omega, by omega⟩)))
            · exact Or.inr ⟨i - 106, by omega, by omega⟩
  refine ⟨hlen, by rw [hown, hlen], hnd, fun i => by rw [hlen]; exact hmem i, ?_, ?_⟩
  · intro α materialCount
    refine ⟨by simp [BuildFrameResources, gNumFrameResources], ?_⟩
    intro fr hfr
    simp only [BuildFrameResources, List.mem_map] at hfr
    obtain ⟨_, _, rfl⟩ := hfr
    have hcount : (FrameResource.create α BuildRenderItems.mAllRitems.length
        materialCount).ObjectCB.elementCount = BuildRenderItems.mAllRitems.length := by
      simp [FrameResource.create, UploadBuffer.create, UploadBuffer.elementCount]
    refine ⟨hcount, ?_⟩
    intro r hr
    rw [hcount, hlen]
    exact (hmem r.ObjCBIndex).mp (List.mem_map_of_mem (fun r : ItemRecord => r.ObjCBIndex) hr)
  · intro α env
    have hidx : (BuildRenderItems.renderItems env).map (fun e => e.ObjCBIndex)
        = BuildRenderItems.owned.map (fun r => r.ObjCBIndex) :=
      filterMap_toRenderItem_index env BuildRenderItems.heap BuildRenderItems.mAllRitems
    refine ⟨?_, by rw [hidx]; exact hnd, ?_⟩
    · have := congrArg List.length hidx
      simp only [List.length_map] at this
      rw [this, hown]
    · intro e he
      have : e.ObjCBIndex ∈ (BuildRenderItems.renderItems env).map (fun e => e.ObjCBIndex) :=
        List.mem_map_of_mem (fun e : RenderItem α => e.ObjCBIndex) he
      rw [hidx] at this
      exact (hmem _).mp this

/-! ## Draw layers -/

set_option maxRecDepth 100000 in
/-- C11: after `BuildRenderItems` no render item is owned twice and every owning
pointer is valid; every owned item is on exactly one draw layer and exactly once
there; every layer entry is an owned item; the Transparent layer holds only the
water item (the one `mWavesRitem` points to), the Opaque layer only the land grid,
the tree-sprite layer only the tree-sprite item, and every other owned item is on the
AlphaTested layer, which holds 133 items. -/
theorem draw_layers_partition :
    BuildRenderItems.mAllRitems.Nodup ∧
    (∀ p ∈ BuildRenderItems.mAllRitems, p < BuildRenderItems.heap.length) ∧
    (∀ p ∈ BuildRenderItems.mAllRitems,
      (BuildRenderItems.mRitemLayer RenderLayer.Opaque).count p
        + (BuildRenderItems.mRitemLayer RenderLayer.Transparent).count p
        + (BuildRenderItems.mRitemLayer RenderLayer.AlphaTested).count p
        + (BuildRenderItems.mRitemLayer RenderLayer.AlphaTestedTreeSprites).count p = 1) ∧
    (∀ (l : RenderLayer), ∀ p ∈ BuildRenderItems.mRitemLayer l,
      p ∈ BuildRenderItems.mAllRitems) ∧
    (BuildRenderItems.mWavesRitem = some 0 ∧
      BuildRenderItems.mRitemLayer RenderLayer.Transparent = [0] ∧
      BuildRenderItems.heap[0]? = some
        { ObjCBIndex := 0, Mat := "water", Geo := "waterGeo", Submesh := "grid",
          PrimitiveType := PrimitiveTopology.TRIANGLELIST }) ∧
    (BuildRenderItems.mRitemLayer RenderLayer.Opaque = [1] ∧
      BuildRenderItems.heap[1]? = some
        { ObjCBIndex := 1, Mat := "grass", Geo := "landGeo", Submesh := "grid",
          PrimitiveType := PrimitiveTopology.TRIANGLELIST }) ∧
    (BuildRenderItems.mRitemLayer RenderLayer.AlphaTestedTreeSprites = [135] ∧
      BuildRenderItems.heap[135]? = some
        { ObjCBIndex := 135, Mat := "treeSprites", Geo := "treeSpritesGeo",
          Submesh := "points", PrimitiveType := PrimitiveTopology.POINTLIST }) ∧
    (∀ p ∈ BuildRenderItems.mAllRitems, p ≠ 0 → p ≠ 1 → p ≠ 135 →
      p ∈ BuildRenderItems.mRitemLayer RenderLayer.AlphaTested) ∧
    (BuildRenderItems.mRitemLayer RenderLayer.AlphaTested).length = 133 := by
  refine ⟨by decide, by decide, by decide, ?_, by decide, by decide, by decide, by decide,
    by decide⟩
  intro l
  cases l <;> decide

/-! ## Mouse input -/

/-- C18: the three mouse handlers leave the camera as it is, whatever the button
state and the mouse position: moving the mouse with the left button held changes
neither `mTheta` nor `mPhi`, and with the right button held it does not change
`mRadius`. -/
theorem mouse_handlers_leave_camera {α : Type} (c : Camera α) (btnState : Nat) (x y : Int) :
    OnMouseMove c btnState x y = c ∧
    (OnMouseMove c MK_LBUTTON x y).mTheta = c.mTheta ∧
    (OnMouseMove c MK_LBUTTON x y).mPhi = c.mPhi ∧
    (OnMouseMove c MK_RBUTTON x y).mRadius = c.mRadius ∧
    (OnMouseMove (OnMouseDown c btnState x y) btnState (x + 10) (y + 10)).mTheta = c.mTheta ∧
    (OnMouseMove (OnMouseDown c btnState x y) btnState (x + 10) (y + 10)).mPhi = c.mPhi ∧
    (OnMouseMove (OnMouseDown c btnState x y) btnState (x + 10) (y + 10)).mRadius
      = c.mRadius ∧
    OnMouseUp c btnState x y = c :=
  ⟨rfl, rfl, rfl, rfl, rfl, rfl, rfl, rfl⟩

/-! ## `DrawRenderItems` -/

theorem drawLoop_ndebug {α : Type} (env : DrawEnv) (mats : List (String × Material α))
    (slot : Nat) :
    ∀ (ritems : List (RenderItem α)) (cmdList : List DrawCommand),
      MaterialsResolved mats ritems →
      drawLoop true env mats slot cmdList ritems
        = some (cmdList ++ ritems.flatMap (drawnCommands env mats slot)) := by
  intro ritems
  induction ritems with
  | nil => intro cmdList _; simp [drawLoop]
  | cons ri rest ih =>
    intro cmdList hm
    have hrest : MaterialsResolved mats rest :=
      fun r hr => hm r (List.mem_cons_of_mem _ hr)
    have hri := hm ri (List.mem_cons_self _ _)
    cases hg : ri.Geo with
    | none =>
      simp only [drawLoop, hg, cAssert, if_true, ih cmdList hrest, List.flatMap_cons,
        drawnCommands, List.nil_append]
    | some geo =>
      rw [hg] at hri
      cases hmat : ri.Mat with
      | none => rw [hmat] at hri; simp at hri
      | some key =>
        cases hl : mats.lookup key with
        | none => rw [hmat] at hri; simp [hl] at hri
        | some mat =>
          simp only [drawLoop, hg, hmat, hl, ih _ hrest, List.flatMap_cons, drawnCommands,
            List.append_assoc]

theorem drawLoop_debug_none {α : Type} (env : DrawEnv) (mats : List (String × Material α))
    (slot : Nat) :
    ∀ (ritems : List (RenderItem α)) (cmdList : List DrawCommand),
      (∃ ri ∈ ritems, ri.Geo = none) →
      drawLoop false env mats slot cmdList ritems = none := by
  intro ritems
  induction ritems with
  | nil => intro cmdList h; obtain ⟨ri, hri, _⟩ := h; cases hri
  | cons ri rest ih =>
    intro cmdList h
    cases hg : ri.Geo with
    | none => simp [drawLoop, hg, cAssert]
    | some geo =>
      have hrest : ∃ r ∈ rest, r.Geo = none := by
        obtain ⟨r, hr, hrg⟩ := h
        rcases List.mem_cons.mp hr with rfl | hr
        · rw [hg] at hrg; cases hrg
        · exact ⟨r, hr, hrg⟩
      cases hmat : ri.Mat with
      | none => simp [drawLoop, hg, hmat]
      | some key =>
        cases hl : mats.lookup key with
        | none => simp [drawLoop, hg, hmat, hl]
        | some mat => simp only [drawLoop, hg, hmat, hl, ih _ hrest]

theorem drawLoop_debug_all_meshes {α : Type} (env : DrawEnv)
    (mats : List (String × Material α)) (slot : Nat) :
    ∀ (ritems : List (RenderItem α)) (cmdList : List DrawCommand),
      (∀ ri ∈ ritems, ri.Geo ≠ none) →
      drawLoop false env mats slot cmdList ritems
        = drawLoop true env mats slot cmdList ritems := by
  intro ritems
  induction ritems with
  | nil => intro cmdList _; rfl
  | cons ri rest ih =>
    intro cmdList h
    have hrest : ∀ r ∈ rest, r.Geo ≠ none := fun r hr => h r (List.mem_cons_of_mem _ hr)
    cases hg : ri.Geo with
    | none => exact absurd hg (h ri (List.mem_cons_self _ _))
    | some geo =>
      cases hmat : ri.Mat with
      | none => simp [drawLoop, hg, hmat]
      | some key =>
        cases hl : mats.lookup key with
        | none => simp [drawLoop, hg, hmat, hl]
        | some mat => simp only [drawLoop, hg, hmat, hl, ih _ hrest]

/-- C12 as stated fails: in a build with assertions enabled the same list that is
drawn with `NDEBUG` (the item without mesh skipped) ends the process at the item
without mesh, although the current frame resource is set and every item with a mesh
has its material. -/
theorem draw_assert_ends_process :
    demoSelected.mCurrFrameResource = some 1 ∧
    MaterialsResolved demoSelected.mMaterials demoDrawList ∧
    DrawRenderItems false demoDrawEnv demoSelected [] demoDrawList = none ∧
    DrawRenderItems true demoDrawEnv demoSelected [] demoDrawList
      = some (itemCommands demoDrawEnv 1 "boxGeo" (demoMaterial "grass" 0) (demoMeshItem 0)
          ++ itemCommands demoDrawEnv 1 "boxGeo" (demoMaterial "grass" 0) (demoMeshItem 1)) :=
  ⟨rfl, by decide, rfl, rfl⟩

/-- C12, amended: with assertions compiled out (`NDEBUG`), the current frame resource
set, and every item that has a mesh having a material of the material map,
`DrawRenderItems` appends to the command list the commands of the items that have a
mesh, in list order, and nothing for an item whose mesh is missing.  With assertions
enabled the call ends the process as soon as the list holds an item without mesh, and
does the same as with `NDEBUG` when there is none. -/
theorem draw_skips_missing_mesh {α : Type} (env : DrawEnv) (s : App α) (k : Nat)
    (cmdList : List DrawCommand) (ritems : List (RenderItem α))
    (hc : s.mCurrFrameResource = some k) (hk : k < s.mFrameResources.length)
    (hm : MaterialsResolved s.mMaterials ritems) :
    DrawRenderItems true env s cmdList ritems
      = some (cmdList ++ ritems.flatMap (drawnCommands env s.mMaterials k)) ∧
    (∀ ri ∈ ritems, ri.Geo = none → drawnCommands env s.mMaterials k ri = []) ∧
    (∀ ri ∈ ritems, ∀ geo, ri.Geo = some geo →
      ∃ key mat, ri.Mat = some key ∧ s.mMaterials.lookup key = some mat ∧
        drawnCommands env s.mMaterials k ri = itemCommands env k geo mat ri) ∧
    ((∃ ri ∈ ritems, ri.Geo = none) → DrawRenderItems false env s cmdList ritems = none) ∧
    ((∀ ri ∈ ritems, ri.Geo ≠ none) →
      DrawRenderItems false env s cmdList ritems
        = DrawRenderItems true env s cmdList ritems) := by
  have hfr := List.getElem?_eq_getElem hk
  refine ⟨?_, ?_, ?_, ?_, ?_⟩
  · simp only [DrawRenderItems, hc, hfr]
    exact drawLoop_ndebug env s.mMaterials k ritems cmdList hm
  · intro ri _ hg
    simp only [drawnCommands, hg]
  · intro ri hri geo hg
    have h := hm ri hri (by rw [hg]; rfl)
    cases hmat : ri.Mat with
    | none => rw [hmat] at h; simp at h
    | some key =>
      cases hl : s.mMaterials.lookup key with
      | none => rw [hmat] at h; simp [hl] at h
      | some mat => exact ⟨key, mat, rfl, hl, by simp only [drawnCommands, hg, hmat, hl]⟩
  · intro h
    simp only [DrawRenderItems, hc, hfr]
    exact drawLoop_debug_none env s.mMaterials k ritems cmdList h
  · intro h
    simp only [DrawRenderItems, hc, hfr]
    exact drawLoop_debug_all_meshes env s.mMaterials k ritems cmdList h

/-- Witness for the amended C12: the concrete list with an item without mesh. -/
theorem draw_skips_missing_mesh_witness :
    demoSelected.mCurrFrameResource = some 1 ∧ 1 < demoSelected.mFrameResources.length ∧
    MaterialsResolved demoSelected.mMaterials demoDrawList ∧
    DrawRenderItems true demoDrawEnv demoSelected [] demoDrawList
      = some ([] ++ demoDrawList.flatMap (drawnCommands demoDrawEnv demoSelected.mMaterials 1)) ∧
    ((∃ ri ∈ demoDrawList, ri.Geo = none) →
      DrawRenderItems false demoDrawEnv demoSelected [] demoDrawList = none) :=
  have h := draw_skips_missing_mesh demoDrawEnv demoSelected 1 [] demoDrawList rfl
    (by decide) (by decide)
  ⟨rfl, by decide, by decide, h.1, h.2.2.2.1⟩

/-! ## Waves: the update -/

theorem maybeDisturb_fired {W α : Type} [LinearOrderedField α] (api : WavesApi W α)
    (ws : WaveState W α) (inp : WaveInput α) (h : inp.TotalTime - ws.t_base ≥ 1 / 4) :
    maybeDisturb api ws inp =
      { ws with
        t_base := ws.t_base + 1 / 4
        mWaves := api.Disturb ws.mWaves (inp.RandRow 4 (api.RowCount ws.mWaves - 5))
          (inp.RandCol 4 (api.ColumnCount ws.mWaves - 5)) (inp.RandF (1 / 5) (1 / 2))
        disturbLog := ws.disturbLog ++
          [{ i := inp.RandRow 4 (api.RowCount ws.mWaves - 5),
             j := inp.RandCol 4 (api.ColumnCount ws.mWaves - 5),
             magnitude := inp.RandF (1 / 5) (1 / 2), totalTime := inp.TotalTime }] } := by
  unfold maybeDisturb
  rw [if_pos h]

theorem maybeDisturb_idle {W α : Type} [LinearOrderedField α] (api : WavesApi W α)
    (ws : WaveState W α) (inp : WaveInput α) (h : ¬ inp.TotalTime - ws.t_base ≥ 1 / 4) :
    maybeDisturb api ws inp = ws := by
  unfold maybeDisturb
  rw [if_neg h]

theorem maybeDisturb_buffers {W α : Type} [LinearOrderedField α] (api : WavesApi W α)
    (ws : WaveState W α) (inp : WaveInput α) :
    (maybeDisturb api ws inp).WavesVB = ws.WavesVB ∧
    (maybeDisturb api ws inp).VertexBufferGPU = ws.VertexBufferGPU := by
  by_cases h : inp.TotalTime - ws.t_base ≥ 1 / 4
  · rw [maybeDisturb_fired api ws inp h]; exact ⟨rfl, rfl⟩
  · rw [maybeDisturb_idle api ws inp h]; exact ⟨rfl, rfl⟩

theorem waveVertexLoop_eq_uploadLoop {W α : Type} [LinearOrderedField α]
    (api : WavesApi W α) (w : W) :
    ∀ (is : List Nat) (vb : UploadBuffer (Vertex α)),
      waveVertexLoop api w vb is
        = (uploadLoop (fun _ => (1 : Int)) id (fun i : Nat => waveVertex api w (i : Int)) id
            vb is).map Prod.fst := by
  intro is
  induction is with
  | nil => intro vb; rfl
  | cons i rest ih =>
    intro vb
    have h1 : ((1 : Int) > 0) := by decide
    cases hc : vb.CopyData i (waveVertex api w (i : Int)) with
    | none => simp only [waveVertexLoop, uploadLoop, hc, h1, if_true, id, Option.map]
    | some vb1 =>
      have := ih vb1
      cases hr : uploadLoop (fun _ => (1 : Int)) id (fun i : Nat => waveVertex api w (i : Int))
          id vb1 rest with
      | none =>
        rw [hr] at this
        simp only [waveVertexLoop, uploadLoop, hc, h1, if_true, id, this, hr, Option.map]
      | some r =>
        rw [hr] at this
        simp only [waveVertexLoop, uploadLoop, hc, h1, if_true, id, this, hr, Option.map]

theorem waveVertexLoop_spec {W α : Type} [LinearOrderedField α] (api : WavesApi W α) (w : W)
    (n : Nat) (vb : UploadBuffer (Vertex α)) (hn : n ≤ vb.elementCount) :
    ∃ vb1, waveVertexLoop api w vb (List.range n) = some vb1 ∧
      vb1.mElements.length = vb.mElements.length ∧
      vb1.copyLog = (List.range n).reverse ++ vb.copyLog ∧
      (∀ i, i < n → vb1.entry i = some (waveVertex api w (i : Int))) ∧
      (∀ i, n ≤ i → vb1.mElements[i]? = vb.mElements[i]?) := by
  have hb : ∀ e ∈ List.range n, (fun _ : Nat => (1 : Int)) e > 0 →
      id e < vb.mElements.length := by
    intro e he _
    exact lt_of_lt_of_le (List.mem_range.mp he) hn
  obtain ⟨⟨vb1, is1⟩, hr⟩ := uploadLoop_some (fun _ => (1 : Int)) id
    (fun i : Nat => waveVertex api w (i : Int)) id (List.range n) vb hb
  obtain ⟨_, hlen, hlog, hkeep⟩ := uploadLoop_spec _ _ _ _ _ _ _ _ hr
  have hent := uploadLoop_entry _ _ _ _ _ _ _ _
    (by rw [List.map_id]; exact List.nodup_range n) hr
  refine ⟨vb1, ?_, hlen, ?_, ?_, ?_⟩
  · rw [waveVertexLoop_eq_uploadLoop, hr]; rfl
  · rw [hlog]
    have hf : (List.range n).filter (fun _ => decide ((1 : Int) > 0)) = List.range n := by
      apply List.filter_eq_self.mpr
      intro _ _; decide
    rw [hf, List.map_id]
  · intro i hi
    exact hent i (List.mem_range.mpr hi) (by decide)
  · intro i hi
    apply hkeep
    intro e he _ hei
    have := List.mem_range.mp he
    simp only [id] at hei
    omega

/-- What one call of `UpdateWaves` does when the selected slot exists and its wave
vertex buffer is large enough. -/
theorem UpdateWaves_spec {W α : Type} [LinearOrderedField α] (api : WavesApi W α) (k : Nat)
    (ws : WaveState W α) (inp : WaveInput α) (vb : UploadBuffer (Vertex α))
    (hk : ws.WavesVB[k]? = some vb)
    (hlen : (api.VertexCount (api.Update (maybeDisturb api ws inp).mWaves
      inp.DeltaTime)).toNat ≤ vb.elementCount) :
    ∃ vb1,
      UpdateWaves api (some k) ws inp =
        some { maybeDisturb api ws inp with
          mWaves := api.Update (maybeDisturb api ws inp).mWaves inp.DeltaTime
          WavesVB := ws.WavesVB.set k vb1
          VertexBufferGPU := some k } ∧
      waveVertexLoop api (api.Update (maybeDisturb api ws inp).mWaves inp.DeltaTime) vb
        (List.range (api.VertexCount (api.Update (maybeDisturb api ws inp).mWaves
          inp.DeltaTime)).toNat) = some vb1 ∧
      vb1.mElements.length = vb.mElements.length := by
  obtain ⟨vb1, hloop, hl, _⟩ := waveVertexLoop_spec api
    (api.Update (maybeDisturb api ws inp).mWaves inp.DeltaTime) _ vb hlen
  refine ⟨vb1, ?_, hloop, hl⟩
  have hb := (maybeDisturb_buffers api ws inp).1
  simp only [UpdateWaves, hb, hk, hloop]

/-- One call of `UpdateWaves` on a state whose buffers are large enough, for a wave
field of fixed size: the call returns, the schedule is the one of the first block,
and the dimensions and the buffer sizes are kept. -/
theorem UpdateWaves_step {W α : Type} [LinearOrderedField α] (api : WavesApi W α)
    (hfix : api.FixedSize) (k : Nat) (ws : WaveState W α) (inp : WaveInput α)
    (hok : WaveBuffersOk api ws) (hk : k < ws.WavesVB.length) :
    ∃ ws1, UpdateWaves api (some k) ws inp = some ws1 ∧
      ws1.t_base = (maybeDisturb api ws inp).t_base ∧
      ws1.disturbLog = (maybeDisturb api ws inp).disturbLog ∧
      ws1.mWaves = api.Update (maybeDisturb api ws inp).mWaves inp.DeltaTime ∧
      WaveBuffersOk api ws1 ∧
      ws1.WavesVB.length = ws.WavesVB.length ∧
      api.RowCount ws1.mWaves = api.RowCount ws.mWaves ∧
      api.ColumnCount ws1.mWaves = api.ColumnCount ws.mWaves := by
  have hsize : api.RowCount (api.Update (maybeDisturb api ws inp).mWaves inp.DeltaTime)
        = api.RowCount ws.mWaves ∧
      api.ColumnCount (api.Update (maybeDisturb api ws inp).mWaves inp.DeltaTime)
        = api.ColumnCount ws.mWaves ∧
      api.VertexCount (api.Update (maybeDisturb api ws inp).mWaves inp.DeltaTime)
        = api.VertexCount ws.mWaves := by
    obtain ⟨h1, h2, h3⟩ := hfix.2 (maybeDisturb api ws inp).mWaves inp.DeltaTime
    rw [h1, h2, h3]
    by_cases h : inp.TotalTime - ws.t_base ≥ 1 / 4
    · rw [maybeDisturb_fired api ws inp h]
      exact hfix.1 _ _ _ _
    · rw [maybeDisturb_idle api ws inp h]
      exact ⟨rfl, rfl, rfl⟩
  have hget := List.getElem?_eq_getElem hk
  have hmem : ws.WavesVB[k] ∈ ws.WavesVB := List.getElem_mem hk
  have hlen : (api.VertexCount (api.Update (maybeDisturb api ws inp).mWaves
      inp.DeltaTime)).toNat ≤ (ws.WavesVB[k]).elementCount := by
    rw [hsize.2.2]; exact hok _ hmem
  obtain ⟨vb1, hu, _, hl⟩ := UpdateWaves_spec api k ws inp _ hget hlen
  refine ⟨_, hu, rfl, rfl, rfl, ?_, ?_, hsize.1, hsize.2.1⟩
  · intro vb hvb
    show (api.VertexCount (api.Update (maybeDisturb api ws inp).mWaves inp.DeltaTime)).toNat
      ≤ vb.elementCount
    rw [hsize.2.2]
    have hvb1 : vb ∈ ws.WavesVB.set k vb1 := hvb
    rcases List.mem_or_eq_of_mem_set hvb1 with h | h
    · exact hok _ h
    · rw [h]
      show _ ≤ vb1.mElements.length
      rw [hl]
      exact hok _ hmem
  · show (ws.WavesVB.set k vb1).length = _
    rw [List.length_set]

/-- Induction over a run of `UpdateWaves`: the run returns, and a property of the
state that every call preserves holds at its end. -/
theorem runWaves_invariant {W α : Type} [LinearOrderedField α] (api : WavesApi W α)
    (hfix : api.FixedSize) (Inv : WaveState W α → Prop) (n : Nat) :
    ∀ (frames : List (Nat × WaveInput α)) (ws : WaveState W α),
      (∀ f ∈ frames, ∀ (st st1 : WaveState W α), Inv st →
        st1.t_base = (maybeDisturb api st f.2).t_base →
        st1.disturbLog = (maybeDisturb api st f.2).disturbLog →
        api.RowCount st1.mWaves = api.RowCount st.mWaves →
        api.ColumnCount st1.mWaves = api.ColumnCount st.mWaves → Inv st1) →
      WaveBuffersOk api ws → ws.WavesVB.length = n → (∀ f ∈ frames, f.1 < n) → Inv ws →
      ∃ ws1, runWaves api ws frames = some ws1 ∧ Inv ws1 := by
  intro frames
  induction frames with
  | nil => intro ws _ _ _ _ hinv; exact ⟨ws, rfl, hinv⟩
  | cons f rest ih =>
    intro ws hstep hok hn hcurr hinv
    have hk : f.1 < ws.WavesVB.length := by
      rw [hn]; exact hcurr f (List.mem_cons_self _ _)
    obtain ⟨ws1, hu, ht, hl, _, hok1, hlen1, hr, hc⟩ :=
      UpdateWaves_step api hfix f.1 ws f.2 hok hk
    have hinv1 : Inv ws1 := hstep f (List.mem_cons_self _ _) ws ws1 hinv ht hl hr hc
    obtain ⟨ws2, hrun, hinv2⟩ := ih ws1
      (fun g hg => hstep g (List.mem_cons_of_mem _ hg)) hok1 (by rw [hlen1, hn])
      (fun g hg => hcurr g (List.mem_cons_of_mem _ hg)) hinv1
    refine ⟨ws2, ?_, hinv2⟩
    simp only [runWaves, hu, hrun]

/-- C15: when the selected slot exists and its wave vertex buffer holds at least
`VertexCount` elements, `UpdateWaves` returns; the wave field it leaves is one `Update`
of the field after the disturbance of the frame (or of the old field when none was
due); entry `i` of the slot's wave vertex buffer, for every `i` below `VertexCount`,
holds the position, the normal and the derived texture coordinate of that updated
field; the entries from `VertexCount` on, and the buffers of the other slots, are as
before; exactly the indices `0 .. VertexCount-1` were copied, in increasing order. -/
theorem waves_exported_after_update {W α : Type} [LinearOrderedField α] (api : WavesApi W α)
    (k : Nat) (ws : WaveState W α) (inp : WaveInput α) (vb : UploadBuffer (Vertex α))
    (hk : ws.WavesVB[k]? = some vb)
    (hlen : (api.VertexCount (api.Update (maybeDisturb api ws inp).mWaves
      inp.DeltaTime)).toNat ≤ vb.elementCount) :
    ∃ ws1 vb1, UpdateWaves api (some k) ws inp = some ws1 ∧
      (inp.TotalTime - ws.t_base ≥ 1 / 4 →
        ws1.mWaves = api.Update
          (api.Disturb ws.mWaves (inp.RandRow 4 (api.RowCount ws.mWaves - 5))
            (inp.RandCol 4 (api.ColumnCount ws.mWaves - 5)) (inp.RandF (1 / 5) (1 / 2)))
          inp.DeltaTime) ∧
      (¬ inp.TotalTime - ws.t_base ≥ 1 / 4 →
        ws1.mWaves = api.Update ws.mWaves inp.DeltaTime) ∧
      ws1.WavesVB[k]? = some vb1 ∧
      (∀ i : Nat, i < (api.VertexCount ws1.mWaves).toNat →
        vb1.entry i = some
          { Pos := api.Position ws1.mWaves i, Normal := api.Normal ws1.mWaves i,
            TexC := (1 / 2 + (api.Position ws1.mWaves i).1 / api.Width ws1.mWaves,
                     1 / 2 - (api.Position ws1.mWaves i).2.2 / api.Depth ws1.mWaves) }) ∧
      (∀ i : Nat, (api.VertexCount ws1.mWaves).toNat ≤ i →
        vb1.mElements[i]? = vb.mElements[i]?) ∧
      vb1.copyLog = (List.range (api.VertexCount ws1.mWaves).toNat).reverse ++ vb.copyLog ∧
      (∀ p : Nat, p ≠ k → ws1.WavesVB[p]? = ws.WavesVB[p]?) ∧
      ws1.WavesVB.length = ws.WavesVB.length ∧
      ws1.VertexBufferGPU = some k := by
  obtain ⟨vb1, hu, hloop, _⟩ := UpdateWaves_spec api k ws inp vb hk hlen
  obtain ⟨vb2, hloop2, _, hlog, hent, hkeep⟩ := waveVertexLoop_spec api
    (api.Update (maybeDisturb api ws inp).mWaves inp.DeltaTime) _ vb hlen
  rw [hloop] at hloop2
  cases hloop2
  have hklt : k < ws.WavesVB.length := by
    rcases Nat.lt_or_ge k ws.WavesVB.length with h | h
    · exact h
    · rw [List.getElem?_eq_none h] at hk; cases hk
  refine ⟨_, vb1, hu, ?_, ?_, ?_, hent, hkeep, hlog, ?_, ?_, rfl⟩
  · intro h
    show api.Update (maybeDisturb api ws inp).mWaves inp.DeltaTime = _
    rw [maybeDisturb_fired api ws inp h]
  · intro h
    show api.Update (maybeDisturb api ws inp).mWaves inp.DeltaTime = _
    rw [maybeDisturb_idle api ws inp h]
  · show (ws.WavesVB.set k vb1)[k]? = some vb1
    rw [List.getElem?_set_self hklt]
  · intro p hp
    show (ws.WavesVB.set k vb1)[p]? = _
    rw [List.getElem?_set_ne (Ne.symm hp)]
  · show (ws.WavesVB.set k vb1).length = _
    rw [List.length_set]

theorem demoWaveInput_due :
    (demoWaveInput (3 / 10) (1 / 100)).TotalTime - (demoWaveState 9 9).t_base ≥ 1 / 4 := by
  show (3 / 10 : ℚ) - 0 ≥ 1 / 4
  norm_num

theorem raise_eq_some {α : Type} [Add α] {g g1 : WaveGrid α} {a b : Int} {v : α}
    (h : g.raise a b v = some g1) :
    (0 ≤ a ∧ a < g.mNumRows ∧ 0 ≤ b ∧ b < g.mNumCols
      ∧ (a * g.mNumCols + b).toNat < g.heights.length) ∧
    g1 = { g with heights := addAt g.heights (a * g.mNumCols + b).toNat v } := by
  unfold WaveGrid.raise at h
  split at h
  · cases h; exact ⟨by assumption, rfl⟩
  · cases h

theorem Disturb_eq_some {α : Type} [Add α] {blend : α → α} {g g5 : WaveGrid α} {i j : Int}
    {r : α} (h : g.Disturb blend i j r = some g5) :
    ∃ g1 g2 g3 g4, g.raise i j r = some g1 ∧ g1.raise i (j + 1) (blend r) = some g2 ∧
      g2.raise i (j - 1) (blend r) = some g3 ∧ g3.raise (i + 1) j (blend r) = some g4 ∧
      g4.raise (i - 1) j (blend r) = some g5 := by
  unfold WaveGrid.Disturb at h
  cases h1 : g.raise i j r with
  | none => simp only [h1] at h; cases h
  | some g1 =>
    simp only [h1] at h
    cases h2 : g1.raise i (j + 1) (blend r) with
    | none => simp only [h2] at h; cases h
    | some g2 =>
      simp only [h2] at h
      cases h3 : g2.raise i (j - 1) (blend r) with
      | none => simp only [h3] at h; cases h
      | some g3 =>
        simp only [h3] at h
        cases h4 : g3.raise (i + 1) j (blend r) with
        | none => simp only [h4] at h; cases h
        | some g4 =>
          simp only [h4] at h
          exact ⟨g1, g2, g3, g4, rfl, h2, h3, h4, h⟩

theorem Disturb_dims {α : Type} [Add α] {blend : α → α} {g g5 : WaveGrid α} {i j : Int}
    {r : α} (h : g.Disturb blend i j r = some g5) :
    g5.mNumRows = g.mNumRows ∧ g5.mNumCols = g.mNumCols ∧
      g5.mSpatialStep = g.mSpatialStep := by
  obtain ⟨g1, g2, g3, g4, h1, h2, h3, h4, h5⟩ := Disturb_eq_some h
  rw [(raise_eq_some h5).2, (raise_eq_some h4).2, (raise_eq_some h3).2, (raise_eq_some h2).2,
    (raise_eq_some h1).2]
  exact ⟨rfl, rfl, rfl⟩

theorem gridWavesApi_fixedSize : gridWavesApi.FixedSize := by
  have hdist : ∀ (g : WaveGrid ℚ) (i j : Int) (r : ℚ),
      ((g.Disturb (fun x => x / 2) i j r).getD g).mNumRows = g.mNumRows ∧
      ((g.Disturb (fun x => x / 2) i j r).getD g).mNumCols = g.mNumCols := by
    intro g i j r
    cases h : g.Disturb (fun x => x / 2) i j r with
    | none => exact ⟨rfl, rfl⟩
    | some g5 => exact ⟨(Disturb_dims h).1, (Disturb_dims h).2.1⟩
  constructor
  · intro w i j r
    have h := hdist w i j r
    simp only [gridWavesApi, h.1, h.2, and_self]
  · intro w dt
    exact ⟨rfl, rfl, rfl⟩

theorem demoWaveState_buffersOk (rows cols : Nat) :
    WaveBuffersOk gridWavesApi (demoWaveState rows cols) := by
  intro vb hvb
  have h : vb = UploadBuffer.create (Vertex ℚ) (rows * cols) := List.eq_of_mem_replicate hvb
  rw [h]
  show (((rows : Int) * (cols : Int)).toNat) ≤ (List.replicate (rows * cols) none).length
  rw [List.length_replicate]
  have : ((rows : Int) * (cols : Int)) = ((rows * cols : Nat) : Int) := by push_cast; rfl
  rw [this, Int.toNat_ofNat]

/-- Witness for C15: the first frame on a flat 9 × 9 grid, slot 1, a disturbance due. -/
theorem waves_exported_after_update_witness :
    (demoWaveState 9 9).WavesVB[1]? = some (UploadBuffer.create (Vertex ℚ) 81) ∧
    (∃ ws1 vb1, UpdateWaves gridWavesApi (some 1) (demoWaveState 9 9)
        (demoWaveInput (3 / 10) (1 / 100)) = some ws1 ∧
      ws1.WavesVB[1]? = some vb1 ∧
      vb1.copyLog = (List.range (gridWavesApi.VertexCount ws1.mWaves).toNat).reverse ++ [] ∧
      ws1.VertexBufferGPU = some 1) :=
  have hlen : (gridWavesApi.VertexCount (gridWavesApi.Update
      (maybeDisturb gridWavesApi (demoWaveState 9 9) (demoWaveInput (3 / 10) (1 / 100))).mWaves
      (demoWaveInput (3 / 10) (1 / 100)).DeltaTime)).toNat
      ≤ (UploadBuffer.create (Vertex ℚ) 81).elementCount := by
    rw [(gridWavesApi_fixedSize.2 _ _).2.2, maybeDisturb_fired _ _ _ demoWaveInput_due]
    rw [(gridWavesApi_fixedSize.1 _ _ _ _).2.2]
    decide
  have h := waves_exported_after_update gridWavesApi 1 (demoWaveState 9 9)
    (demoWaveInput (3 / 10) (1 / 100)) (UploadBuffer.create (Vertex ℚ) 81) rfl hlen
  ⟨rfl, by
    obtain ⟨ws1, vb1, h1, _, _, h2, _, _, h3, _, _, h4⟩ := h
    exact ⟨ws1, vb1, h1, h2, h3, h4⟩⟩

/-! ## Waves: the disturbance -/

/-- C13: for a wave field of fixed size with at least 9 rows and 9 columns, whose
wave vertex buffers are large enough, and random draws that lie in the requested
range: over any run of `UpdateWaves` every disturbance issued during the run has
`4 ≤ i ≤ rows-5` and `4 ≤ j ≤ cols-5`, so the cell and its four neighbours are inside
the grid; and in a single frame the field is either left alone or disturbed at such a
cell. -/
theorem disturb_cell_interior {W α : Type} [LinearOrderedField α] (api : WavesApi W α)
    (hfix : api.FixedSize) (ws : WaveState W α) (frames : List (Nat × WaveInput α))
    (hrows : 9 ≤ api.RowCount ws.mWaves) (hcols : 9 ≤ api.ColumnCount ws.mWaves)
    (hok : WaveBuffersOk api ws) (hcurr : ∀ f ∈ frames, f.1 < ws.WavesVB.length)
    (hrand : ∀ f ∈ frames, RandOk f.2.RandRow ∧ RandOk f.2.RandCol) :
    (∃ ws1 issued, runWaves api ws frames = some ws1 ∧
      ws1.disturbLog = ws.disturbLog ++ issued ∧
      api.RowCount ws1.mWaves = api.RowCount ws.mWaves ∧
      api.ColumnCount ws1.mWaves = api.ColumnCount ws.mWaves ∧
      ∀ c ∈ issued,
        (4 ≤ c.i ∧ c.i ≤ api.RowCount ws.mWaves - 5) ∧
        (4 ≤ c.j ∧ c.j ≤ api.ColumnCount ws.mWaves - 5) ∧
        (0 ≤ c.i - 1 ∧ c.i + 1 < api.RowCount ws.mWaves) ∧
        (0 ≤ c.j - 1 ∧ c.j + 1 < api.ColumnCount ws.mWaves)) ∧
    (∀ inp : WaveInput α, RandOk inp.RandRow → RandOk inp.RandCol →
      (maybeDisturb api ws inp).mWaves = ws.mWaves ∨
      ∃ (i j : Int) (r : α),
        (maybeDisturb api ws inp).mWaves = api.Disturb ws.mWaves i j r ∧
        (4 ≤ i ∧ i ≤ api.RowCount ws.mWaves - 5) ∧
        (4 ≤ j ∧ j ≤ api.ColumnCount ws.mWaves - 5) ∧
        (0 ≤ i - 1 ∧ i + 1 < api.RowCount ws.mWaves) ∧
        (0 ≤ j - 1 ∧ j + 1 < api.ColumnCount ws.mWaves)) := by
  constructor
  · suffices hs : ∃ ws1, runWaves api ws frames = some ws1 ∧ ∃ issued,
        ws1.disturbLog = ws.disturbLog ++ issued ∧
        api.RowCount ws1.mWaves = api.RowCount ws.mWaves ∧
        api.ColumnCount ws1.mWaves = api.ColumnCount ws.mWaves ∧
        ∀ c ∈ issued,
          (4 ≤ c.i ∧ c.i ≤ api.RowCount ws.mWaves - 5) ∧
          (4 ≤ c.j ∧ c.j ≤ api.ColumnCount ws.mWaves - 5) ∧
          (0 ≤ c.i - 1 ∧ c.i + 1 < api.RowCount ws.mWaves) ∧
          (0 ≤ c.j - 1 ∧ c.j + 1 < api.ColumnCount ws.mWaves) by
      obtain ⟨ws1, hrun, issued, hlog, hr, hc, hin⟩ := hs
      exact ⟨ws1, issued, hrun, hlog, hr, hc, hin⟩
    refine runWaves_invariant api hfix
      (fun st => ∃ issued, st.disturbLog = ws.disturbLog ++ issued ∧
        api.RowCount st.mWaves = api.RowCount ws.mWaves ∧
        api.ColumnCount st.mWaves = api.ColumnCount ws.mWaves ∧
        ∀ c ∈ issued,
          (4 ≤ c.i ∧ c.i ≤ api.RowCount ws.mWaves - 5) ∧
          (4 ≤ c.j ∧ c.j ≤ api.ColumnCount ws.mWaves - 5) ∧
          (0 ≤ c.i - 1 ∧ c.i + 1 < api.RowCount ws.mWaves) ∧
          (0 ≤ c.j - 1 ∧ c.j + 1 < api.ColumnCount ws.mWaves))
      ws.WavesVB.length frames ws ?_ hok rfl hcurr ⟨[], by simp, rfl, rfl, by simp⟩
    · intro f hf st st1 hinv _ hl hr1 hc1
      obtain ⟨issued, hlog, hr, hc, hin⟩ := hinv
      by_cases hd : f.2.TotalTime - st.t_base ≥ 1 / 4
      · rw [maybeDisturb_fired api st f.2 hd] at hl
        refine ⟨issued ++ [DisturbCall.mk (f.2.RandRow 4 (api.RowCount st.mWaves - 5))
          (f.2.RandCol 4 (api.ColumnCount st.mWaves - 5))
          (f.2.RandF (1 / 5) (1 / 2)) f.2.TotalTime], ?_,
          by rw [hr1, hr], by rw [hc1, hc], ?_⟩
        · rw [hl]
          show st.disturbLog ++ _ = _
          rw [hlog, List.append_assoc]
        · intro c hcm
          rcases List.mem_append.mp hcm with h | h
          · exact hin c h
          · rw [List.mem_singleton] at h
            rw [h]
            have h1 := (hrand f hf).1 4 (api.RowCount st.mWaves - 5) (by rw [hr]; omega)
            have h2 := (hrand f hf).2 4 (api.ColumnCount st.mWaves - 5) (by rw [hc]; omega)
            rw [hr] at h1
            rw [hc] at h2
            rw [hr, hc]
            show (4 ≤ f.2.RandRow 4 (api.RowCount ws.mWaves - 5) ∧ _) ∧ _
            refine ⟨h1, h2, ⟨?_, ?_⟩, ⟨?_, ?_⟩⟩
            · have := h1.1; dsimp only; omega
            · have := h1.2; dsimp only; omega
            · have := h2.1; dsimp only; omega
            · have := h2.2; dsimp only; omega
      · rw [maybeDisturb_idle api st f.2 hd] at hl
        exact ⟨issued, by rw [hl, hlog], by rw [hr1, hr], by rw [hc1, hc], hin⟩
  · intro inp hri hrj
    by_cases hd : inp.TotalTime - ws.t_base ≥ 1 / 4
    · right
      rw [maybeDisturb_fired api ws inp hd]
      have h1 := hri 4 (api.RowCount ws.mWaves - 5) (by omega)
      have h2 := hrj 4 (api.ColumnCount ws.mWaves - 5) (by omega)
      refine ⟨_, _, _, rfl, h1, h2, ⟨?_, ?_⟩, ⟨?_, ?_⟩⟩
      · have := h1.1; omega
      · have := h1.2; omega
      · have := h2.1; omega
      · have := h2.2; omega
    · left
      rw [maybeDisturb_idle api ws inp hd]

theorem demoWaveInput_randOk (t dt : ℚ) :
    RandOk (demoWaveInput t dt).RandRow ∧ RandOk (demoWaveInput t dt).RandCol :=
  ⟨fun _ _ h => ⟨le_refl _, h⟩, fun _ _ h => ⟨h, le_refl _⟩⟩

/-- Witness for C13: four frames on a flat 9 × 9 grid. -/
theorem disturb_cell_interior_witness :
    (9 : Int) ≤ gridWavesApi.RowCount (demoWaveState 9 9).mWaves ∧
    (9 : Int) ≤ gridWavesApi.ColumnCount (demoWaveState 9 9).mWaves ∧
    ∃ ws1 issued,
      runWaves gridWavesApi (demoWaveState 9 9)
        [(1, demoWaveInput (1 / 10) (1 / 100)), (2, demoWaveInput (3 / 10) (1 / 100)),
         (0, demoWaveInput (4 / 10) (1 / 100)), (1, demoWaveInput (6 / 10) (1 / 100))]
        = some ws1 ∧
      ws1.disturbLog = (demoWaveState 9 9).disturbLog ++ issued ∧
      ∀ c ∈ issued, (4 ≤ c.i ∧ c.i ≤ 9 - 5) ∧ (4 ≤ c.j ∧ c.j ≤ 9 - 5) :=
  have h := (disturb_cell_interior gridWavesApi gridWavesApi_fixedSize (demoWaveState 9 9)
    [(1, demoWaveInput (1 / 10) (1 / 100)), (2, demoWaveInput (3 / 10) (1 / 100)),
     (0, demoWaveInput (4 / 10) (1 / 100)), (1, demoWaveInput (6 / 10) (1 / 100))]
    (by decide) (by decide) (demoWaveState_buffersOk 9 9)
    (by intro f hf; simp only [List.mem_cons, List.mem_singleton, List.not_mem_nil,
          or_false] at hf
        rcases hf with rfl | rfl | rfl | rfl <;> decide)
    (by intro f hf; simp only [List.mem_cons, List.mem_singleton, List.not_mem_nil,
          or_false] at hf
        rcases hf with rfl | rfl | rfl | rfl <;> exact demoWaveInput_randOk _ _)).1
  ⟨by decide, by decide, by
    obtain ⟨ws1, issued, h1, h2, _, _, h3⟩ := h
    exact ⟨ws1, issued, h1, h2, fun c hc => ⟨(h3 c hc).1, (h3 c hc).2.1⟩⟩⟩

/-- C16: for a wave vertex whose position has `x` in `[-Width/2, Width/2]` and `z` in
`[-Depth/2, Depth/2]`, `Width` and `Depth` positive, the exported texture coordinate
`(u, v)` lies in the unit square; `u` is affine in `x` and `v` affine in `z`;
`x = -Width/2` gives `u = 0`, `x = Width/2` gives `u = 1`, `z = Depth/2` gives `v = 0`
and `z = -Depth/2` gives `v = 1`. -/
theorem wave_texcoord_unit_square {W α : Type} [LinearOrderedField α] (api : WavesApi W α)
    (w : W) (i : Int) (hw : 0 < api.Width w) (hd : 0 < api.Depth w)
    (hx : -(api.Width w / 2) ≤ (api.Position w i).1 ∧ (api.Position w i).1 ≤ api.Width w / 2)
    (hz : -(api.Depth w / 2) ≤ (api.Position w i).2.2 ∧
      (api.Position w i).2.2 ≤ api.Depth w / 2) :
    (0 ≤ (waveVertex api w i).TexC.1 ∧ (waveVertex api w i).TexC.1 ≤ 1) ∧
    (0 ≤ (waveVertex api w i).TexC.2 ∧ (waveVertex api w i).TexC.2 ≤ 1) ∧
    (waveVertex api w i).TexC.1 = 1 / api.Width w * (api.Position w i).1 + 1 / 2 ∧
    (waveVertex api w i).TexC.2 = -(1 / api.Depth w) * (api.Position w i).2.2 + 1 / 2 ∧
    ((api.Position w i).1 = -(api.Width w / 2) → (waveVertex api w i).TexC.1 = 0) ∧
    ((api.Position w i).1 = api.Width w / 2 → (waveVertex api w i).TexC.1 = 1) ∧
    ((api.Position w i).2.2 = api.Depth w / 2 → (waveVertex api w i).TexC.2 = 0) ∧
    ((api.Position w i).2.2 = -(api.Depth w / 2) → (waveVertex api w i).TexC.2 = 1) := by
  have hw0 : api.Width w ≠ 0 := ne_of_gt hw
  have hd0 : api.Depth w ≠ 0 := ne_of_gt hd
  have hu : (waveVertex api w i).TexC.1 = 1 / 2 + (api.Position w i).1 / api.Width w := rfl
  have hv : (waveVertex api w i).TexC.2 = 1 / 2 - (api.Position w i).2.2 / api.Depth w := rfl
  have hxl : -(1 / 2) ≤ (api.Position w i).1 / api.Width w := by
    rw [le_div_iff₀ hw]; linarith [hx.1]
  have hxu : (api.Position w i).1 / api.Width w ≤ 1 / 2 := by
    rw [div_le_iff₀ hw]; linarith [hx.2]
  have hzl : -(1 / 2) ≤ (api.Position w i).2.2 / api.Depth w := by
    rw [le_div_iff₀ hd]; linarith [hz.1]
  have hzu : (api.Position w i).2.2 / api.Depth w ≤ 1 / 2 := by
    rw [div_le_iff₀ hd]; linarith [hz.2]
  refine ⟨⟨?_, ?_⟩, ⟨?_, ?_⟩, ?_, ?_, ?_, ?_, ?_, ?_⟩
  · rw [hu]; linarith
  · rw [hu]; linarith
  · rw [hv]; linarith
  · rw [hv]; linarith
  · rw [hu]; field_simp; ring
  · rw [hv]; field_simp; ring
  · intro h; rw [hu, h]; field_simp
  · intro h; rw [hu, h]; field_simp; ring
  · intro h; rw [hv, h]; field_simp
  · intro h; rw [hv, h]; field_simp; ring

/-- Witness for C16: the first vertex of a flat 9 × 9 grid, at `x = -4`, `z = 4`. -/
theorem wave_texcoord_unit_square_witness :
    (0 : ℚ) < gridWavesApi.Width (flatGrid 9 9) ∧ (0 : ℚ) < gridWavesApi.Depth (flatGrid 9 9) ∧
    (gridWavesApi.Position (flatGrid 9 9) 0).1 = -(gridWavesApi.Width (flatGrid 9 9) / 2) ∧
    (waveVertex gridWavesApi (flatGrid 9 9) 0).TexC.1 = 0 ∧
    (0 ≤ (waveVertex gridWavesApi (flatGrid 9 9) 0).TexC.2 ∧
      (waveVertex gridWavesApi (flatGrid 9 9) 0).TexC.2 ≤ 1) :=
  have hw : (0 : ℚ) < gridWavesApi.Width (flatGrid 9 9) := by
    simp [gridWavesApi, flatGrid]
  have hd : (0 : ℚ) < gridWavesApi.Depth (flatGrid 9 9) := by
    simp [gridWavesApi, flatGrid]
  have hx0 : (gridWavesApi.Position (flatGrid 9 9) 0).1
      = -(gridWavesApi.Width (flatGrid 9 9) / 2) := by
    simp [gridWavesApi, flatGrid]
  have hz0 : (gridWavesApi.Position (flatGrid 9 9) 0).2.2
      = gridWavesApi.Depth (flatGrid 9 9) / 2 := by
    simp [gridWavesApi, flatGrid]
  have h := wave_texcoord_unit_square gridWavesApi (flatGrid 9 9) 0 hw hd
    ⟨le_of_eq hx0.symm, by rw [hx0]; linarith⟩ ⟨by rw [hz0]; linarith, le_of_eq hz0⟩
  ⟨hw, hd, hx0, h.2.2.2.2.1 hx0, h.2.1⟩

/-! ## The wave grid: locality of a disturbance -/

theorem length_addAt {α : Type} [Add α] (v : α) :
    ∀ (l : List α) (k : Nat), (addAt l k v).length = l.length := by
  intro l
  induction l with
  | nil => intro k; rfl
  | cons x xs ih =>
    intro k
    cases k with
    | zero => rfl
    | succ k => simp only [addAt, List.length_cons, ih k]

theorem getElem?_addAt {α : Type} [Add α] (v : α) :
    ∀ (l : List α) (k p : Nat),
      (addAt l k v)[p]? = if p = k then (l[p]?).map (fun h => h + v) else l[p]? := by
  intro l
  induction l with
  | nil => intro k p; simp [addAt]
  | cons x xs ih =>
    intro k p
    cases k with
    | zero =>
      cases p with
      | zero => simp [addAt]
      | succ p => simp [addAt]
    | succ k =>
      cases p with
      | zero => simp [addAt]
      | succ p => simp [addAt, ih k p]

theorem cell_index_lt (rows cols : Nat) (a b : Int) (ha : 0 ≤ a ∧ a < rows)
    (hb : 0 ≤ b ∧ b < cols) : (a * cols + b).toNat < rows * cols := by
  have h1 : a * cols + b < (rows : Int) * cols := by
    have : (a + 1) * (cols : Int) ≤ (rows : Int) * cols :=
      Int.mul_le_mul_of_nonneg_right (by omega) (by omega)
    have h2 : (a + 1) * (cols : Int) = a * cols + cols := by ring
    omega
  have h0 : 0 ≤ a * (cols : Int) := Int.mul_nonneg ha.1 (by omega)
  have h3 : ((rows * cols : Nat) : Int) = (rows : Int) * cols := by push_cast; rfl
  omega

theorem cell_index_inj (cols : Nat) (a b c d : Int) (ha : 0 ≤ a) (hc : 0 ≤ c)
    (hb : 0 ≤ b ∧ b < cols) (hd : 0 ≤ d ∧ d < cols)
    (h : (a * cols + b).toNat = (c * cols + d).toNat) : a = c ∧ b = d := by
  have h0 : 0 ≤ a * (cols : Int) := Int.mul_nonneg ha (by omega)
  have h1 : 0 ≤ c * (cols : Int) := Int.mul_nonneg hc (by omega)
  have he : a * cols + b = c * cols + d := by omega
  have hac : a = c := by
    rcases lt_trichotomy a c with hlt | heq | hgt
    · have : (a + 1) * (cols : Int) ≤ c * cols :=
        Int.mul_le_mul_of_nonneg_right (by omega) (by omega)
      have h2 : (a + 1) * (cols : Int) = a * cols + cols := by ring
      omega
    · exact heq
    · have : (c + 1) * (cols : Int) ≤ a * cols :=
        Int.mul_le_mul_of_nonneg_right (by omega) (by omega)
      have h2 : (c + 1) * (cols : Int) = c * cols + cols := by ring
      omega
  refine ⟨hac, ?_⟩
  rw [hac] at he
  omega

/-- Raising one cell of a well-formed grid: the call returns, the grid keeps its
shape, and only the height of that cell changes. -/
theorem raise_spec {α : Type} [Add α] (g : WaveGrid α) (c d : Int) (v : α)
    (hwf : g.WellFormed) (hc : 0 ≤ c ∧ c < g.mNumRows) (hd : 0 ≤ d ∧ d < g.mNumCols) :
    ∃ g1, g.raise c d v = some g1 ∧ g1.mNumRows = g.mNumRows ∧ g1.mNumCols = g.mNumCols ∧
      g1.WellFormed ∧
      ∀ a b : Int, 0 ≤ a ∧ a < g.mNumRows → 0 ≤ b ∧ b < g.mNumCols →
        g1.height a b =
          if a = c ∧ b = d then (g.height a b).map (fun h => h + v) else g.height a b := by
  have hidx : (c * g.mNumCols + d).toNat < g.heights.length := by
    rw [hwf]; exact cell_index_lt _ _ _ _ hc hd
  refine ⟨{ g with heights := addAt g.heights (c * g.mNumCols + d).toNat v }, ?_, rfl, rfl,
    ?_, ?_⟩
  · unfold WaveGrid.raise
    rw [if_pos ⟨hc.1, hc.2, hd.1, hd.2, hidx⟩]
  · show (addAt g.heights _ v).length = _
    rw [length_addAt]; exact hwf
  · intro a b ha hb
    have hin : 0 ≤ a ∧ a < g.mNumRows ∧ 0 ≤ b ∧ b < g.mNumCols := ⟨ha.1, ha.2, hb.1, hb.2⟩
    show (if 0 ≤ a ∧ a < (g.mNumRows : Int) ∧ 0 ≤ b ∧ b < (g.mNumCols : Int) then
        (addAt g.heights (c * g.mNumCols + d).toNat v)[(a * g.mNumCols + b).toNat]?
      else none) = _
    rw [if_pos hin, getElem?_addAt]
    unfold WaveGrid.height
    rw [if_pos hin]
    by_cases hcell : a = c ∧ b = d
    · rw [if_pos hcell, if_pos (by rw [hcell.1, hcell.2])]
    · rw [if_neg hcell, if_neg]
      intro he
      exact hcell (cell_index_inj _ _ _ _ _ ha.1 hc.1 hb hd he)

/-- C17: on a well-formed wave grid, `Disturb` at a cell `(i, j)` whose four neighbours
are inside the grid (as the cells `UpdateWaves` picks are) returns a grid of the same
shape in which every cell other than `(i, j)` and its four neighbours has the height
it had before; the target cell is raised by the magnitude and each neighbour by the
blended share. -/
theorem disturb_locality {α : Type} [Add α] (blend : α → α) (g : WaveGrid α) (i j : Int)
    (magnitude : α) (hwf : g.WellFormed) (hi : 1 ≤ i ∧ i + 1 < g.mNumRows)
    (hj : 1 ≤ j ∧ j + 1 < g.mNumCols) :
    ∃ g1, g.Disturb blend i j magnitude = some g1 ∧
      g1.mNumRows = g.mNumRows ∧ g1.mNumCols = g.mNumCols ∧ g1.WellFormed ∧
      (∀ a b : Int, 0 ≤ a ∧ a < g.mNumRows → 0 ≤ b ∧ b < g.mNumCols →
        ¬ (a = i ∧ b = j) → ¬ (a = i ∧ b = j + 1) → ¬ (a = i ∧ b = j - 1) →
        ¬ (a = i + 1 ∧ b = j) → ¬ (a = i - 1 ∧ b = j) →
        ∃ h, g.height a b = some h ∧ g1.height a b = some h) ∧
      g1.height i j = (g.height i j).map (fun h => h + magnitude) ∧
      g1.height i (j + 1) = (g.height i (j + 1)).map (fun h => h + blend magnitude) ∧
      g1.height i (j - 1) = (g.height i (j - 1)).map (fun h => h + blend magnitude) ∧
      g1.height (i + 1) j = (g.height (i + 1) j).map (fun h => h + blend magnitude) ∧
      g1.height (i - 1) j = (g.height (i - 1) j).map (fun h => h + blend magnitude) := by
  obtain ⟨g1, e1, r1, c1, w1, k1⟩ := raise_spec g i j magnitude hwf
    ⟨by omega, by omega⟩ ⟨by omega, by omega⟩
  obtain ⟨g2, e2, r2, c2, w2, k2⟩ := raise_spec g1 i (j + 1) (blend magnitude) w1
    ⟨by omega, by omega⟩ ⟨by omega, by omega⟩
  obtain ⟨g3, e3, r3, c3, w3, k3⟩ := raise_spec g2 i (j - 1) (blend magnitude) w2
    ⟨by omega, by omega⟩ ⟨by omega, by omega⟩
  obtain ⟨g4, e4, r4, c4, w4, k4⟩ := raise_spec g3 (i + 1) j (blend magnitude) w3
    ⟨by omega, by omega⟩ ⟨by omega, by omega⟩
  obtain ⟨g5, e5, r5, c5, w5, k5⟩ := raise_spec g4 (i - 1) j (blend magnitude) w4
    ⟨by omega, by omega⟩ ⟨by omega, by omega⟩
  have key : ∀ a b : Int, 0 ≤ a ∧ a < g.mNumRows → 0 ≤ b ∧ b < g.mNumCols →
      g5.height a b =
        if a = i - 1 ∧ b = j then (g.height a b).map (fun h => h + blend magnitude)
        else if a = i + 1 ∧ b = j then (g.height a b).map (fun h => h + blend magnitude)
        else if a = i ∧ b = j - 1 then (g.height a b).map (fun h => h + blend magnitude)
        else if a = i ∧ b = j + 1 then (g.height a b).map (fun h => h + blend magnitude)
        else if a = i ∧ b = j then (g.height a b).map (fun h => h + magnitude)
        else g.height a b := by
    intro a b ha hb
    rw [k5 a b (by omega) (by omega), k4 a b (by omega) (by omega),
      k3 a b (by omega) (by omega), k2 a b (by omega) (by omega), k1 a b ha hb]
    by_cases h5 : a = i - 1 ∧ b = j
    · rw [if_pos h5, if_pos h5, if_neg (by omega), if_neg (by omega), if_neg (by omega),
        if_neg (by omega)]
    · rw [if_neg h5, if_neg h5]
      by_cases h4 : a = i + 1 ∧ b = j
      · rw [if_pos h4, if_pos h4, if_neg (by omega), if_neg (by omega), if_neg (by omega)]
      · rw [if_neg h4, if_neg h4]
        by_cases h3 : a = i ∧ b = j - 1
        · rw [if_pos h3, if_pos h3, if_neg (by omega), if_neg (by omega)]
        · rw [if_neg h3, if_neg h3]
          by_cases h2 : a = i ∧ b = j + 1
          · rw [if_pos h2, if_pos h2, if_neg (by omega)]
          · rw [if_neg h2, if_neg h2]
  refine ⟨g5, ?_, by omega, by omega, w5, ?_, ?_, ?_, ?_, ?_, ?_⟩
  · unfold WaveGrid.Disturb
    simp only [e1, e2, e3, e4, e5]
  · intro a b ha hb n1 n2 n3 n4 n5
    rw [key a b ha hb, if_neg n5, if_neg n4, if_neg n3, if_neg n2, if_neg n1]
    have hlt : (a * g.mNumCols + b).toNat < g.heights.length := by
      rw [hwf]; exact cell_index_lt _ _ _ _ ha hb
    refine ⟨g.heights[(a * g.mNumCols + b).toNat], ?_, ?_⟩ <;>
    · unfold WaveGrid.height
      rw [if_pos ⟨ha.1, ha.2, hb.1, hb.2⟩, List.getElem?_eq_getElem hlt]
  · rw [key i j (by omega) (by omega), if_neg (by omega), if_neg (by omega),
      if_neg (by omega), if_neg (by omega), if_pos ⟨rfl, rfl⟩]
  · rw [key i (j + 1) (by omega) (by omega), if_neg (by omega), if_neg (by omega),
      if_neg (by omega), if_pos ⟨rfl, rfl⟩]
  · rw [key i (j - 1) (by omega) (by omega), if_neg (by omega), if_neg (by omega),
      if_pos ⟨rfl, rfl⟩]
  · rw [key (i + 1) j (by omega) (by omega), if_neg (by omega), if_pos ⟨rfl, rfl⟩]
  · rw [key (i - 1) j (by omega) (by omega), if_pos ⟨rfl, rfl⟩]

theorem flatGrid_wellFormed (rows cols : Nat) : (flatGrid rows cols).WellFormed := by
  show (List.replicate (rows * cols) (0 : ℚ)).length = rows * cols
  rw [List.length_replicate]

/-- Witness for C17: the centre cell of a flat 9 × 9 grid. -/
theorem disturb_locality_witness :
    (flatGrid 9 9).WellFormed ∧
    ((1 : Int) ≤ 4 ∧ (4 : Int) + 1 < (flatGrid 9 9).mNumRows) ∧
    ((1 : Int) ≤ 4 ∧ (4 : Int) + 1 < (flatGrid 9 9).mNumCols) ∧
    ∃ g1, (flatGrid 9 9).Disturb (fun x => x / 2) 4 4 (1 / 5) = some g1 ∧
      (∃ h, (flatGrid 9 9).height 0 0 = some h ∧ g1.height 0 0 = some h) ∧
      g1.height 4 4 = ((flatGrid 9 9).height 4 4).map (fun h => h + 1 / 5) :=
  have h := disturb_locality (fun x : ℚ => x / 2) (flatGrid 9 9) 4 4 (1 / 5)
    (flatGrid_wellFormed 9 9) (by decide) (by decide)
  ⟨flatGrid_wellFormed 9 9, by decide, by decide, by
    obtain ⟨g1, h1, _, _, _, h2, h3, _⟩ := h
    exact ⟨g1, h1, h2 0 0 (by decide) (by decide) (by decide) (by decide) (by decide)
      (by decide) (by decide), h3⟩⟩

/-! ## `BuildWavesGeometry`: the index buffer -/

theorem vecSet_zeros (pre : List Nat) (r : Nat) (k x : Int) (hk : k = pre.length) :
    vecSet (pre ++ List.replicate (r + 1) 0) k x
      = some ((pre ++ [toUInt16 x]) ++ List.replicate r 0) := by
  unfold vecSet
  have hlen : (pre ++ List.replicate (r + 1) 0).length = pre.length + (r + 1) := by
    rw [List.length_append, List.length_replicate]
  rw [if_pos (by rw [hlen, hk]; constructor <;> omega)]
  subst hk
  rw [Int.toNat_ofNat, List.set_append, if_neg (lt_irrefl _), Nat.sub_self,
    List.replicate_succ, List.set_cons_zero, List.append_assoc]
  rfl

theorem writeQuad_zeros (n : Int) (pre : List Nat) (r : Nat) (k i j : Int)
    (hk : k = pre.length) :
    writeQuad n (pre ++ List.replicate (r + 6) 0) k i j
      = some ((pre ++ quadStores n i j) ++ List.replicate r 0) := by
  unfold writeQuad
  rw [vecSet_zeros pre (r + 5) k _ hk, Option.some_bind,
    vecSet_zeros _ (r + 4) (k + 1) _ (by simp [hk]), Option.some_bind,
    vecSet_zeros _ (r + 3) (k + 2) _ (by simp [hk]), Option.some_bind,
    vecSet_zeros _ (r + 2) (k + 3) _ (by simp [hk]), Option.some_bind,
    vecSet_zeros _ (r + 1) (k + 4) _ (by simp [hk]), Option.some_bind,
    vecSet_zeros _ r (k + 5) _ (by simp [hk])]
  simp only [quadStores, List.append_assoc, List.cons_append, List.nil_append]

theorem quadRow_zeros (n i : Int) :
    ∀ (js : List Nat) (pre : List Nat) (r : Nat) (k : Int), k = pre.length →
      quadRow n i js (pre ++ List.replicate (6 * js.length + r) 0, k)
        = some ((pre ++ js.flatMap (fun j => quadStores n i j)) ++ List.replicate r 0,
                k + 6 * js.length) := by
  intro js
  induction js with
  | nil =>
    intro pre r k _
    simp [quadRow]
  | cons j js ih =>
    intro pre r k hk
    have hcount : 6 * (j :: js).length + r = (6 * js.length + r) + 6 := by
      rw [List.length_cons]; omega
    rw [hcount]
    unfold quadRow
    simp only []
    rw [writeQuad_zeros n pre _ k i j hk]
    simp only []
    rw [ih (pre ++ quadStores n i j) r (k + 6)
      (by rw [List.length_append, hk]; simp [quadStores])]
    simp only [List.flatMap_cons, List.append_assoc, List.length_cons]
    congr 2
    push_cast
    ring

theorem quadLoop_zeros (n : Int) :
    ∀ (is : List Nat) (pre : List Nat) (r : Nat) (k : Int), k = pre.length →
      quadLoop n is (pre ++ List.replicate (6 * (n - 1).toNat * is.length + r) 0, k)
        = some ((pre ++ is.flatMap (fun i =>
                  (List.range (n - 1).toNat).flatMap (fun j => quadStores n i j)))
                  ++ List.replicate r 0,
                k + 6 * (n - 1).toNat * is.length) := by
  intro is
  induction is with
  | nil =>
    intro pre r k _
    simp [quadLoop]
  | cons i is ih =>
    intro pre r k hk
    have hcount : 6 * (n - 1).toNat * (i :: is).length + r
        = 6 * (List.range (n - 1).toNat).length + (6 * (n - 1).toNat * is.length + r) := by
      rw [List.length_cons, List.length_range]; ring
    rw [hcount]
    unfold quadLoop
    rw [quadRow_zeros n i _ pre _ k hk]
    simp only []
    have hlen : ∀ (c : Nat) (p : List Nat),
        ((List.range c).flatMap (fun j => quadStores n i j)).length = 6 * c := by
      intro c _
      induction c with
      | zero => rfl
      | succ c ihc =>
        rw [List.range_succ, List.flatMap_append, List.length_append, ihc]
        simp [quadStores]
        omega
    rw [ih _ r _ (by rw [List.length_append, hlen _ pre, hk, List.length_range]; push_cast; ring)]
    simp only [List.flatMap_cons, List.append_assoc, List.length_cons, List.length_range]
    congr 2
    push_cast
    ring

theorem length_quadStores_row (n i : Int) (c : Nat) :
    ((List.range c).flatMap (fun j => quadStores n i j)).length = 6 * c := by
  induction c with
  | zero => rfl
  | succ c ihc =>
    rw [List.range_succ, List.flatMap_append, List.length_append, ihc]
    simp [quadStores]
    omega

theorem length_quadStores_grid (n : Int) (c : Nat) (rows : Nat) :
    ((List.range rows).flatMap (fun i : Nat =>
      (List.range c).flatMap (fun j : Nat => quadStores n i j))).length = 6 * c * rows := by
  induction rows with
  | zero => rfl
  | succ rows ih =>
    rw [List.range_succ, List.flatMap_append, List.length_append, ih]
    simp only [List.flatMap_cons, List.flatMap_nil, List.append_nil]
    rw [length_quadStores_row]
    ring

/-- The result of `BuildWavesGeometry` for a grid of at least one row and one column
with fewer than 65535 vertices: the quads in row-major order, followed by zeros. -/
theorem BuildWavesGeometry_spec {W α : Type} (ndebug : Bool) (api : WavesApi W α) (w : W)
    (sizeofVertex : Nat) (hgrid : api.GridCounts w) (hm : 1 ≤ api.RowCount w)
    (hn : 1 ≤ api.ColumnCount w) (hv : api.RowCount w * api.ColumnCount w < 65535) :
    ∃ geo, BuildWavesGeometry ndebug api w sizeofVertex = some geo ∧
      geo.Name = "waterGeo" ∧
      geo.IndexBufferCPU =
        (List.range (api.RowCount w - 1).toNat).flatMap (fun i : Nat =>
          (List.range (api.ColumnCount w - 1).toNat).flatMap (fun j : Nat =>
            quadStores (api.ColumnCount w) i j))
        ++ List.replicate
            (18 * (api.RowCount w - 1).toNat * (api.ColumnCount w - 1).toNat) 0 ∧
      geo.DrawArgs = [("grid",
        { IndexCount := 24 * (api.RowCount w - 1).toNat * (api.ColumnCount w - 1).toNat,
          StartIndexLocation := 0, BaseVertexLocation := 0 })] ∧
      geo.IndexBufferByteSize
        = 48 * (api.RowCount w - 1).toNat * (api.ColumnCount w - 1).toNat ∧
      (api.TriangleCount w).toNat
        = 2 * (api.RowCount w - 1).toNat * (api.ColumnCount w - 1).toNat ∧
      (api.RowCount w - 1).toNat * (api.ColumnCount w - 1).toNat < 65535 := by
  generalize hR : (api.RowCount w - 1).toNat = R
  generalize hC : (api.ColumnCount w - 1).toNat = C
  have hmR : api.RowCount w = (R : Int) + 1 := by omega
  have hnC : api.ColumnCount w = (C : Int) + 1 := by omega
  have hRC : R * C < 65535 := by
    have h1 : ((R : Int) + 1) * ((C : Int) + 1) < 65535 := by rw [← hmR, ← hnC]; exact hv
    have h2 : ((R : Int) + 1) * ((C : Int) + 1) = ((R * C : Nat) : Int) + R + C + 1 := by
      push_cast; ring
    omega
  have htc : api.TriangleCount w = ((2 * R * C : Nat) : Int) := by
    rw [hgrid.2, hmR, hnC]; push_cast; ring
  have hcount : 12 * api.TriangleCount w = ((24 * R * C : Nat) : Int) := by
    rw [htc]; push_cast; ring
  have hvc : api.VertexCount w < 65535 := by rw [hgrid.1]; exact hv
  have hq : ∃ k, quadLoop (api.ColumnCount w) (List.range R) (List.replicate (24 * R * C) 0, 0)
      = some ((List.range R).flatMap (fun i : Nat =>
          (List.range C).flatMap (fun j : Nat => quadStores (api.ColumnCount w) i j))
          ++ List.replicate (18 * R * C) 0, k) := by
    have h := quadLoop_zeros (api.ColumnCount w) (List.range R) [] (18 * R * C) 0 rfl
    rw [List.length_range, hC] at h
    have e : 6 * C * R + 18 * R * C = 24 * R * C := by ring
    rw [e] at h
    exact ⟨_, by simpa using h⟩
  obtain ⟨k, hq⟩ := hq
  have hlen : ((List.range R).flatMap (fun i : Nat =>
      (List.range C).flatMap (fun j : Nat => quadStores (api.ColumnCount w) i j))
      ++ List.replicate (18 * R * C) 0).length = 24 * R * C := by
    rw [List.length_append, length_quadStores_grid, List.length_replicate]; ring
  have hsmall : 24 * R * C < 4294967296 := by
    have : 24 * R * C = 24 * (R * C) := by ring
    omega
  have hmod : 24 * R * C % 4294967296 = 24 * R * C := Nat.mod_eq_of_lt hsmall
  have hbytes : 24 * R * C * 2 % 4294967296 = 48 * R * C := by
    have : 24 * R * C * 2 = 48 * (R * C) := by ring
    have h3 : 48 * R * C = 48 * (R * C) := by ring
    rw [this, h3]; omega
  have htake : 48 * R * C / 2 = 24 * R * C := by
    have h3 : 48 * R * C = 2 * (24 * R * C) := by ring
    rw [h3, Nat.mul_div_cancel_left _ (by decide : 0 < 2)]
  have hcond : (0 : Int) ≤ ((24 * R * C : Nat) : Int) ∧
      ((24 * R * C : Nat) : Int) < 2147483648 := by
    have : 24 * R * C = 24 * (R * C) := by ring
    omega
  have hb : BuildWavesGeometry ndebug api w sizeofVertex = some
      (MeshGeometry.mk "waterGeo"
        (List.take (24 * R * C) ((List.range R).flatMap (fun i : Nat =>
          (List.range C).flatMap (fun j : Nat => quadStores (api.ColumnCount w) i j))
          ++ List.replicate (18 * R * C) 0))
        sizeofVertex ((api.VertexCount w * sizeofVertex) % 4294967296).toNat (48 * R * C)
        [("grid", SubmeshGeometry.mk (24 * R * C) 0 0)]) := by
    unfold BuildWavesGeometry
    simp only [hcount, hcond, and_self, if_true, Int.toNat_ofNat, hvc, decide_True, cAssert,
      hR, hq, hlen, hmod, hbytes, htake, ite_self]
  refine ⟨_, hb, rfl, ?_, rfl, rfl, ?_, hRC⟩
  · show List.take (24 * R * C) _ = _
    rw [← hlen, List.take_length]
  · rw [htc, Int.toNat_ofNat]

theorem toUInt16_natCast (x : Nat) (h : x < 65536) : toUInt16 (x : Int) = x := by
  unfold toUInt16
  omega

theorem quadTriangles_lt (m n i j : Nat) (hi : i + 1 < m) (hj : j + 1 < n) :
    ∀ x ∈ quadTriangles n i j, x < m * n := by
  have h1 : (i + 1) * n ≤ (m - 1) * n := Nat.mul_le_mul_right n (by omega)
  have h2 : (m - 1 + 1) * n = m * n := by rw [Nat.sub_add_cancel (by omega)]
  rw [Nat.add_mul, Nat.one_mul] at h2
  have h3 : (i + 1) * n = i * n + n := by rw [Nat.add_mul, Nat.one_mul]
  intro x hx
  simp only [quadTriangles, List.mem_cons, List.mem_singleton, List.not_mem_nil,
    or_false] at hx
  rcases hx with rfl | rfl | rfl | rfl | rfl | rfl <;> omega

theorem quadStores_eq_quadTriangles (m n i j : Nat) (hi : i + 1 < m) (hj : j + 1 < n)
    (hv : m * n < 65535) : quadStores (n : Int) (i : Int) (j : Int) = quadTriangles n i j := by
  have hb := quadTriangles_lt m n i j hi hj
  have e1 : (i : Int) * n + j = ((i * n + j : Nat) : Int) := by push_cast; ring
  have e2 : (i : Int) * n + j + 1 = ((i * n + j + 1 : Nat) : Int) := by push_cast; ring
  have e3 : ((i : Int) + 1) * n + j = (((i + 1) * n + j : Nat) : Int) := by push_cast; ring
  have e4 : ((i : Int) + 1) * n + j + 1 = (((i + 1) * n + j + 1 : Nat) : Int) := by
    push_cast; ring
  have b1 : i * n + j < 65536 := by
    have := hb (i * n + j) (by simp [quadTriangles]); omega
  have b2 : i * n + j + 1 < 65536 := by
    have := hb (i * n + j + 1) (by simp [quadTriangles]); omega
  have b3 : (i + 1) * n + j < 65536 := by
    have := hb ((i + 1) * n + j) (by simp [quadTriangles]); omega
  have b4 : (i + 1) * n + j + 1 < 65536 := by
    have := hb ((i + 1) * n + j + 1) (by simp [quadTriangles]); omega
  unfold quadStores quadTriangles
  rw [e4, e3, e2, e1, toUInt16_natCast _ b1, toUInt16_natCast _ b2, toUInt16_natCast _ b3,
    toUInt16_natCast _ b4]

theorem flatMap_congr_mem {β γ : Type} (f g : β → List γ) :
    ∀ l : List β, (∀ x ∈ l, f x = g x) → l.flatMap f = l.flatMap g := by
  intro l
  induction l with
  | nil => intro _; rfl
  | cons x xs ih =>
    intro h
    rw [List.flatMap_cons, List.flatMap_cons, h x (List.mem_cons_self _ _),
      ih (fun y hy => h y (List.mem_cons_of_mem _ hy))]

theorem quadStores_grid_eq (m n : Nat) (hv : m * n < 65535) :
    (List.range (m - 1)).flatMap (fun i : Nat =>
      (List.range (n - 1)).flatMap (fun j : Nat => quadStores (n : Int) i j))
    = (List.range (m - 1)).flatMap (fun i : Nat =>
      (List.range (n - 1)).flatMap (fun j : Nat => quadTriangles n i j)) := by
  apply flatMap_congr_mem
  intro i hi
  apply flatMap_congr_mem
  intro j hj
  have := List.mem_range.mp hi
  have := List.mem_range.mp hj
  exact quadStores_eq_quadTriangles m n i j (by omega) (by omega) hv

theorem length_quadTriangles_grid (n c : Nat) (rows : Nat) :
    ((List.range rows).flatMap (fun i : Nat =>
      (List.range c).flatMap (fun j : Nat => quadTriangles n i j))).length = 6 * rows * c := by
  have hrow : ∀ (i c : Nat),
      ((List.range c).flatMap (fun j : Nat => quadTriangles n i j)).length = 6 * c := by
    intro i c
    induction c with
    | zero => rfl
    | succ c ihc =>
      rw [List.range_succ, List.flatMap_append, List.length_append, ihc]
      simp [quadTriangles]
      omega
  induction rows with
  | zero => simp
  | succ rows ih =>
    rw [List.range_succ, List.flatMap_append, List.length_append, ih]
    simp only [List.flatMap_cons, List.flatMap_nil, List.append_nil]
    rw [hrow]
    ring

/-- C20: for a grid of `m ≥ 1` rows and `n ≥ 1` columns with `m*n < 65535` vertices
(and the counts of such a grid), the quad loop of `BuildWavesGeometry` returns; it
leaves `k = 6*(m-1)*(n-1)`, having written that many consecutive entries from position
0, all inside the vector; the written entries are the two triangles
`(i*n+j, i*n+j+1, (i+1)*n+j)`, `((i+1)*n+j, i*n+j+1, (i+1)*n+j+1)` of every quad in
row-major order; every written value is below `m*n`, so it names a vertex and is not
truncated by the 16-bit store; and `BuildWavesGeometry` returns with that vector as
index buffer. -/
theorem quad_loop_indices {W α : Type} (ndebug : Bool) (api : WavesApi W α) (w : W)
    (sizeofVertex : Nat) (m n : Nat) (hrows : api.RowCount w = m)
    (hcols : api.ColumnCount w = n) (hgrid : api.GridCounts w) (hm : 1 ≤ m) (hn : 1 ≤ n)
    (hv : m * n < 65535) :
    quadLoop (api.ColumnCount w) (List.range (api.RowCount w - 1).toNat)
        (List.replicate (12 * api.TriangleCount w).toNat 0, 0)
      = some ((List.range (m - 1)).flatMap (fun i : Nat =>
                (List.range (n - 1)).flatMap (fun j : Nat => quadTriangles n i j))
              ++ List.replicate (18 * (m - 1) * (n - 1)) 0,
              ((6 * (m - 1) * (n - 1) : Nat) : Int)) ∧
    ((List.range (m - 1)).flatMap (fun i : Nat =>
        (List.range (n - 1)).flatMap (fun j : Nat => quadTriangles n i j))).length
      = 6 * (m - 1) * (n - 1) ∧
    6 * (m - 1) * (n - 1) ≤ (12 * api.TriangleCount w).toNat ∧
    (∀ x ∈ (List.range (m - 1)).flatMap (fun i : Nat =>
        (List.range (n - 1)).flatMap (fun j : Nat => quadTriangles n i j)),
      x < m * n ∧ toUInt16 (x : Int) = x) ∧
    (∃ geo, BuildWavesGeometry ndebug api w sizeofVertex = some geo ∧
      geo.IndexBufferCPU =
        (List.range (m - 1)).flatMap (fun i : Nat =>
          (List.range (n - 1)).flatMap (fun j : Nat => quadTriangles n i j))
        ++ List.replicate (18 * (m - 1) * (n - 1)) 0) := by
  have hR : (api.RowCount w - 1).toNat = m - 1 := by omega
  have hC : (api.ColumnCount w - 1).toNat = n - 1 := by omega
  have hv1 : api.RowCount w * api.ColumnCount w < 65535 := by
    rw [hrows, hcols]; exact_mod_cast hv
  obtain ⟨geo, hgeo, _, hbuf, _, _, htc, _⟩ := BuildWavesGeometry_spec ndebug api w
    sizeofVertex hgrid (by omega) (by omega) hv1
  rw [hR, hC, hcols, quadStores_grid_eq m n hv] at hbuf
  rw [hR, hC] at htc
  have htc0 : 0 ≤ api.TriangleCount w := by
    rw [hgrid.2, hrows, hcols]
    have h1 : (0 : Int) ≤ (m : Int) - 1 := by omega
    have h2 : (0 : Int) ≤ (n : Int) - 1 := by omega
    exact Int.mul_nonneg (Int.mul_nonneg (by decide) h1) h2
  have hcnt : (12 * api.TriangleCount w).toNat = 24 * (m - 1) * (n - 1) := by
    have h4 : 2 * (m - 1) * (n - 1) = 2 * ((m - 1) * (n - 1)) := by ring
    have h5 : 24 * (m - 1) * (n - 1) = 24 * ((m - 1) * (n - 1)) := by ring
    omega
  refine ⟨?_, length_quadTriangles_grid n (n - 1) (m - 1), ?_, ?_, geo, hgeo, hbuf⟩
  · have h := quadLoop_zeros (api.ColumnCount w) (List.range (m - 1)) []
      (18 * (m - 1) * (n - 1)) 0 rfl
    rw [List.length_range, hC] at h
    have e : 6 * (n - 1) * (m - 1) + 18 * (m - 1) * (n - 1) = 24 * (m - 1) * (n - 1) := by
      ring
    rw [e, List.nil_append, List.nil_append, hcols, quadStores_grid_eq m n hv] at h
    rw [hR, hcnt, hcols, h]
    congr 2
    push_cast
    ring
  · rw [hcnt]
    have h4 : 6 * (m - 1) * (n - 1) = 6 * ((m - 1) * (n - 1)) := by ring
    have h5 : 24 * (m - 1) * (n - 1) = 24 * ((m - 1) * (n - 1)) := by ring
    omega
  · intro x hx
    obtain ⟨i, hi, hx⟩ := List.mem_flatMap.mp hx
    obtain ⟨j, hj, hx⟩ := List.mem_flatMap.mp hx
    have := List.mem_range.mp hi
    have := List.mem_range.mp hj
    have hlt := quadTriangles_lt m n i j (by omega) (by omega) x hx
    exact ⟨hlt, toUInt16_natCast x (by omega)⟩

theorem gridWavesApi_gridCounts (g : WaveGrid ℚ) : gridWavesApi.GridCounts g :=
  ⟨rfl, rfl⟩

/-- Witness for C20: a flat 9 × 9 grid. -/
theorem quad_loop_indices_witness :
    gridWavesApi.RowCount (flatGrid 9 9) = (9 : Nat) ∧
    gridWavesApi.ColumnCount (flatGrid 9 9) = (9 : Nat) ∧
    gridWavesApi.GridCounts (flatGrid 9 9) ∧ 9 * 9 < 65535 ∧
    ((List.range (9 - 1)).flatMap (fun i : Nat =>
        (List.range (9 - 1)).flatMap (fun j : Nat => quadTriangles 9 i j))).length
      = 6 * (9 - 1) * (9 - 1) ∧
    (∃ geo, BuildWavesGeometry false gridWavesApi (flatGrid 9 9) 32 = some geo ∧
      geo.IndexBufferCPU =
        (List.range (9 - 1)).flatMap (fun i : Nat =>
          (List.range (9 - 1)).flatMap (fun j : Nat => quadTriangles 9 i j))
        ++ List.replicate (18 * (9 - 1) * (9 - 1)) 0) :=
  have h := quad_loop_indices false gridWavesApi (flatGrid 9 9) 32 9 9 rfl rfl
    (gridWavesApi_gridCounts _) (by decide) (by decide) (by decide)
  ⟨rfl, rfl, gridWavesApi_gridCounts _, by decide, h.2.1, h.2.2.2.2⟩

/-- C19 (what the code does): for a grid of at least two rows and two columns with
fewer than 65535 vertices, the index buffer built by `BuildWavesGeometry` and the
`IndexCount` of the water submesh have `12 × TriangleCount` entries, not
`3 × TriangleCount`; the quad loop writes the first `3 × TriangleCount` entries, and
every entry from there on is the zero the vector was created with. -/
theorem wave_index_buffer_oversized {W α : Type} (ndebug : Bool) (api : WavesApi W α) (w : W)
    (sizeofVertex : Nat) (hgrid : api.GridCounts w) (hm : 2 ≤ api.RowCount w)
    (hn : 2 ≤ api.ColumnCount w) (hv : api.RowCount w * api.ColumnCount w < 65535) :
    ∃ geo, BuildWavesGeometry ndebug api w sizeofVertex = some geo ∧
      geo.IndexBufferCPU.length = 12 * (api.TriangleCount w).toNat ∧
      geo.DrawArgs = [("grid",
        { IndexCount := 12 * (api.TriangleCount w).toNat,
          StartIndexLocation := 0, BaseVertexLocation := 0 })] ∧
      0 < (api.TriangleCount w).toNat ∧
      geo.IndexBufferCPU.length ≠ 3 * (api.TriangleCount w).toNat ∧
      (∃ k, quadLoop (api.ColumnCount w) (List.range (api.RowCount w - 1).toNat)
          (List.replicate (12 * api.TriangleCount w).toNat 0, 0) = some (geo.IndexBufferCPU, k)
        ∧ k = 3 * (api.TriangleCount w).toNat) ∧
      (∀ p, 3 * (api.TriangleCount w).toNat ≤ p → p < 12 * (api.TriangleCount w).toNat →
        geo.IndexBufferCPU[p]? = some 0) := by
  obtain ⟨geo, hgeo, _, hbuf, hargs, _, htc, _⟩ := BuildWavesGeometry_spec ndebug api w
    sizeofVertex hgrid (by omega) (by omega) hv
  generalize hR : (api.RowCount w - 1).toNat = R at hbuf hargs htc
  generalize hC : (api.ColumnCount w - 1).toNat = C at hbuf hargs htc
  have hR1 : 1 ≤ R := by omega
  have hC1 : 1 ≤ C := by omega
  have hpos : 0 < R * C := Nat.mul_pos hR1 hC1
  have e2 : 2 * R * C = 2 * (R * C) := by ring
  have e18 : 18 * R * C = 18 * (R * C) := by ring
  have e24 : 24 * R * C = 24 * (R * C) := by ring
  have e6 : 6 * C * R = 6 * (R * C) := by ring
  have hlen : geo.IndexBufferCPU.length = 24 * (R * C) := by
    rw [hbuf, List.length_append, length_quadStores_grid, List.length_replicate]
    omega
  have hcnt : (12 * api.TriangleCount w).toNat = 24 * R * C := by omega
  refine ⟨geo, hgeo, ?_, ?_, ?_, ?_, ?_, ?_⟩
  · rw [hlen, htc]; omega
  · rw [hargs, htc]
    have : 24 * R * C = 12 * (2 * R * C) := by ring
    rw [this]
  · rw [htc]; omega
  · rw [hlen, htc]; omega
  · have h := quadLoop_zeros (api.ColumnCount w) (List.range R) [] (18 * R * C) 0 rfl
    rw [List.length_range, hC] at h
    have e : 6 * C * R + 18 * R * C = 24 * R * C := by ring
    rw [e, List.nil_append, List.nil_append] at h
    refine ⟨0 + 6 * (C : Int) * (R : Int), ?_, ?_⟩
    · rw [hcnt, hbuf]; exact h
    · rw [htc]; push_cast; ring
  · intro p hp1 hp2
    rw [hbuf, List.getElem?_append_right (by rw [length_quadStores_grid]; omega),
      List.getElem?_replicate]
    rw [if_pos (by rw [length_quadStores_grid]; omega)]

/-- Witness for C19: the default 128 × 128 grid has 32258 triangles; the index buffer
and `IndexCount` are 387096 entries long where three per triangle are 96774, and the
entries from 96774 on are zero. -/
theorem wave_index_buffer_oversized_witness :
    gridWavesApi.RowCount (flatGrid 128 128) = 128 ∧
    gridWavesApi.ColumnCount (flatGrid 128 128) = 128 ∧
    gridWavesApi.TriangleCount (flatGrid 128 128) = 32258 ∧
    ∃ geo, BuildWavesGeometry true gridWavesApi (flatGrid 128 128) 32 = some geo ∧
      geo.IndexBufferCPU.length = 387096 ∧
      geo.DrawArgs = [("grid",
        { IndexCount := 387096, StartIndexLocation := 0, BaseVertexLocation := 0 })] ∧
      (∀ p, 96774 ≤ p → p < 387096 → geo.IndexBufferCPU[p]? = some 0) :=
  have htc : (gridWavesApi.TriangleCount (flatGrid 128 128)).toNat = 32258 := by decide
  have h := wave_index_buffer_oversized true gridWavesApi (flatGrid 128 128) 32
    (gridWavesApi_gridCounts _) (by decide) (by decide) (by decide)
  ⟨rfl, rfl, by decide, by
    obtain ⟨geo, h1, h2, h3, _, _, _, h4⟩ := h
    rw [htc] at h2 h3 h4
    exact ⟨geo, h1, h2, h3, h4⟩⟩

/-! ## The terrain -/

theorem GetHillsHeight_of_ge {α : Type} [LinearOrderedField α] (sinf cosf : α → α) (x z : α)
    (hz : -50 ≤ z) : GetHillsHeight sinf cosf x z = 0 := by
  unfold GetHillsHeight
  rw [if_neg (not_lt.mpr hz), zero_mul]

theorem GetHillsHeight_slope {α : Type} [LinearOrderedField α] (sinf cosf : α → α) (x z : α)
    (hx : -90 < x ∧ x < 90) (hz : -57 < z ∧ z < -54) :
    GetHillsHeight sinf cosf x z = -5 * (1 - (z + 54) / 3) := by
  have h1 : z < -50 := by linarith [hz.2]
  have h2 : x > -90 ∧ x < 90 ∧ z > -57 ∧ z < -43 := ⟨hx.1, hx.2, hz.1, by linarith [hz.2]⟩
  have h3 : ¬ (x > -90 ∧ x < 90 ∧ z > -44 ∧ z < -43) := by
    intro h; linarith [h.2.2.1, hz.2]
  unfold GetHillsHeight
  rw [if_pos h1, if_pos h2, if_neg h3, if_pos ⟨hz.1, hz.2⟩]

theorem GetHillsHeight_elsewhere {α : Type} [LinearOrderedField α] (sinf cosf : α → α)
    (x z : α) (h : ¬ (-90 < x ∧ x < 90 ∧ -57 < z ∧ z < -54)) :
    GetHillsHeight sinf cosf x z = 0 := by
  by_cases h1 : z < -50
  · unfold GetHillsHeight
    rw [if_pos h1]
    by_cases h2 : x > -90 ∧ x < 90 ∧ z > -57 ∧ z < -43
    · have h3 : ¬ (x > -90 ∧ x < 90 ∧ z > -44 ∧ z < -43) := by
        intro h3; linarith [h3.2.2.1]
      have h4 : ¬ (z > -57 ∧ z < -54) := fun h4 => h ⟨h2.1, h2.2.1, h4.1, h4.2⟩
      have h5 : ¬ (z > -44 ∧ z < -43) := by
        intro h5; linarith [h5.1]
      rw [if_pos h2, if_neg h3, if_neg h4, if_neg h5]
    · rw [if_neg h2]
  · exact GetHillsHeight_of_ge sinf cosf x z (not_lt.mp h1)

/-- C21 (what the code does): the terrain is flat for every `z ≥ -50`, the height
being 0 there; at `x = 0`, `z = 0` both partial derivatives of `GetHillsHeight` are 0,
so the normal `(-df/dx, 1, -df/dz)` is `(0, 1, 0)`, but `GetHillsNormal` returns the
vector `(-0.3, 1, 0) / sqrt(1.09)`, whose first component is negative. -/
theorem hills_normal_ignores_height :
    (∀ x z : ℝ, -50 ≤ z → GetHillsHeight Real.sin Real.cos x z = 0) ∧
    HasDerivAt (fun x : ℝ => GetHillsHeight Real.sin Real.cos x 0) 0 0 ∧
    HasDerivAt (fun z : ℝ => GetHillsHeight Real.sin Real.cos 0 z) 0 0 ∧
    GetHillsNormal Real.sqrt Real.sin Real.cos 0 0
      = (-(3 / 10) / Real.sqrt (109 / 100), 1 / Real.sqrt (109 / 100), 0) ∧
    (GetHillsNormal Real.sqrt Real.sin Real.cos 0 0).1 < 0 ∧
    GetHillsNormal Real.sqrt Real.sin Real.cos 0 0 ≠ (0, 1, 0) := by
  have hpos : 0 < Real.sqrt (109 / 100) := Real.sqrt_pos.mpr (by norm_num)
  have hn : GetHillsNormal Real.sqrt Real.sin Real.cos 0 0
      = (-(3 / 10) / Real.sqrt (109 / 100), 1 / Real.sqrt (109 / 100), 0) := by
    unfold GetHillsNormal XMVector3Normalize
    simp only [mul_zero, Real.cos_zero, Real.sin_zero, zero_mul, mul_one, zero_sub, add_zero,
      zero_div]
    have e : (-(3 / 10 : ℝ)) * -(3 / 10) + 1 = 109 / 100 := by norm_num
    rw [e]
  have hneg : (GetHillsNormal Real.sqrt Real.sin Real.cos 0 0).1 < 0 := by
    rw [hn]
    exact div_neg_of_neg_of_pos (by norm_num) hpos
  have hdx : HasDerivAt (fun x : ℝ => GetHillsHeight Real.sin Real.cos x 0) 0 0 := by
    have hc : (fun x : ℝ => GetHillsHeight Real.sin Real.cos x 0) = fun _ => (0 : ℝ) :=
      funext fun x => GetHillsHeight_of_ge _ _ x 0 (by norm_num)
    rw [hc]
    exact hasDerivAt_const (0 : ℝ) (0 : ℝ)
  have hdz : HasDerivAt (fun z : ℝ => GetHillsHeight Real.sin Real.cos 0 z) 0 0 := by
    refine (hasDerivAt_const (0 : ℝ) (0 : ℝ)).congr_of_eventuallyEq ?_
    exact Filter.eventually_of_mem (Ioi_mem_nhds (by norm_num : (-50 : ℝ) < 0))
      (fun z hz => GetHillsHeight_of_ge _ _ 0 z (le_of_lt hz))
  refine ⟨fun x z hz => GetHillsHeight_of_ge _ _ x z hz, hdx, hdz, hn, hneg, ?_⟩
  intro h
  rw [h] at hneg
  exact lt_irrefl _ hneg

/-- C22 (what the code does): for every `x` and every `z` in `(-44, -43)`, the section
the code comments as the flat section of the moat, `GetHillsHeight` returns 0, not
`-5`: such a `z` fails the outer test `z < -50`. -/
theorem moat_flat_section_unreachable {α : Type} [LinearOrderedField α] (sinf cosf : α → α)
    (x z : α) (hz1 : -44 < z) (hz2 : z < -43) :
    GetHillsHeight sinf cosf x z = 0 ∧ GetHillsHeight sinf cosf x z ≠ -5 := by
  have h := GetHillsHeight_of_ge sinf cosf x z (by linarith)
  refine ⟨h, ?_⟩
  rw [h]
  norm_num

/-- Witness for C22: `x = 0`, `z = -43.5`. -/
theorem moat_flat_section_unreachable_witness :
    (-44 : ℝ) < -87 / 2 ∧ (-87 / 2 : ℝ) < -43 ∧
    GetHillsHeight Real.sin Real.cos 0 (-87 / 2) = 0 ∧
    GetHillsHeight Real.sin Real.cos 0 (-87 / 2) ≠ -5 :=
  have h := moat_flat_section_unreachable Real.sin Real.cos 0 (-87 / 2 : ℝ)
    (by norm_num) (by norm_num)
  ⟨by norm_num, by norm_num, h.1, h.2⟩

/-- C23: in exact arithmetic `GetHillsHeight` lies in `[-10, 0]` for every `x` and
`z`; for `-90 < x < 90` and `-57 < z < -54` it is `-5*(1 - (z+54)/3)`, strictly
between `-10` and `-5`; for every other input it is 0, in particular for `z ≥ -50`. -/
theorem hills_height_range {α : Type} [LinearOrderedField α] (sinf cosf : α → α) (x z : α) :
    (-10 ≤ GetHillsHeight sinf cosf x z ∧ GetHillsHeight sinf cosf x z ≤ 0) ∧
    (-90 < x ∧ x < 90 ∧ -57 < z ∧ z < -54 →
      GetHillsHeight sinf cosf x z = -5 * (1 - (z + 54) / 3) ∧
      -10 < GetHillsHeight sinf cosf x z ∧ GetHillsHeight sinf cosf x z < -5) ∧
    (¬ (-90 < x ∧ x < 90 ∧ -57 < z ∧ z < -54) → GetHillsHeight sinf cosf x z = 0) ∧
    (-50 ≤ z → GetHillsHeight sinf cosf x z = 0) := by
  have hslope : -90 < x ∧ x < 90 ∧ -57 < z ∧ z < -54 →
      GetHillsHeight sinf cosf x z = -5 * (1 - (z + 54) / 3) ∧
      -10 < GetHillsHeight sinf cosf x z ∧ GetHillsHeight sinf cosf x z < -5 := by
    intro h
    have he := GetHillsHeight_slope sinf cosf x z ⟨h.1, h.2.1⟩ ⟨h.2.2.1, h.2.2.2⟩
    rw [he]
    refine ⟨rfl, ?_, ?_⟩
    · linarith [h.2.2.1]
    · linarith [h.2.2.2]
  refine ⟨?_, hslope, GetHillsHeight_elsewhere sinf cosf x z,
    GetHillsHeight_of_ge sinf cosf x z⟩
  by_cases h : -90 < x ∧ x < 90 ∧ -57 < z ∧ z < -54
  · obtain ⟨_, h1, h2⟩ := hslope h
    exact ⟨le_of_lt h1, by linarith⟩
  · rw [GetHillsHeight_elsewhere sinf cosf x z h]
    exact ⟨by norm_num, le_refl _⟩

/-- Witness for C23: `x = 0`, `z = -55` on the slope, where the height is `-20/3`. -/
theorem hills_height_range_witness :
    ((-90 : ℝ) < 0 ∧ (0 : ℝ) < 90 ∧ (-57 : ℝ) < -55 ∧ (-55 : ℝ) < -54) ∧
    GetHillsHeight Real.sin Real.cos 0 (-55) = -5 * (1 - (-55 + 54) / 3) ∧
    (-10 ≤ GetHillsHeight Real.sin Real.cos 0 (-55) ∧
      GetHillsHeight Real.sin Real.cos 0 (-55) ≤ 0) :=
  have h := hills_height_range Real.sin Real.cos (0 : ℝ) (-55)
  have hin : (-90 : ℝ) < 0 ∧ (0 : ℝ) < 90 ∧ (-57 : ℝ) < -55 ∧ (-55 : ℝ) < -54 := by norm_num
  ⟨hin, (h.2.1 hin).1, h.1⟩

/-! ## The water material over the frames -/

theorem mem_of_lookup {β : Type} (key : String) :
    ∀ (l : List (String × β)) (m : β), l.lookup key = some m →
      key ∈ l.map Prod.fst ∧ (key, m) ∈ l := by
  intro l
  induction l with
  | nil => intro m h; cases h
  | cons km rest ih =>
    intro m h
    obtain ⟨k, v⟩ := km
    by_cases hk : key = k
    · subst hk
      simp only [List.lookup, beq_self_eq_true, Option.some.injEq] at h
      subst h
      exact ⟨List.mem_cons_self _ _, List.mem_cons_self _ _⟩
    · have hb : (key == k) = false := by simpa using hk
      simp only [List.lookup, hb] at h
      obtain ⟨h1, h2⟩ := ih m h
      exact ⟨List.mem_cons_of_mem _ h1, List.mem_cons_of_mem _ h2⟩

/-- C25: when both texture offsets of the water material are in `[0, 1)` and
`0 ≤ dt < 10`, the offsets that `AnimateMaterials` stores are again in `[0, 1)`; the
first is the old one plus `dt/10`, or that minus 1, the second the old one plus
`dt/50`, or that minus 1; every other entry of the transform is the old one; and the
water material of the map is replaced by the material so changed. -/
theorem water_offsets_stay_in_unit {α : Type} [LinearOrderedField α] (s : App α) (dt : α)
    (w : Material α) (hw : s.mMaterials.lookup "water" = some w)
    (htu : 0 ≤ w.MatTransform 3 0 ∧ w.MatTransform 3 0 < 1)
    (htv : 0 ≤ w.MatTransform 3 1 ∧ w.MatTransform 3 1 < 1)
    (hdt : 0 ≤ dt ∧ dt < 10) :
    (0 ≤ (animateWater dt w).MatTransform 3 0 ∧ (animateWater dt w).MatTransform 3 0 < 1) ∧
    (0 ≤ (animateWater dt w).MatTransform 3 1 ∧ (animateWater dt w).MatTransform 3 1 < 1) ∧
    ((animateWater dt w).MatTransform 3 0 = w.MatTransform 3 0 + 1 / 10 * dt ∨
      (animateWater dt w).MatTransform 3 0 = w.MatTransform 3 0 + 1 / 10 * dt - 1) ∧
    ((animateWater dt w).MatTransform 3 1 = w.MatTransform 3 1 + 1 / 50 * dt ∨
      (animateWater dt w).MatTransform 3 1 = w.MatTransform 3 1 + 1 / 50 * dt - 1) ∧
    (∀ i j : Fin 4, ¬ (i = 3 ∧ j = 0) → ¬ (i = 3 ∧ j = 1) →
      (animateWater dt w).MatTransform i j = w.MatTransform i j) ∧
    (∃ t, AnimateMaterials s dt = some t ∧
      t.mMaterials.lookup "water" = some (animateWater dt w)) := by
  have hu : (animateWater dt w).MatTransform 3 0 =
      if w.MatTransform 3 0 + 1 / 10 * dt ≥ 1 then w.MatTransform 3 0 + 1 / 10 * dt - 1
      else w.MatTransform 3 0 + 1 / 10 * dt := by
    simp [animateWater]
  have hv : (animateWater dt w).MatTransform 3 1 =
      if w.MatTransform 3 1 + 1 / 50 * dt ≥ 1 then w.MatTransform 3 1 + 1 / 50 * dt - 1
      else w.MatTransform 3 1 + 1 / 50 * dt := by
    simp [animateWater]
  refine ⟨?_, ?_, ?_, ?_, ?_, ?_⟩
  · rw [hu]
    split_ifs with h
    · constructor <;> linarith [htu.1, htu.2, hdt.1, hdt.2]
    · constructor <;> linarith [htu.1, htu.2, hdt.1, hdt.2, not_le.mp h]
  · rw [hv]
    split_ifs with h
    · constructor <;> linarith [htv.1, htv.2, hdt.1, hdt.2]
    · constructor <;> linarith [htv.1, htv.2, hdt.1, hdt.2, not_le.mp h]
  · rw [hu]
    split_ifs with h
    · right; rfl
    · left; rfl
  · rw [hv]
    split_ifs with h
    · right; rfl
    · left; rfl
  · intro i j h0 h1
    simp only [animateWater, if_neg h0, if_neg h1]
  · cases hm : modifyMaterial "water" (animateWater dt) s.mMaterials with
    | none =>
      have hmem : "water" ∈ s.mMaterials.map Prod.fst := (mem_of_lookup _ _ _ hw).1
      obtain ⟨l1, hl1⟩ := modifyMaterial_some "water" (animateWater dt) s.mMaterials hmem
      rw [hl1] at hm; cases hm
    | some mats1 =>
      obtain ⟨w1, hw1, hw2⟩ := modifyMaterial_lookup "water" (animateWater dt) s.mMaterials
        mats1 hm
      rw [hw] at hw1
      cases hw1
      exact ⟨{ s with mMaterials := mats1 }, by simp only [AnimateMaterials, hm], hw2⟩

theorem lookup_map_tickMaterial {α : Type} (key : String) :
    ∀ (l : List (String × Material α)),
      (l.map tickMaterial).lookup key
        = (l.lookup key).map (fun m => (tickMaterial (key, m)).2) := by
  intro l
  induction l with
  | nil => rfl
  | cons km rest ih =>
    obtain ⟨k, m⟩ := km
    have hfst : (tickMaterial (k, m)).1 = k := by
      unfold tickMaterial; split_ifs <;> rfl
    have e : tickMaterial (k, m) = (k, (tickMaterial (k, m)).2) := Prod.ext hfst rfl
    rw [List.map_cons, e]
    by_cases hk : key = k
    · subst hk
      simp only [List.lookup, beq_self_eq_true, Option.map_some']
    · have hb : (key == k) = false := by simpa using hk
      simp only [List.lookup, hb]
      exact ih

theorem modifyMaterial_forall {α : Type} (key : String) (f : Material α → Material α)
    (P : Material α → Prop) (hf : ∀ m, P (f m)) :
    ∀ (l l1 : List (String × Material α)), modifyMaterial key f l = some l1 →
      (∀ km ∈ l, P km.2) → ∀ km ∈ l1, P km.2 := by
  intro l
  induction l with
  | nil => intro l1 h; simp [modifyMaterial] at h
  | cons km0 rest ih =>
    intro l1 h hP km hkm
    obtain ⟨k, m⟩ := km0
    rcases modifyMaterial_cons key f k m rest l1 h with ⟨_, rfl⟩ | ⟨_, rest1, hr, rfl⟩
    · rcases List.mem_cons.mp hkm with e | e
      · rw [e]; exact hf m
      · exact hP km (List.mem_cons_of_mem _ e)
    · rcases List.mem_cons.mp hkm with e | e
      · rw [e]; exact hP (k, m) (List.mem_cons_self _ _)
      · exact ih rest1 hr (fun x hx => hP x (List.mem_cons_of_mem _ hx)) km e

theorem tickItem_counter {α : Type} (e : RenderItem α) (n : Nat)
    (h : (0 ≤ e.NumFramesDirty ∧ e.NumFramesDirty + n ≤ 3) ∨ e.NumFramesDirty = 0) :
    (0 ≤ (tickItem e).NumFramesDirty ∧ (tickItem e).NumFramesDirty + (n + 1 : Nat) ≤ 3) ∨
      (tickItem e).NumFramesDirty = 0 := by
  by_cases hd : e.NumFramesDirty > 0
  · rw [tickItem_of_dirty e hd]
    show (0 ≤ e.NumFramesDirty - 1 ∧ e.NumFramesDirty - 1 + (n + 1 : Nat) ≤ 3) ∨
      e.NumFramesDirty - 1 = 0
    push_cast
    omega
  · rw [tickItem_of_clean e hd]
    right
    omega

theorem tickMaterial_counter {α : Type} (km : String × Material α)
    (h : 0 ≤ km.2.NumFramesDirty ∧ km.2.NumFramesDirty ≤ 3) :
    0 ≤ (tickMaterial km).2.NumFramesDirty ∧ (tickMaterial km).2.NumFramesDirty ≤ 3 := by
  obtain ⟨k, m⟩ := km
  by_cases hd : m.NumFramesDirty > 0
  · rw [tickMaterial_of_dirty k m hd]
    show 0 ≤ m.NumFramesDirty - 1 ∧ m.NumFramesDirty - 1 ≤ 3
    have h1 : 0 ≤ m.NumFramesDirty := h.1
    have h2 : m.NumFramesDirty ≤ 3 := h.2
    omega
  · rw [tickMaterial_of_clean (k, m) hd]
    exact h

/-- One `Update` from a runnable state with distinct indices, seen from the water
material: it is animated, marked dirty, copied into the selected slot, and left with
counter 2; the render items and the other materials are ticked once. -/
theorem Update_water {α : Type} [LinearOrderedField α] (s : App α) (inp : FrameInput α)
    (h : Runnable s) (hd : IndicesDistinct s) :
    ∃ u k w mats1, Update s inp = some u ∧ u.mCurrFrameResource = some k ∧
      k = ((s.mCurrFrameResourceIndex + 1) % 3).toNat ∧
      s.mMaterials.lookup "water" = some w ∧
      modifyMaterial "water" (animateWater inp.dt) s.mMaterials = some mats1 ∧
      u.mMaterials = mats1.map tickMaterial ∧
      u.mAllRitems = s.mAllRitems.map tickItem ∧
      u.mMaterials.lookup "water"
        = some { animateWater inp.dt w with NumFramesDirty := 2 } ∧
      materialEntry u k w.MatCBIndex = some (materialPayload (animateWater inp.dt w)) ∧
      materialCopyCount u k w.MatCBIndex = materialCopyCount s k w.MatCBIndex + 1 := by
  obtain ⟨fr, mats1, ocb, mcb, hfr, hmats, _, hmcb, hU⟩ := Update_spec s inp h
  obtain ⟨w, hw1, hw2⟩ := modifyMaterial_lookup "water" (animateWater inp.dt) s.mMaterials
    mats1 hmats
  have hk := (List.getElem?_eq_some_iff.mp hfr).1
  have hmi := modifyMaterial_map_index "water" (animateWater inp.dt)
    (animateWater_index inp.dt) s.mMaterials mats1 hmats
  have hnd1 : (mats1.map (fun km => km.2.MatCBIndex)).Nodup := by rw [hmi]; exact hd.2
  have hmem : ("water", animateWater inp.dt w) ∈ mats1 := (mem_of_lookup _ _ _ hw2).2
  have hdirty : (animateWater inp.dt w).NumFramesDirty > 0 := by
    show gNumFrameResources > 0
    decide
  obtain ⟨hf1, _⟩ := materialLoop_facts _ _ _ _ hnd1 hmcb
  obtain ⟨e1, e2⟩ := hf1 _ hmem hdirty
  refine ⟨_, _, w, mats1, hU, rfl, rfl, hw1, hmats, rfl, rfl, ?_, ?_, ?_⟩
  · show (mats1.map tickMaterial).lookup "water" = _
    rw [lookup_map_tickMaterial, hw2, Option.map_some',
      tickMaterial_of_dirty "water" _ hdirty]
    rfl
  · obtain ⟨_, _, g1, _⟩ := objectEntry_set_self s
      { mFrameResources := s.mFrameResources.set ((s.mCurrFrameResourceIndex + 1) % 3).toNat
          { Fence := fr.Fence, ObjectCB := ocb, MaterialCB := mcb },
        mCurrFrameResource := none, mCurrFrameResourceIndex := 0, mCurrentFence := 0,
        gpuCompleted := 0, waitLog := [], mAllRitems := [], mMaterials := [] }
      _ _ hk rfl w.MatCBIndex
    simp only [materialEntry] at g1 ⊢
    rw [g1]
    exact e1
  · obtain ⟨_, _, _, g2⟩ := objectEntry_set_self s
      { mFrameResources := s.mFrameResources.set ((s.mCurrFrameResourceIndex + 1) % 3).toNat
          { Fence := fr.Fence, ObjectCB := ocb, MaterialCB := mcb },
        mCurrFrameResource := none, mCurrFrameResourceIndex := 0, mCurrentFence := 0,
        gpuCompleted := 0, waitLog := [], mAllRitems := [], mMaterials := [] }
      _ _ hk rfl w.MatCBIndex
    obtain ⟨_, _, _, g4⟩ := entries_of_getElem? s _ fr hfr w.MatCBIndex
    simp only [materialCopyCount] at g2 g4 ⊢
    rw [g2, g4]
    exact e2

theorem water_after_tick {α : Type} [LinearOrderedField α] (dt : α)
    (l mats1 : List (String × Material α))
    (h : modifyMaterial "water" (animateWater dt) l = some mats1) :
    ∃ w, l.lookup "water" = some w ∧
      (mats1.map tickMaterial).lookup "water"
        = some { animateWater dt w with NumFramesDirty := 2 } := by
  obtain ⟨w, hw1, hw2⟩ := modifyMaterial_lookup "water" (animateWater dt) l mats1 h
  have hdirty : (animateWater dt w).NumFramesDirty > 0 := by
    show gNumFrameResources > 0
    decide
  refine ⟨w, hw1, ?_⟩
  rw [lookup_map_tickMaterial, hw2, Option.map_some', tickMaterial_of_dirty "water" _ hdirty]
  rfl

/-- One frame, seen from the dirty counters: the render items are ticked, no counter
leaves `0..3`, and the water material ends with counter 2. -/
theorem frame_counters {α : Type} [LinearOrderedField α] (s : App α) (inp : FrameInput α)
    (n : Nat) (h : Runnable s) (hd : IndicesDistinct s)
    (hitems : ∀ e ∈ s.mAllRitems,
      (0 ≤ e.NumFramesDirty ∧ e.NumFramesDirty + n ≤ 3) ∨ e.NumFramesDirty = 0)
    (hmats : ∀ km ∈ s.mMaterials, 0 ≤ km.2.NumFramesDirty ∧ km.2.NumFramesDirty ≤ 3) :
    ∃ t, frame s inp = some t ∧ Runnable t ∧ IndicesDistinct t ∧
      (∀ e ∈ t.mAllRitems,
        (0 ≤ e.NumFramesDirty ∧ e.NumFramesDirty + (n + 1 : Nat) ≤ 3) ∨ e.NumFramesDirty = 0) ∧
      (∀ km ∈ t.mMaterials, 0 ≤ km.2.NumFramesDirty ∧ km.2.NumFramesDirty ≤ 3) ∧
      (∃ w, t.mMaterials.lookup "water" = some w ∧ w.NumFramesDirty = 2) := by
  obtain ⟨fr, mats1, ocb, mcb, _, hmats1, _, _, hF⟩ := frame_spec s inp h
  obtain ⟨t, ht, hrt, hdt, _⟩ := frame_dirty_step s inp h hd
  rw [hF] at ht
  have ht := (Option.some.inj ht).symm
  have hitemsT : t.mAllRitems = s.mAllRitems.map tickItem := by rw [ht]
  have hmatsT : t.mMaterials = mats1.map tickMaterial := by rw [ht]
  refine ⟨t, by rw [hF, ht], hrt, hdt, ?_, ?_, ?_⟩
  · intro e he
    rw [hitemsT] at he
    obtain ⟨e0, he0, rfl⟩ := List.mem_map.mp he
    exact tickItem_counter e0 n (hitems e0 he0)
  · intro km hkm
    rw [hmatsT] at hkm
    obtain ⟨km0, hkm0, rfl⟩ := List.mem_map.mp hkm
    apply tickMaterial_counter
    exact modifyMaterial_forall "water" (animateWater inp.dt)
      (fun m => 0 ≤ m.NumFramesDirty ∧ m.NumFramesDirty ≤ 3)
      (fun m => by
        show 0 ≤ gNumFrameResources ∧ gNumFrameResources ≤ 3
        decide)
      s.mMaterials mats1 hmats1 hmats km0 hkm0
  · obtain ⟨w, _, hw⟩ := water_after_tick inp.dt s.mMaterials mats1 hmats1
    rw [hmatsT]
    exact ⟨_, hw, rfl⟩

theorem runFrames_counters {α : Type} [LinearOrderedField α] :
    ∀ (ins : List (FrameInput α)) (s : App α) (n : Nat), Runnable s → IndicesDistinct s →
      (∀ e ∈ s.mAllRitems,
        (0 ≤ e.NumFramesDirty ∧ e.NumFramesDirty + n ≤ 3) ∨ e.NumFramesDirty = 0) →
      (∀ km ∈ s.mMaterials, 0 ≤ km.2.NumFramesDirty ∧ km.2.NumFramesDirty ≤ 3) →
      ∃ t, runFrames s ins = some t ∧ Runnable t ∧ IndicesDistinct t ∧
        (∀ e ∈ t.mAllRitems,
          (0 ≤ e.NumFramesDirty ∧ e.NumFramesDirty + (n + ins.length : Nat) ≤ 3)
            ∨ e.NumFramesDirty = 0) ∧
        (∀ km ∈ t.mMaterials, 0 ≤ km.2.NumFramesDirty ∧ km.2.NumFramesDirty ≤ 3) ∧
        (ins ≠ [] → ∃ w, t.mMaterials.lookup "water" = some w ∧ w.NumFramesDirty = 2) := by
  intro ins
  induction ins with
  | nil =>
    intro s n h hd hitems hmats
    exact ⟨s, rfl, h, hd, hitems, hmats, fun hne => absurd rfl hne⟩
  | cons inp rest ih =>
    intro s n h hd hitems hmats
    obtain ⟨t1, hf, hr1, hd1, hi1, hm1, hw1⟩ := frame_counters s inp n h hd hitems hmats
    obtain ⟨t, hrun, hrt, hdt, hit, hmt, hwt⟩ := ih t1 (n + 1) hr1 hd1 hi1 hm1
    refine ⟨t, by simp only [runFrames, hf, hrun], hrt, hdt, ?_, hmt, ?_⟩
    · intro e he
      have := hit e he
      rw [List.length_cons]
      have e1 : n + 1 + rest.length = n + (rest.length + 1) := by omega
      rw [← e1]
      exact this
    · intro _
      cases rest with
      | nil =>
        simp only [runFrames, Option.some.injEq] at hrun
        rw [← hrun]
        exact hw1
      | cons x xs => exact hwt (List.cons_ne_nil _ _)

/-- C24: from a runnable state with distinct indices and every dirty counter in
`0..3`, after any number of whole frames a further `Update` returns; at its end the
water material has dirty counter 2 (`N-1`), having been reset to 3 by
`AnimateMaterials` and copied once into the selected slot; after at least one whole
frame the water counter is 2 at the frame boundary as well; every dirty counter is in
`0..3` at every frame boundary and at the end of the `Update`; and once 3 whole frames
have run every render item's counter is 0, and still 0 after the `Update`. -/
theorem water_counter_cycle {α : Type} [LinearOrderedField α] (s : App α)
    (ins : List (FrameInput α)) (inp : FrameInput α)
    (h : Runnable s) (hd : IndicesDistinct s)
    (hitems : ∀ e ∈ s.mAllRitems, 0 ≤ e.NumFramesDirty ∧ e.NumFramesDirty ≤ 3)
    (hmats : ∀ km ∈ s.mMaterials, 0 ≤ km.2.NumFramesDirty ∧ km.2.NumFramesDirty ≤ 3) :
    ∃ t u k w, runFrames s ins = some t ∧ Update t inp = some u ∧
      u.mCurrFrameResource = some k ∧
      t.mMaterials.lookup "water" = some w ∧
      (ins ≠ [] → w.NumFramesDirty = 2) ∧
      (animateWater inp.dt w).NumFramesDirty = gNumFrameResources ∧
      u.mMaterials.lookup "water" = some { animateWater inp.dt w with NumFramesDirty := 2 } ∧
      (2 : Int) = gNumFrameResources - 1 ∧
      materialEntry u k w.MatCBIndex = some (materialPayload (animateWater inp.dt w)) ∧
      materialCopyCount u k w.MatCBIndex = materialCopyCount t k w.MatCBIndex + 1 ∧
      (∀ e ∈ t.mAllRitems, 0 ≤ e.NumFramesDirty ∧ e.NumFramesDirty ≤ 3) ∧
      (∀ km ∈ t.mMaterials, 0 ≤ km.2.NumFramesDirty ∧ km.2.NumFramesDirty ≤ 3) ∧
      (∀ e ∈ u.mAllRitems, 0 ≤ e.NumFramesDirty ∧ e.NumFramesDirty ≤ 3) ∧
      (∀ km ∈ u.mMaterials, 0 ≤ km.2.NumFramesDirty ∧ km.2.NumFramesDirty ≤ 3) ∧
      (3 ≤ ins.length →
        (∀ e ∈ t.mAllRitems, e.NumFramesDirty = 0) ∧
        (∀ e ∈ u.mAllRitems, e.NumFramesDirty = 0)) := by
  obtain ⟨t, hrun, hrt, hdt, hit, hmt, hwt⟩ := runFrames_counters ins s 0 h hd
    (fun e he => Or.inl ⟨(hitems e he).1, by simpa using (hitems e he).2⟩) hmats
  obtain ⟨u, k, w, mats1, hU, hk, _, hw, hmod, hum, hui, huw, hent, hcnt⟩ :=
    Update_water t inp hrt hdt
  have hbt : ∀ e ∈ t.mAllRitems, 0 ≤ e.NumFramesDirty ∧ e.NumFramesDirty ≤ 3 := by
    intro e he
    rcases hit e he with ⟨h1, h2⟩ | h0
    · exact ⟨h1, by omega⟩
    · rw [h0]; decide
  refine ⟨t, u, k, w, hrun, hU, hk, hw, ?_, rfl, huw, by decide, hent, hcnt, hbt, hmt,
    ?_, ?_, ?_⟩
  · intro hne
    obtain ⟨w1, hw1, hc⟩ := hwt hne
    rw [hw] at hw1
    cases hw1
    exact hc
  · intro e he
    rw [hui] at he
    obtain ⟨e0, he0, rfl⟩ := List.mem_map.mp he
    have := tickItem_counter e0 0 (Or.inl ⟨(hbt e0 he0).1, by simpa using (hbt e0 he0).2⟩)
    rcases this with ⟨h1, h2⟩ | h0
    · exact ⟨h1, by omega⟩
    · rw [h0]; decide
  · intro km hkm
    rw [hum] at hkm
    obtain ⟨km0, hkm0, rfl⟩ := List.mem_map.mp hkm
    apply tickMaterial_counter
    exact modifyMaterial_forall "water" (animateWater inp.dt)
      (fun m => 0 ≤ m.NumFramesDirty ∧ m.NumFramesDirty ≤ 3)
      (fun m => by
        show 0 ≤ gNumFrameResources ∧ gNumFrameResources ≤ 3
        decide)
      t.mMaterials mats1 hmod hmt km0 hkm0
  · intro h3
    have hz : ∀ e ∈ t.mAllRitems, e.NumFramesDirty = 0 := by
      intro e he
      rcases hit e he with ⟨h1, h2⟩ | h0
      · have : ((0 + ins.length : Nat) : Int) ≥ 3 := by
          rw [Nat.zero_add]; exact_mod_cast h3
        omega
      · exact h0
    refine ⟨hz, ?_⟩
    intro e he
    rw [hui] at he
    obtain ⟨e0, he0, rfl⟩ := List.mem_map.mp he
    have h0 := hz e0 he0
    rw [tickItem_of_clean e0 (by rw [h0]; decide)]
    exact h0

/-- Witness for C24: three whole frames and a fourth `Update` on the concrete start
state. -/
theorem water_counter_cycle_witness :
    Runnable demoApp ∧ IndicesDistinct demoApp ∧
    (∀ e ∈ demoApp.mAllRitems, 0 ≤ e.NumFramesDirty ∧ e.NumFramesDirty ≤ 3) ∧
    (∀ km ∈ demoApp.mMaterials, 0 ≤ km.2.NumFramesDirty ∧ km.2.NumFramesDirty ≤ 3) ∧
    ∃ t u w, runFrames demoApp [stalledInput, stalledInput, stalledInput] = some t ∧
      Update t stalledInput = some u ∧
      t.mMaterials.lookup "water" = some w ∧
      u.mMaterials.lookup "water"
        = some { animateWater stalledInput.dt w with NumFramesDirty := 2 } ∧
      (∀ e ∈ u.mAllRitems, e.NumFramesDirty = 0) :=
  have h := water_counter_cycle demoApp [stalledInput, stalledInput, stalledInput]
    stalledInput (by decide) (by decide) (by decide) (by decide)
  ⟨by decide, by decide, by decide, by decide, by
    obtain ⟨t, u, k, w, h1, h2, _, h3, _, _, h4, _, _, _, _, _, _, _, h5⟩ := h
    exact ⟨t, u, w, h1, h2, h3, h4, (h5 (by decide)).2⟩⟩

/-- Witness for C25: the water material of the concrete start state, whose offsets
are 0, and `dt = 1/60`. -/
theorem water_offsets_stay_in_unit_witness :
    demoApp.mMaterials.lookup "water" = some (demoMaterial "water" 1) ∧
    ((0 : ℚ) ≤ 1 / 60 ∧ (1 / 60 : ℚ) < 10) ∧
    (0 ≤ (animateWater (1 / 60) (demoMaterial "water" 1)).MatTransform 3 0 ∧
      (animateWater (1 / 60) (demoMaterial "water" 1)).MatTransform 3 0 < 1) ∧
    ((animateWater (1 / 60) (demoMaterial "water" 1)).MatTransform 3 0
        = (demoMaterial "water" 1).MatTransform 3 0 + 1 / 10 * (1 / 60) ∨
      (animateWater (1 / 60) (demoMaterial "water" 1)).MatTransform 3 0
        = (demoMaterial "water" 1).MatTransform 3 0 + 1 / 10 * (1 / 60) - 1) :=
  have hu : (demoMaterial "water" 1).MatTransform 3 0 = 0 := rfl
  have hv : (demoMaterial "water" 1).MatTransform 3 1 = 0 := rfl
  have hdt : (0 : ℚ) ≤ 1 / 60 ∧ (1 / 60 : ℚ) < 10 := by norm_num
  have h := water_offsets_stay_in_unit demoApp (1 / 60) (demoMaterial "water" 1) rfl
    (by rw [hu]; norm_num) (by rw [hv]; norm_num) hdt
  ⟨rfl, hdt, h.1, h.2.2.1⟩

/-! ## `BuildMaterials` and `BuildDescriptorHeaps` -/

theorem BuildMaterials_table (α : Type) [LinearOrderedField α] :
    (BuildMaterials α).map (fun km => (km.1, km.2.MatCBIndex, km.2.DiffuseSrvHeapIndex))
      = [("grass", 0, 0), ("water", 1, 1), ("wirefence", 2, 2), ("crate", 3, 3),
         ("wall1", 4, 4), ("roof1", 5, 5), ("wood1", 6, 6), ("stone1", 7, 7),
         ("wood2", 8, 8), ("rMetal", 9, 9), ("dirtGrass", 10, 10), ("hedge", 11, 11),
         ("treeSprites", 12, 12)] :=
  rfl

set_option maxRecDepth 100000 in
theorem BuildRenderItems_materials :
    ∀ r ∈ BuildRenderItems.heap,
      r.Mat ∈ ["grass", "water", "wirefence", "crate", "wall1", "roof1", "wood1", "stone1",
        "wood2", "rMetal", "dirtGrass", "hedge", "treeSprites"] := by
  decide

theorem lookup_of_mem_keys {β : Type} (key : String) :
    ∀ (l : List (String × β)), key ∈ l.map Prod.fst → ∃ m, l.lookup key = some m := by
  intro l
  induction l with
  | nil => intro h; cases h
  | cons km rest ih =>
    intro h
    obtain ⟨k, v⟩ := km
    by_cases hk : key = k
    · subst hk
      exact ⟨v, by simp only [List.lookup, beq_self_eq_true]⟩
    · have hb : (key == k) = false := by simpa using hk
      have hmem : key ∈ rest.map Prod.fst := by
        rcases List.mem_cons.mp h with h1 | h1
        · exact absurd h1 hk
        · exact h1
      obtain ⟨m, hm⟩ := ih hmem
      exact ⟨m, by simp only [List.lookup, hb]; exact hm⟩

theorem mem_renderItems {α : Type} (env : SceneEnv α) (sc : Scene) (e : RenderItem α)
    (he : e ∈ sc.renderItems env) :
    ∃ r ∈ sc.heap, e.Mat = some r.Mat ∧ e.Geo = some r.Geo ∧ e.ObjCBIndex = r.ObjCBIndex := by
  unfold Scene.renderItems at he
  obtain ⟨p, _, hp⟩ := List.mem_filterMap.mp he
  cases hr : sc.heap[p]? with
  | none => rw [hr] at hp; cases hp
  | some r =>
    rw [hr, Option.map_some', Option.some.injEq] at hp
    exact ⟨r, List.getElem?_mem hr, by rw [← hp]; exact ⟨rfl, rfl, rfl⟩⟩

/-- C26: `BuildMaterials` leaves 13 materials under 13 distinct keys; their
`MatCBIndex` values are `0, ..., 12`, pairwise distinct and each below the material
count, which is the element count `BuildFrameResources` gives the material constant
buffer of every slot; each `DiffuseSrvHeapIndex` equals the `MatCBIndex` and is below
13, the number of views `BuildDescriptorHeaps` creates, at descriptors `0, ..., 12` of
a heap of 14; the water material is in the map; and every render item built by
`BuildRenderItems` names a material of the map, whose constant index is inside the
buffer and whose texture descriptor holds a view. -/
theorem material_indices_in_bounds (α : Type) [LinearOrderedField α] :
    (BuildMaterials α).length = 13 ∧
    ((BuildMaterials α).map Prod.fst).Nodup ∧
    (BuildMaterials α).map (fun km => km.2.MatCBIndex) = List.range 13 ∧
    ((BuildMaterials α).map (fun km => km.2.MatCBIndex)).Nodup ∧
    (∀ i, i ∈ (BuildMaterials α).map (fun km => km.2.MatCBIndex) ↔ i < 13) ∧
    (∀ km ∈ BuildMaterials α,
      km.2.MatCBIndex < (BuildMaterials α).length ∧
      km.2.DiffuseSrvHeapIndex = km.2.MatCBIndex ∧
      km.2.DiffuseSrvHeapIndex < BuildDescriptorHeaps.views.length) ∧
    (BuildDescriptorHeaps.views.length = 13 ∧
      BuildDescriptorHeaps.views.map Prod.fst = List.range 13 ∧
      BuildDescriptorHeaps.views.length ≤ BuildDescriptorHeaps.NumDescriptors) ∧
    (∀ objectCount : Nat,
      ∀ fr ∈ BuildFrameResources α objectCount (BuildMaterials α).length,
        fr.MaterialCB.elementCount = 13 ∧
        ∀ km ∈ BuildMaterials α, km.2.MatCBIndex < fr.MaterialCB.elementCount) ∧
    "water" ∈ (BuildMaterials α).map Prod.fst ∧
    (∀ env : SceneEnv α,
      MaterialsResolved (BuildMaterials α) (BuildRenderItems.renderItems env) ∧
      ∀ e ∈ BuildRenderItems.renderItems env, ∃ key mat tex,
        e.Mat = some key ∧ (BuildMaterials α).lookup key = some mat ∧
        mat.MatCBIndex < 13 ∧ (mat.DiffuseSrvHeapIndex, tex) ∈ BuildDescriptorHeaps.views) := by
  have htab := BuildMaterials_table α
  have hlen : (BuildMaterials α).length = 13 := by
    have := congrArg List.length htab
    simpa using this
  have hkeys : (BuildMaterials α).map Prod.fst
      = ["grass", "water", "wirefence", "crate", "wall1", "roof1", "wood1", "stone1",
        "wood2", "rMetal", "dirtGrass", "hedge", "treeSprites"] := by
    have := congrArg (List.map (fun t : String × Nat × Nat => t.1)) htab
    simpa [List.map_map, Function.comp_def] using this
  have hidx : (BuildMaterials α).map (fun km => km.2.MatCBIndex) = List.range 13 := by
    have := congrArg (List.map (fun t : String × Nat × Nat => t.2.1)) htab
    rw [List.map_map] at this
    exact this
  have hall : ∀ km ∈ BuildMaterials α,
      km.2.MatCBIndex < 13 ∧ km.2.DiffuseSrvHeapIndex = km.2.MatCBIndex := by
    intro km hkm
    have hmem : (km.1, km.2.MatCBIndex, km.2.DiffuseSrvHeapIndex) ∈
        (BuildMaterials α).map
          (fun km => (km.1, km.2.MatCBIndex, km.2.DiffuseSrvHeapIndex)) :=
      List.mem_map_of_mem
        (fun km : String × Material α => (km.1, km.2.MatCBIndex, km.2.DiffuseSrvHeapIndex)) hkm
    rw [htab] at hmem
    have hT : ∀ t ∈ [("grass", 0, 0), ("water", 1, 1), ("wirefence", 2, 2), ("crate", 3, 3),
         ("wall1", 4, 4), ("roof1", 5, 5), ("wood1", 6, 6), ("stone1", 7, 7),
         ("wood2", 8, 8), ("rMetal", 9, 9), ("dirtGrass", 10, 10), ("hedge", 11, 11),
         ("treeSprites", 12, 12)], (t : String × Nat × Nat).2.1 < 13 ∧ t.2.2 = t.2.1 := by
      decide
    exact hT _ hmem
  have hviews : BuildDescriptorHeaps.views.length = 13 := by decide
  have hslots : BuildDescriptorHeaps.views.map Prod.fst = List.range 13 := by decide
  have hnd : (List.range 13).Nodup := List.nodup_range 13
  refine ⟨hlen, by rw [hkeys]; decide, hidx, by rw [hidx]; exact hnd,
    fun i => by rw [hidx]; exact List.mem_range, ?_, ⟨hviews, hslots, by decide⟩, ?_,
    by rw [hkeys]; decide, ?_⟩
  · intro km hkm
    obtain ⟨h1, h2⟩ := hall km hkm
    exact ⟨by rw [hlen]; exact h1, h2, by rw [hviews, h2]; exact h1⟩
  · intro objectCount fr hfr
    simp only [BuildFrameResources, List.mem_map] at hfr
    obtain ⟨_, _, rfl⟩ := hfr
    have hcount : (FrameResource.create α objectCount
        (BuildMaterials α).length).MaterialCB.elementCount = 13 := by
      simp [FrameResource.create, UploadBuffer.create, UploadBuffer.elementCount, hlen]
    exact ⟨hcount, fun km hkm => by rw [hcount]; exact (hall km hkm).1⟩
  · intro env
    have hitem : ∀ e ∈ BuildRenderItems.renderItems env, ∃ key mat tex,
        e.Mat = some key ∧ (BuildMaterials α).lookup key = some mat ∧
        mat.MatCBIndex < 13 ∧ (mat.DiffuseSrvHeapIndex, tex) ∈ BuildDescriptorHeaps.views := by
      intro e he
      obtain ⟨r, hr, hmat, _, _⟩ := mem_renderItems env BuildRenderItems e he
      have hk : r.Mat ∈ (BuildMaterials α).map Prod.fst := by
        rw [hkeys]; exact BuildRenderItems_materials r hr
      obtain ⟨mat, hl⟩ := lookup_of_mem_keys r.Mat (BuildMaterials α) hk
      obtain ⟨h1, h2⟩ := hall (r.Mat, mat) (mem_of_lookup _ _ _ hl).2
      have hs : mat.DiffuseSrvHeapIndex ∈ BuildDescriptorHeaps.views.map Prod.fst := by
        rw [hslots, List.mem_range, h2]; exact h1
      obtain ⟨v, hv, hv1⟩ := List.mem_map.mp hs
      refine ⟨r.Mat, mat, v.2, hmat, hl, h1, ?_⟩
      rw [← hv1]
      exact hv
    refine ⟨?_, hitem⟩
    intro e he _
    obtain ⟨key, mat, _, hmat, hl, _⟩ := hitem e he
    rw [hmat, Option.some_bind, hl]
    rfl

/-! ## Waves: the schedule in the arithmetic of `float` -/

/-- Where the two roundings of the block are exact, the block in the arithmetic of
`float` keeps the schedule of the block in exact arithmetic. -/
theorem maybeDisturbF32_schedule {W : Type} (api : WavesApi W ℚ) (ws : WaveState W ℚ)
    (inp : WaveInput ℚ) (hsub : f32sub inp.TotalTime ws.t_base = inp.TotalTime - ws.t_base)
    (hadd : f32add ws.t_base (1 / 4) = ws.t_base + 1 / 4) :
    (maybeDisturbF32 api ws inp).t_base = (maybeDisturb api ws inp).t_base ∧
    (maybeDisturbF32 api ws inp).disturbLog.length
      = (maybeDisturb api ws inp).disturbLog.length := by
  by_cases h : inp.TotalTime - ws.t_base ≥ 1 / 4
  · have hf : f32sub inp.TotalTime ws.t_base ≥ 1 / 4 := by rw [hsub]; exact h
    rw [maybeDisturb_fired api ws inp h]
    unfold maybeDisturbF32
    rw [if_pos hf]
    exact ⟨hadd, by simp⟩
  · have hf : ¬ f32sub inp.TotalTime ws.t_base ≥ 1 / 4 := by rw [hsub]; exact h
    rw [maybeDisturb_idle api ws inp h]
    unfold maybeDisturbF32
    rw [if_neg hf]
    exact ⟨rfl, rfl⟩

end Assignment3
